import Mathlib

/-!
# Stock-Prediction-Dashboard-AI: indicator and recommendation engine

A shallow embedding of `static/js/main.js` (the four indicator helpers
`calculateVolatility`, `calculateMA`, `calculateRSI`, `calculateVolumeTrend`,
the report builder `generateDetailedAnalysis`, the response normalizer
`transformed` and the prediction trace of `updateDashboard`) together with
the properties the specification states about them.

## Number model

A JavaScript number is modelled by `JSNum α`: a finite value of the ordered
field `α`, or one of the three non-finite values `NaN`, `+Infinity`,
`-Infinity`.  Arithmetic on finite values is exact (the rounding of IEEE-754
doubles is not modelled, and neither is the sign of zero: a zero divisor is
read as `+0`); the non-finite cases follow the IEEE rules JavaScript uses.
`α` is `ℚ` everywhere except after `Math.sqrt`, whose result lives in `ℝ`.

The properties that depend on the rounding of doubles (the range of the RSI
and its value without losses, the sign and the zero of the volatility, the
thresholds of the signal collector, the comparison of the two means behind
the trend) are stated on the namespace `Binary64` further down, which repeats
the functions concerned with every operation rounded to the nearest double
and overflowing to an infinity.

An array of numbers is a `List (JSNum ℚ)`; a series delivered by the server
holds finite numbers only and is written `series.map JSNum.fin`.
Reading an index outside an array gives `undefined`, modelled by `none`.
A thrown `TypeError` is `Except.error`.
-/

/-- The faults the modelled code can raise. -/
inductive JSError where
  | typeError
  deriving DecidableEq, Repr

deriving instance DecidableEq for Except

/-- A JavaScript number: finite, `NaN`, `+Infinity` or `-Infinity`. -/
inductive JSNum (α : Type) where
  | fin (x : α)
  | nan
  | pinf
  | ninf
  deriving DecidableEq, Repr

namespace JSNum

variable {α : Type} [LinearOrderedField α]

/-- Unary minus. -/
def neg : JSNum α → JSNum α
  | fin a => fin (-a)
  | nan => nan
  | pinf => ninf
  | ninf => pinf

/-- The operator `+` on numbers. -/
def add : JSNum α → JSNum α → JSNum α
  | fin a, fin b => fin (a + b)
  | nan, _ => nan
  | _, nan => nan
  | pinf, ninf => nan
  | ninf, pinf => nan
  | pinf, _ => pinf
  | _, pinf => pinf
  | ninf, _ => ninf
  | _, ninf => ninf

/-- The operator `-` on numbers. -/
def sub (x y : JSNum α) : JSNum α := add x (neg y)

/-- An infinity with the sign of the finite value `a`, `NaN` when `a` is zero. -/
def signedInf (a : α) : JSNum α :=
  if a = 0 then nan else if 0 < a then pinf else ninf

/-- The operator `*` on numbers. -/
def mul : JSNum α → JSNum α → JSNum α
  | fin a, fin b => fin (a * b)
  | nan, _ => nan
  | _, nan => nan
  | fin a, pinf => signedInf a
  | fin a, ninf => signedInf (-a)
  | pinf, fin b => signedInf b
  | ninf, fin b => signedInf (-b)
  | pinf, pinf => pinf
  | pinf, ninf => ninf
  | ninf, pinf => ninf
  | ninf, ninf => pinf

/-- The operator `/` on numbers; a zero divisor is `+0`. -/
def div : JSNum α → JSNum α → JSNum α
  | fin a, fin b => if b = 0 then signedInf a else fin (a / b)
  | nan, _ => nan
  | _, nan => nan
  | fin _, pinf => fin 0
  | fin _, ninf => fin 0
  | pinf, fin b => if 0 ≤ b then pinf else ninf
  | ninf, fin b => if 0 ≤ b then ninf else pinf
  | pinf, pinf => nan
  | pinf, ninf => nan
  | ninf, pinf => nan
  | ninf, ninf => nan

/-- The operator `<` on numbers: false as soon as one side is `NaN`. -/
def lt : JSNum α → JSNum α → Bool
  | fin a, fin b => decide (a < b)
  | nan, _ => false
  | _, nan => false
  | ninf, ninf => false
  | ninf, _ => true
  | _, ninf => false
  | pinf, _ => false
  | _, pinf => true

/-- The operator `>` on numbers. -/
def gt (x y : JSNum α) : Bool := lt y x

/-- The operator `>=` on numbers: false as soon as one side is `NaN`. -/
def ge : JSNum α → JSNum α → Bool
  | fin a, fin b => decide (b ≤ a)
  | nan, _ => false
  | _, nan => false
  | pinf, _ => true
  | _, ninf => true
  | ninf, _ => false
  | _, pinf => false

/-- The operator `===` between two numbers: `NaN` equals nothing. -/
def strictEq : JSNum α → JSNum α → Bool
  | fin a, fin b => decide (a = b)
  | pinf, pinf => true
  | ninf, ninf => true
  | _, _ => false

/-- The builtin `Math.abs`. -/
def abs : JSNum α → JSNum α
  | fin a => fin |a|
  | nan => nan
  | pinf => pinf
  | ninf => pinf

/-- The builtin `Math.pow(x, 2)`. -/
def pow2 : JSNum α → JSNum α
  | fin a => fin (a ^ 2)
  | nan => nan
  | pinf => pinf
  | ninf => pinf

/-- The builtin `Math.max` of two numbers. -/
def max2 : JSNum α → JSNum α → JSNum α
  | fin a, fin b => fin (max a b)
  | nan, _ => nan
  | _, nan => nan
  | pinf, _ => pinf
  | _, pinf => pinf
  | ninf, y => y
  | x, ninf => x

/-- The builtin `Math.min` of two numbers. -/
def min2 : JSNum α → JSNum α → JSNum α
  | fin a, fin b => fin (min a b)
  | nan, _ => nan
  | _, nan => nan
  | ninf, _ => ninf
  | _, ninf => ninf
  | pinf, y => y
  | x, pinf => x

/-- A number given by a natural literal or by an array length. -/
def ofNat (n : Nat) : JSNum α := fin (n : α)

end JSNum

/-- Reading a rational number as a real one. -/
def JSNum.toReal : JSNum ℚ → JSNum ℝ
  | .fin a => .fin (a : ℝ)
  | .nan => .nan
  | .pinf => .pinf
  | .ninf => .ninf

/-- The builtin `Math.sqrt`. -/
noncomputable def JSNum.sqrt : JSNum ℝ → JSNum ℝ
  | .fin a => if a < 0 then .nan else .fin (Real.sqrt a)
  | .nan => .nan
  | .pinf => .pinf
  | .ninf => .nan

/-- The numbers of the program, before any square root is taken. -/
abbrev Number := JSNum ℚ

/-- `ToNumber` of an array read: `undefined` becomes `NaN`. -/
def toNumber : Option Number → Number
  | some x => x
  | none => .nan

/-- `Array.prototype.reduce((a, b) => a + b)` with no initial value: a
`TypeError` on the empty array, else the left fold from the first element. -/
def reduceAdd {α : Type} [LinearOrderedField α] : List (JSNum α) → Except JSError (JSNum α)
  | [] => .error .typeError
  | a :: rest => .ok (rest.foldl JSNum.add a)

/-- `Array.prototype.reduce((a, b) => a + b, 0)`. -/
def reduceAdd0 {α : Type} [LinearOrderedField α] (xs : List (JSNum α)) : JSNum α :=
  xs.foldl JSNum.add (.fin 0)

/-- The position a relative index of `slice` denotes in an array of length
`len`: negative indices count from the end, and the result is clamped to
`0 .. len`. -/
def relIndex (len : Nat) (k : Int) : Nat :=
  if k < 0 then (len + k).toNat else min k.toNat len

/-- `Array.prototype.slice(start)`. -/
def sliceFrom {β : Type} (xs : List β) (start : Int) : List β :=
  xs.drop (relIndex xs.length start)

/-- `Array.prototype.slice(start, stop)`. -/
def sliceRange {β : Type} (xs : List β) (start stop : Int) : List β :=
  (xs.drop (relIndex xs.length start)).take
    (relIndex xs.length stop - relIndex xs.length start)

/-- `Math.max(...xs)`: `-Infinity` for no argument. -/
def mathMax (xs : List Number) : Number := xs.foldl JSNum.max2 .ninf

/-- `Math.min(...xs)`: `+Infinity` for no argument. -/
def mathMin (xs : List Number) : Number := xs.foldl JSNum.min2 .pinf

/-! ## The indicator helpers (main.js, lines 560-608) -/

/-- `calculateVolatility(prices)`. -/
noncomputable def calculateVolatility (prices : List Number) : Except JSError (JSNum ℝ) := do
  let total ← reduceAdd prices
  let mean := JSNum.div total (JSNum.ofNat prices.length)
  let squaredDiffs := prices.map (fun p => JSNum.pow2 (JSNum.sub p mean))
  let sqTotal ← reduceAdd squaredDiffs
  let variance := JSNum.div sqTotal (JSNum.ofNat prices.length)
  let stdDev := JSNum.sqrt variance.toReal
  return JSNum.mul (JSNum.div stdDev mean.toReal) (.fin 100)

/-- `calculateMA(prices, period)`. -/
def calculateMA (prices : List Number) (period : Nat) : Except JSError Number := do
  let recent := sliceFrom prices (-(period : Int))
  let total ← reduceAdd recent
  return JSNum.div total (JSNum.ofNat recent.length)

/-- The loop of `calculateRSI` that fills `changes`: for `i` from `1` to
`prices.length - 1`, it pushes `prices[i] - prices[i - 1]`. -/
def priceChanges : List Number → List Number
  | [] => []
  | [_] => []
  | a :: b :: rest => JSNum.sub b a :: priceChanges (b :: rest)

/-- `calculateRSI(prices, period)`. -/
def calculateRSI (prices : List Number) (period : Nat) : Number :=
  if prices.length < period + 1 then .fin 50 else
  let changes := priceChanges prices
  let recentChanges := sliceFrom changes (-(period : Int))
  let gains := recentChanges.filter (fun c => JSNum.gt c (.fin 0))
  let losses := (recentChanges.filter (fun c => JSNum.lt c (.fin 0))).map JSNum.abs
  let avgGain := if gains.length > 0
    then JSNum.div (reduceAdd0 gains) (JSNum.ofNat period) else .fin (1 / 100)
  let avgLoss := if losses.length > 0
    then JSNum.div (reduceAdd0 losses) (JSNum.ofNat period) else .fin (1 / 100)
  if JSNum.strictEq avgLoss (.fin 0) then .fin 100 else
  let rs := JSNum.div avgGain avgLoss
  JSNum.sub (.fin 100) (JSNum.div (.fin 100) (JSNum.add (.fin 1) rs))

/-- `calculateVolumeTrend(prices)`. -/
def calculateVolumeTrend (prices : List Number) : Except JSError Number := do
  if prices.length < 20 then return .fin 0
  let recentPrices := sliceFrom prices (-10)
  let oldPrices := sliceRange prices (-20) (-10)
  let recentTotal ← reduceAdd recentPrices
  let recentAvg := JSNum.div recentTotal (JSNum.ofNat recentPrices.length)
  let oldTotal ← reduceAdd oldPrices
  let oldAvg := JSNum.div oldTotal (JSNum.ofNat oldPrices.length)
  return JSNum.mul (JSNum.div (JSNum.sub recentAvg oldAvg) oldAvg) (.fin 100)

/-! ## Strings and number formatting -/

/-- A template literal: the concatenation of its pieces, in order. -/
def template (pieces : List String) : String :=
  pieces.foldr (fun piece rest => piece ++ rest) ""

/-- `Array.prototype.join(sep)` on an array of strings. -/
def joinWith (sep : String) : List String → String
  | [] => ""
  | [x] => x
  | x :: y :: rest => x ++ sep ++ joinWith sep (y :: rest)

section Fixed

variable {α : Type} [LinearOrderedField α] [FloorRing α]

/-- The integer `n` of `Number.prototype.toFixed(d)` applied to `|x|`: the one
for which `n / 10^d` is closest to `|x|`, the larger one on a tie. -/
def fixedUnits (x : α) (d : Nat) : Nat :=
  (Int.floor (|x| * 10 ^ d + 1 / 2)).toNat

/-- The decimal digits of `n`, left-padded with zeros to `d + 1` digits, with
a point before the last `d` digits when `d` is not zero. -/
def fixedDigits (n d : Nat) : String :=
  let digits := toString n
  if d = 0 then digits
  else
    let padded := "".pushn '0' (d + 1 - digits.length) ++ digits
    padded.take (padded.length - d) ++ "." ++ padded.drop (padded.length - d)

/-- `Number.prototype.toFixed(d)`: the text of `x` rounded to `d` decimals
(ties away from zero).  Above `10^21` JavaScript switches to the exponent
notation of `Number::toString`; the model keeps the plain digits there. -/
def toFixed (x : JSNum α) (d : Nat) : String :=
  match x with
  | .fin a => (if a < 0 then "-" else "") ++ fixedDigits (fixedUnits a d) d
  | .nan => "NaN"
  | .pinf => "Infinity"
  | .ninf => "-Infinity"

/-- The number read back from the text `x.toFixed(d)` when that text is used
where a number is expected (a comparison, `parseFloat`, `Math.abs`, a
subtraction): `x` rounded to `d` decimals. -/
def fixedValue (x : JSNum α) (d : Nat) : JSNum ℚ :=
  match x with
  | .fin a => .fin ((if a < 0 then -1 else 1) * (fixedUnits a d : ℚ) / 10 ^ d)
  | .nan => .nan
  | .pinf => .pinf
  | .ninf => .ninf

end Fixed

/-- A string produced by `toFixed`, together with the number it converts
back to. -/
structure FixedStr where
  text : String
  value : Number

/-- The string `x.toFixed(d)`. -/
def mkFixed {α : Type} [LinearOrderedField α] [FloorRing α] (x : JSNum α) (d : Nat) : FixedStr :=
  FixedStr.mk (toFixed x d) (fixedValue x d)

/-- `Number::toString` on a number with at most two decimals (it is only
applied to the absolute value of a `toFixed(2)` result): the digits of
`toFixed(2)` without the trailing zeros of the fraction. -/
def numberText (x : Number) : String :=
  match x with
  | .fin a =>
    let digits := (fixedDigits (fixedUnits a 2) 2).dropRightWhile (fun c => c == '0')
    (if a < 0 then "-" else "")
      ++ (if digits.endsWith "." then digits.dropRight 1 else digits)
  | .nan => "NaN"
  | .pinf => "Infinity"
  | .ninf => "-Infinity"

/-- A method call on an array read: a `TypeError` when the value is
`undefined`, else the number. -/
def requireNumber : Option Number → Except JSError Number
  | some x => .ok x
  | none => .error .typeError

/-! ## The data of a prediction -/

/-- One row of `historical_data`. -/
structure HistoricalRow where
  date : String
  Open : Number
  Close : Number
  High : Number
  Low : Number

/-- The field `metrics` of the normalized record. -/
structure Metrics where
  mse : String
  rmse : String
  mae : String
  accuracy : String
  trend : String

/-- The normalized record `transformed` (main.js, lines 105-137). -/
structure PredictionResult where
  ticker : String
  dates : List String
  historicalPrices : List Number
  predictions : List Number
  historicalData : List HistoricalRow
  metrics : Metrics

/-- An entry of `companyProfiles`. -/
structure Profile where
  name : String
  sector : String
  focus : String

/-- The table `companyProfiles` (lines 366-377); the properties a JavaScript
object inherits from `Object.prototype` are not modelled. -/
def companyProfiles : List (String × Profile) :=
  [("AAPL", Profile.mk "Apple Inc." "Technology"
      "consumer electronics and software"),
   ("GOOGL", Profile.mk "Alphabet Inc." "Technology"
      "digital advertising and cloud services"),
   ("MSFT", Profile.mk "Microsoft Corporation" "Technology"
      "cloud computing and enterprise software"),
   ("AMZN", Profile.mk "Amazon.com Inc." "E-commerce & Cloud"
      "retail and AWS services"),
   ("TSLA", Profile.mk "Tesla Inc." "Automotive & Energy"
      "electric vehicles and renewables"),
   ("NFLX", Profile.mk "Netflix Inc." "Entertainment"
      "streaming content"),
   ("NVDA", Profile.mk "NVIDIA Corporation" "Semiconductors"
      "GPUs and AI chips"),
   ("JPM", Profile.mk "JPMorgan Chase" "Finance"
      "banking and investment services"),
   ("META", Profile.mk "Meta Platforms" "Technology"
      "social media and metaverse"),
   ("AMD", Profile.mk "AMD Inc." "Semiconductors"
      "processors and graphics")]

/-- The profile of a ticker: `companyProfiles[data.ticker] || {...}` (line 379). -/
def profileOf (ticker : String) : Profile :=
  match companyProfiles.lookup ticker with
  | some profile => profile
  | none => Profile.mk ticker "Unknown" "business operations"

/-! ## The panels of the report (template literals of `generateDetailedAnalysis`) -/

/-- The markup written to `#stock-badge-container` (line 547). -/
def badgeHtml (data : PredictionResult) (profile : Profile) : String :=
  template [
    "<div class=\"stock-ticker-badge\">",
    data.ticker,
    " - ",
    profile.name,
    "</div>"]

/-- The template literal `summary` (line 387). -/
def summaryText (data : PredictionResult) (profile : Profile) (prices : List Number)
    (priceChange : FixedStr) (avgPrice : FixedStr) (minPrice : FixedStr) (maxPrice : FixedStr) :
    String :=
  template [
    profile.name,
    " (",
    data.ticker,
    ") operates in the ",
    profile.sector,
    " sector focusing on ",
    profile.focus,
    ". Over the past ",
    toString prices.length,
    " trading days, the stock has moved ",
    (if JSNum.ge priceChange.value (JSNum.fin 0) then "upward by " else "downward by "),
    numberText (JSNum.abs priceChange.value),
    "%, trading in a range of $",
    minPrice.text,
    " to $",
    maxPrice.text,
    " with an average price of $",
    avgPrice.text,
    "."]

/-- The template literal `historicalAnalysis` (line 389). -/
noncomputable def historicalAnalysisText (prices : List Number) (priceChange : FixedStr)
    (avgPrice : FixedStr) (volatility : JSNum ℝ) : String :=
  template [
    "The stock\x27s recent performance shows ",
    (if JSNum.gt volatility (JSNum.fin 3) then "significant volatility" else (if JSNum.gt volatility (JSNum.fin 1.5) then "moderate price swings" else "stable trading patterns")),
    " with a ",
    toFixed volatility 2,
    "% volatility level. Price momentum over the month has been ",
    (if JSNum.ge priceChange.value (JSNum.fin 0) then "positive, indicating buyer interest" else "negative, suggesting seller pressure"),
    ". The ",
    toString prices.length,
    "-day moving average shows the stock trading ",
    (if JSNum.gt (toNumber prices.getLast?) avgPrice.value then "above average" else "below average"),
    ", which is typical for ",
    (if JSNum.ge priceChange.value (JSNum.fin 0) then "bullish periods" else "bearish periods"),
    "."]

/-- The template literal `technicalAnalysis` (lines 398-417). -/
def technicalAnalysisText (minPrice : FixedStr) (maxPrice : FixedStr) (ma7 : Number) (ma21 :
    Number) (rsi : Number) (volumeTrend : Number) (currentPrice : Number) : String :=
  template [
    "\n        <strong>\uf8ff\u00fc\u00ec\u00e4 Moving Averages (Trend Indicators):</strong><br>\n        \u201a\u00c4\u00a2 7-day MA = (Last 7 prices sum) \u221a\u2211 7 = <span class=\"signal-positive\">$",
    toFixed ma7 2,
    "</span><br>\n        \u201a\u00c4\u00a2 21-day MA = (Last 21 prices sum) \u221a\u2211 21 = <span class=\"signal-positive\">$",
    toFixed ma21 2,
    "</span><br>\n        \u201a\u00c4\u00a2 Current Price: <strong>$",
    toFixed currentPrice 2,
    "</strong><br><br>\n        \n        <strong>\uf8ff\u00fc\u00ee\u00e7 Calculation:</strong> MA7 ($",
    toFixed ma7 2,
    ") ",
    (if JSNum.gt ma7 ma21 then ">" else "<"),
    " MA21 ($",
    toFixed ma21 2,
    ")<br>\n        <strong>\uf8ff\u00fc\u00ec\u00e5 Signal:</strong> ",
    (if JSNum.gt ma7 ma21 then "<span class=\"signal-positive\">\u201a\u00fa\u00d6 BULLISH</span> - Short-term momentum is UP" else "<span class=\"signal-negative\">\u201a\u00f6\u2020\u00d4\u220f\u00e8 BEARISH</span> - Short-term momentum is DOWN"),
    "<br><br>\n        \n        <strong>\uf8ff\u00fc\u00ec\u00e0 RSI (Momentum Strength):</strong><br>\n        \u201a\u00c4\u00a2 RSI Formula: 100 - (100 / (1 + (Avg Gain / Avg Loss)))<br>\n        \u201a\u00c4\u00a2 RSI Value = <strong>",
    toFixed rsi 2,
    "</strong><br>\n        \u201a\u00c4\u00a2 Status: ",
    (if JSNum.gt rsi (JSNum.fin 70) then "<span class=\"signal-negative\">\uf8ff\u00fc\u00ee\u00a5 OVERBOUGHT (>70)</span> - Sell pressure likely" else (if JSNum.lt rsi (JSNum.fin 30) then "<span class=\"signal-positive\">\uf8ff\u00fc\u00fc\u00a2 OVERSOLD (<30)</span> - Buy opportunity" else "<span class=\"signal-neutral\">\uf8ff\u00fc\u00fc\u00b0 NEUTRAL (30-70)</span> - Balanced market")),
    "<br><br>\n        \n        <strong>\uf8ff\u00fc\u00ec\u00e7 Price Positioning:</strong><br>\n        \u201a\u00c4\u00a2 Distance from MA7: ",
    toFixed (JSNum.mul (JSNum.div (JSNum.sub currentPrice ma7) ma7) (JSNum.fin 100)) 2,
    "% ",
    (if JSNum.gt currentPrice ma7 then "(Above - Strong \uf8ff\u00fc\u00ed\u2122)" else "(Below - Weak \uf8ff\u00fc\u00ec\u00e2)"),
    "<br>\n        \u201a\u00c4\u00a2 Distance from MA21: ",
    toFixed (JSNum.mul (JSNum.div (JSNum.sub currentPrice ma21) ma21) (JSNum.fin 100)) 2,
    "% ",
    (if JSNum.gt currentPrice ma21 then "(Above)" else "(Below)"),
    "<br>\n        \u201a\u00c4\u00a2 Support Level: $",
    minPrice.text,
    " | Resistance: $",
    maxPrice.text,
    "<br>\n        \u201a\u00c4\u00a2 Volume Trend: ",
    (if JSNum.gt volumeTrend (JSNum.fin 0) then "<span class=\"signal-positive\">\uf8ff\u00fc\u00ec\u00e0 Increasing (+" ++ (toFixed volumeTrend 1) ++ "%)</span>" else "<span class=\"signal-negative\">\uf8ff\u00fc\u00ec\u00e2 Decreasing (" ++ (toFixed volumeTrend 1) ++ "%)</span>"),
    "\n    "]

/-- The template literal `predictionReasoning` (lines 425-451). -/
def predictionReasoningText (data : PredictionResult) (priceChange : FixedStr) (avgPrice :
    FixedStr) (predictionChange : FixedStr) (ma7 : Number) (ma21 : Number) (rsi : Number)
    (volumeTrend : Number) (currentPrice : Number) (predictedPrice : Number) (isBullish : Bool) :
    String :=
  template [
    "\n        <strong>\uf8ff\u00fc\u00e9\u00d8 AI Prediction: <span class=\"signal-positive\">$",
    toFixed predictedPrice 2,
    "</span></strong> (",
    (if JSNum.ge predictionChange.value (JSNum.fin 0) then "+" else ""),
    predictionChange.text,
    "% from current)<br><br>\n        \n        <strong>\uf8ff\u00fc\u00ee\u00e7 WHY ",
    (if isBullish then "BULLISH" else "BEARISH"),
    " Trend?</strong><br>\n        ",
    (if isBullish then template [
      "<span class=\"signal-positive\">\u201a\u00fa\u00d6 Bullish Signals Detected:</span><br>\n             1\u00d4\u220f\u00e8\u201a\u00c9\u00a3 MA7 ($",
      toFixed ma7 2,
      ") > MA21 ($",
      toFixed ma21 2,
      ") = Short-term momentum UP<br>\n             2\u00d4\u220f\u00e8\u201a\u00c9\u00a3 Current price ($",
      toFixed currentPrice 2,
      ") is ",
      (if JSNum.gt currentPrice avgPrice.value then "ABOVE" else "near"),
      " average ($",
      avgPrice.text,
      ")<br>\n             3\u00d4\u220f\u00e8\u201a\u00c9\u00a3 Price trajectory: ",
      (if JSNum.ge priceChange.value (JSNum.fin 0) then "+" else ""),
      priceChange.text,
      "% ",
      (if JSNum.ge priceChange.value (JSNum.fin 0) then "gain shows buyers in control" else "but stabilizing"),
      "<br>\n             4\u00d4\u220f\u00e8\u201a\u00c9\u00a3 RSI (",
      toFixed rsi 0,
      "): ",
      (if JSNum.lt rsi (JSNum.fin 70) then "Room to grow, not overbought yet" else "Strong but near peak"),
      "<br>\n             5\u00d4\u220f\u00e8\u201a\u00c9\u00a3 Volume: ",
      (if JSNum.gt volumeTrend (JSNum.fin 0) then "Increasing - confirms uptrend \uf8ff\u00fc\u00ec\u00e0" else "Stable"),
      "<br>"] else template [
      "<span class=\"signal-negative\">\u201a\u00f6\u2020\u00d4\u220f\u00e8 Bearish Signals Detected:</span><br>\n             1\u00d4\u220f\u00e8\u201a\u00c9\u00a3 MA7 ($",
      toFixed ma7 2,
      ") < MA21 ($",
      toFixed ma21 2,
      ") = Short-term momentum DOWN<br>\n             2\u00d4\u220f\u00e8\u201a\u00c9\u00a3 Current price ($",
      toFixed currentPrice 2,
      ") showing weakness vs average ($",
      avgPrice.text,
      ")<br>\n             3\u00d4\u220f\u00e8\u201a\u00c9\u00a3 Price trajectory: ",
      priceChange.text,
      "% decline shows sellers dominating<br>\n             4\u00d4\u220f\u00e8\u201a\u00c9\u00a3 RSI (",
      toFixed rsi 0,
      "): ",
      (if JSNum.gt rsi (JSNum.fin 30) then "Downward pressure continues" else "Oversold - potential bounce ahead"),
      "<br>\n             5\u00d4\u220f\u00e8\u201a\u00c9\u00a3 Volume: ",
      (if JSNum.lt volumeTrend (JSNum.fin 0) then "Decreasing - weak hands selling \uf8ff\u00fc\u00ec\u00e2" else "Mixed"),
      "<br>"]),
    "<br>\n        \n        <strong>\uf8ff\u00fc\u00ec\u00e4 How Prediction Was Calculated:</strong><br>\n        \u201a\u00c4\u00a2 GRU analyzed 60-day price patterns (60 days \u221a\u00f3 5 indicators = 300 data points)<br>\n        \u201a\u00c4\u00a2 Features weighted: Close (35%), MA7 (25%), MA21 (20%), RSI (12%), MACD (8%)<br>\n        \u201a\u00c4\u00a2 Model accuracy: ",
    data.metrics.accuracy,
    "% (Error: \u00ac\u00b1$",
    data.metrics.rmse,
    ")<br>\n        \u201a\u00c4\u00a2 Formula: Weighted_Sum \u221a\u00f3 Scale_Factor = $",
    toFixed predictedPrice 2,
    "<br>\n        \u201a\u00c4\u00a2 Confidence range: $",
    toFixed (JSNum.mul predictedPrice (JSNum.fin 0.97)) 2,
    " - $",
    toFixed (JSNum.mul predictedPrice (JSNum.fin 1.03)) 2,
    " (\u00ac\u00b13%)\n    "]

/-- The template literal `riskAssessment` (lines 454-473). -/
noncomputable def riskAssessmentText (data : PredictionResult) (profile : Profile) (minPrice :
    FixedStr) (maxPrice : FixedStr) (volatility : JSNum ℝ) (currentPrice : Number) (riskLevel :
    String) : String :=
  template [
    "\n        <strong>Risk Level: <span class=\"metric-highlight\">",
    riskLevel,
    "</span></strong><br><br>\n        \n        <strong>\uf8ff\u00fc\u00ec\u00e4 Volatility Analysis:</strong><br>\n        \u201a\u00c4\u00a2 Standard Deviation: ",
    toFixed volatility 2,
    "%<br>\n        \u201a\u00c4\u00a2 Price Range: $",
    minPrice.text,
    " - $",
    maxPrice.text,
    " (Spread: $",
    toFixed (JSNum.sub maxPrice.value minPrice.value) 2,
    ")<br>\n        \u201a\u00c4\u00a2 Daily swing potential: \u00ac\u00b1",
    toFixed (JSNum.div volatility (JSNum.fin 2)) 2,
    "%<br>\n        \u201a\u00c4\u00a2 Risk Category: ",
    riskLevel,
    " ",
    (if riskLevel == "HIGH" then "(\uf8ff\u00fc\u00ee\u00a5 Large swings expected)" else (if riskLevel == "MODERATE" then "(\uf8ff\u00fc\u00fc\u00b0 Normal fluctuations)" else "(\uf8ff\u00fc\u00fc\u00a2 Stable, predictable)")),
    "<br><br>\n        \n        <strong>\u201a\u00f6\u2020\u00d4\u220f\u00e8 Risk Factors:</strong><br>\n        \u201a\u00c4\u00a2 Earnings announcements can cause sudden moves<br>\n        \u201a\u00c4\u00a2 ",
    profile.sector,
    " sector news affects ",
    profile.name,
    "<br>\n        \u201a\u00c4\u00a2 Fed policy, inflation data impact stock prices<br>\n        \u201a\u00c4\u00a2 Model error margin: \u00ac\u00b1$",
    data.metrics.rmse,
    "<br><br>\n        \n        <strong>\uf8ff\u00fc\u00f5\u00b0\u00d4\u220f\u00e8 Recommended Stop-Loss:</strong><br>\n        ",
    (if riskLevel == "HIGH" then "\u201a\u00c4\u00a2 Tight stop: $" ++ (toFixed (JSNum.mul currentPrice (JSNum.fin 0.95)) 2) ++ " (-5% from current)<br>\u201a\u00c4\u00a2 Position size: Keep small (2-5% of capital)" else (if riskLevel == "MODERATE" then "\u201a\u00c4\u00a2 Normal stop: $" ++ (toFixed (JSNum.mul currentPrice (JSNum.fin 0.92)) 2) ++ " (-8% from current)<br>\u201a\u00c4\u00a2 Position size: Moderate (5-10% of capital)" else "\u201a\u00c4\u00a2 Wide stop: $" ++ (toFixed (JSNum.mul currentPrice (JSNum.fin 0.90)) 2) ++ " (-10% from current)<br>\u201a\u00c4\u00a2 Position size: Can be larger (up to 15%)")),
    "\n    "]

/-- The template literal `outlook` (lines 495-545). -/
def outlookText (profile : Profile) (minPrice : FixedStr) (maxPrice : FixedStr)
    (predictionChange : FixedStr) (ma7 : Number) (ma21 : Number) (currentPrice : Number)
    (predictedPrice : Number) (riskLevel : String) (recommendation : String) (confidence : String)
    (buySignals : List String) (sellSignals : List String) : String :=
  template [
    "\n        <strong>\uf8ff\u00fc\u00ec\u00e4 RECOMMENDATION: <span class=\"metric-highlight\" style=\"background: ",
    (if recommendation == "BUY" then "rgba(0, 255, 136, 0.25)" else (if recommendation == "SELL" then "rgba(255, 56, 96, 0.25)" else "rgba(255, 149, 0, 0.25)")),
    "; border-color: ",
    (if recommendation == "BUY" then "var(--accent-green)" else (if recommendation == "SELL" then "var(--accent-red)" else "var(--accent-orange)")),
    "; color: ",
    (if recommendation == "BUY" then "var(--accent-green)" else (if recommendation == "SELL" then "var(--accent-red)" else "var(--accent-orange)")),
    "; font-size: 1.2rem;\">",
    recommendation,
    "</span></strong><br>\n        <strong>Confidence: ",
    confidence,
    "</strong> (",
    toString (buySignals.length + sellSignals.length),
    " signals detected)<br><br>\n        \n        ",
    (if recommendation == "BUY" then template [
      "<strong><span class=\"signal-positive\">\uf8ff\u00fc\u00fc\u00a2 BUY Signals (",
      toString buySignals.length,
      "):</span></strong><br>\n             ",
      joinWith "<br>" (buySignals.map (fun s => "\u201a\u00fa\u00ec " ++ s)),
      "<br>\n             ",
      (if decide (sellSignals.length > 0) then "<br><strong>\u201a\u00f6\u2020\u00d4\u220f\u00e8 Warning Signs (" ++ (toString sellSignals.length) ++ "):</strong><br>" ++ (joinWith "<br>" (sellSignals.map (fun s => "\u201a\u00c4\u00a2 " ++ s))) ++ "<br>" else ""),
      "<br>\n             <strong>\uf8ff\u00fc\u00e9\u00d8 Action Plan:</strong><br>\n             \u201a\u00c4\u00a2 <strong>Entry Zone:</strong> $",
      toFixed (JSNum.mul currentPrice (JSNum.fin 0.99)) 2,
      " - $",
      toFixed currentPrice 2,
      "<br>\n             \u201a\u00c4\u00a2 <strong>Target Price:</strong> $",
      toFixed predictedPrice 2,
      " (",
      (if JSNum.ge predictionChange.value (JSNum.fin 0) then "+" else ""),
      predictionChange.text,
      "%)<br>\n             \u201a\u00c4\u00a2 <strong>Stop Loss:</strong> $",
      toFixed (JSNum.mul currentPrice (JSNum.fin 0.95)) 2,
      " (-5%)<br>\n             \u201a\u00c4\u00a2 <strong>Risk/Reward:</strong> ",
      toFixed (JSNum.div (JSNum.abs predictionChange.value) (JSNum.fin 5)) 2,
      ":1<br>\n             \u201a\u00c4\u00a2 <strong>Time Frame:</strong> ",
      (if JSNum.gt (JSNum.abs predictionChange.value) (JSNum.fin 5) then "1-2 weeks (short-term)" else "2-4 weeks (medium-term)"),
      "<br>\n             \u201a\u00c4\u00a2 <strong>Position Size:</strong> ",
      (if riskLevel == "HIGH" then "2-5%" else (if riskLevel == "MODERATE" then "5-10%" else "10-15%")),
      " of portfolio"] else (if recommendation == "SELL" then template [
      "<strong><span class=\"signal-negative\">\uf8ff\u00fc\u00ee\u00a5 SELL Signals (",
      toString sellSignals.length,
      "):</span></strong><br>\n             ",
      joinWith "<br>" (sellSignals.map (fun s => "\u201a\u00fa\u00ec " ++ s)),
      "<br>\n             ",
      (if decide (buySignals.length > 0) then "<br><strong>\uf8ff\u00fc\u00ed\u00b0 Positive Factors (" ++ (toString buySignals.length) ++ "):</strong><br>" ++ (joinWith "<br>" (buySignals.map (fun s => "\u201a\u00c4\u00a2 " ++ s))) ++ "<br>" else ""),
      "<br>\n             <strong>\uf8ff\u00fc\u00e9\u00d8 Action Plan:</strong><br>\n             \u201a\u00c4\u00a2 <strong>Exit Price:</strong> $",
      toFixed currentPrice 2,
      " or better<br>\n             \u201a\u00c4\u00a2 <strong>Strategy:</strong> ",
      (if JSNum.gt (JSNum.abs predictionChange.value) (JSNum.fin 5) then "Sell immediately" else "Sell on next bounce to MA7"),
      "<br>\n             \u201a\u00c4\u00a2 <strong>Avoid:</strong> New positions until trend reverses<br>\n             \u201a\u00c4\u00a2 <strong>Watch for:</strong> MA7 crossing above MA21 (reversal signal)<br>\n             \u201a\u00c4\u00a2 <strong>Alternative:</strong> If must hold, set stop-loss at $",
      toFixed (JSNum.mul currentPrice (JSNum.fin 0.92)) 2,
      " (-8%)"] else template [
      "<strong><span class=\"signal-neutral\">\uf8ff\u00fc\u00fc\u00b0 HOLD / WAIT (",
      toString (max buySignals.length sellSignals.length),
      " signals each side)</span></strong><br>\n             <strong>Buy Signals (",
      toString buySignals.length,
      "):</strong><br>",
      joinWith "<br>" (buySignals.map (fun s => "\u201a\u00fa\u00ec " ++ s)),
      "<br><br>\n             <strong>Sell Signals (",
      toString sellSignals.length,
      "):</strong><br>",
      joinWith "<br>" (sellSignals.map (fun s => "\u201a\u00fa\u00ec " ++ s)),
      "<br><br>\n             <strong>\uf8ff\u00fc\u00e9\u00d8 Action Plan:</strong><br>\n             \u201a\u00c4\u00a2 <strong>Wait for clarity</strong> - Mixed signals suggest indecision<br>\n             \u201a\u00c4\u00a2 <strong>Set alerts:</strong> Buy if drops below $",
      toFixed (JSNum.mul currentPrice (JSNum.fin 0.97)) 2,
      "<br>\n             \u201a\u00c4\u00a2 <strong>Set alerts:</strong> Sell if rises above $",
      toFixed (JSNum.mul currentPrice (JSNum.fin 1.03)) 2,
      "<br>\n             \u201a\u00c4\u00a2 <strong>Monitor:</strong> ",
      profile.sector,
      " sector news & earnings dates<br>\n             \u201a\u00c4\u00a2 <strong>Re-evaluate:</strong> In 2-3 trading days"])),
    "<br><br>\n        \n        <strong>\uf8ff\u00fc\u00ec\u00e7 Key Price Levels:</strong><br>\n        \u201a\u00c4\u00a2 Current: <strong>$",
    toFixed currentPrice 2,
    "</strong><br>\n        \u201a\u00c4\u00a2 AI Target: <span class=\"signal-positive\">$",
    toFixed predictedPrice 2,
    "</span> (",
    (if JSNum.ge predictionChange.value (JSNum.fin 0) then "+" else ""),
    predictionChange.text,
    "%)<br>\n        \u201a\u00c4\u00a2 Support: <span class=\"signal-positive\">$",
    minPrice.text,
    "</span> (floor)<br>\n        \u201a\u00c4\u00a2 Resistance: <span class=\"signal-negative\">$",
    maxPrice.text,
    "</span> (ceiling)<br>\n        \u201a\u00c4\u00a2 MA7: $",
    toFixed ma7 2,
    " | MA21: $",
    toFixed ma21 2,
    "<br><br>\n        \n        <strong>\u201a\u00d1\u03c0\u00d4\u220f\u00e8 Important Notes:</strong><br>\n        \u201a\u00c4\u00a2 This is AI analysis, not financial advice<br>\n        \u201a\u00c4\u00a2 Always do your own research (DYOR)<br>\n        \u201a\u00c4\u00a2 Never invest more than you can afford to lose<br>\n        \u201a\u00c4\u00a2 Past performance doesn\x27t guarantee future results\n    "]

/-! ## The report builder `generateDetailedAnalysis` (main.js, lines 361-558) -/

/-- The variable `riskLevel` (line 453). -/
noncomputable def riskLevelOf (volatility : JSNum ℝ) : String :=
  if JSNum.gt volatility (JSNum.fin 3) then "HIGH"
  else if JSNum.gt volatility (JSNum.fin 1.5) then "MODERATE" else "LOW"

/-- A conditional `signals.push(description)`. -/
def pushIf (condition : Bool) (signals : List String) (description : String) : List String :=
  if condition then signals ++ [description] else signals

/-- The signal collector (lines 476-489): the two arrays `buySignals` and
`sellSignals` after the ten conditional pushes. -/
def collectSignals (rsi ma7 ma21 currentPrice : Number) (minPrice maxPrice : FixedStr)
    (predictionChange : FixedStr) (volumeTrend : Number) : List String × List String :=
  let buySignals : List String := []
  let sellSignals : List String := []
  let buySignals := pushIf (JSNum.lt rsi (JSNum.fin 35)) buySignals
    (template ["RSI oversold (", toFixed rsi 0, " < 35)"])
  let sellSignals := pushIf (JSNum.gt rsi (JSNum.fin 65)) sellSignals
    (template ["RSI overbought (", toFixed rsi 0, " > 65)"])
  let buySignals := pushIf (JSNum.gt ma7 ma21 && JSNum.gt currentPrice ma7) buySignals
    "Bullish MA crossover + price above MA7"
  let sellSignals := pushIf (JSNum.lt ma7 ma21 && JSNum.lt currentPrice ma7) sellSignals
    "Bearish MA crossover + price below MA7"
  let buySignals := pushIf (JSNum.lt currentPrice (JSNum.mul minPrice.value (JSNum.fin 1.05)))
    buySignals "Near support level (bounce potential)"
  let sellSignals := pushIf (JSNum.gt currentPrice (JSNum.mul maxPrice.value (JSNum.fin 0.95)))
    sellSignals "Near resistance (pullback likely)"
  let buySignals := pushIf (JSNum.gt predictionChange.value (JSNum.fin 2)) buySignals
    (template ["AI predicts +", predictionChange.text, "% gain"])
  let sellSignals := pushIf (JSNum.lt predictionChange.value (JSNum.fin (-2))) sellSignals
    (template ["AI predicts ", predictionChange.text, "% loss"])
  let buySignals := pushIf (JSNum.gt volumeTrend (JSNum.fin 5)) buySignals
    ("Volume increasing (+" ++ toFixed volumeTrend 1 ++ "%)")
  let sellSignals := pushIf (JSNum.lt volumeTrend (JSNum.fin (-5))) sellSignals
    ("Volume decreasing (" ++ toFixed volumeTrend 1 ++ "%)")
  (buySignals, sellSignals)

/-- The variable `recommendation` (lines 491-492). -/
def recommendationOf (buySignals sellSignals : List String) : String :=
  if buySignals.length > sellSignals.length then "BUY"
  else if sellSignals.length > buySignals.length then "SELL" else "HOLD"

/-- The variable `confidence` (line 493). -/
def confidenceOf (buySignals sellSignals : List String) : String :=
  if JSNum.ge (JSNum.abs (JSNum.sub (JSNum.ofNat buySignals.length : Number)
      (JSNum.ofNat sellSignals.length))) (JSNum.fin 2)
  then "High" else "Moderate"

/-- What one run of `generateDetailedAnalysis` that raises no fault leaves
behind: the markup written to the seven panels, and the local constants the
panels are built from. -/
structure Analysis where
  volatility : JSNum ℝ
  minPrice : FixedStr
  maxPrice : FixedStr
  ma7 : Number
  ma21 : Number
  currentPrice : Number
  rsi : Number
  volumeTrend : Number
  predictedPrice : Number
  predictionChange : FixedStr
  riskLevel : String
  buySignals : List String
  sellSignals : List String
  recommendation : String
  confidence : String
  badge : String
  summary : String
  historicalAnalysis : String
  technicalAnalysis : String
  predictionReasoning : String
  riskAssessment : String
  outlook : String

/-- `generateDetailedAnalysis(data)`.  A fault raised inside the `try` block
is caught there and reported by a notification; the model returns it as
`Except.error`. -/
noncomputable def generateDetailedAnalysis (data : PredictionResult) :
    Except JSError Analysis := do
  let profile := profileOf data.ticker
  let prices := data.historicalPrices
  let priceChange := mkFixed (JSNum.mul (JSNum.div
    (JSNum.sub (toNumber prices.getLast?) (toNumber prices.head?)) (toNumber prices.head?))
    (JSNum.fin 100)) 2
  let volatility ← calculateVolatility prices
  let total ← reduceAdd prices
  let avgPrice := mkFixed (JSNum.div total (JSNum.ofNat prices.length)) 2
  let maxPrice := mkFixed (mathMax prices) 2
  let minPrice := mkFixed (mathMin prices) 2
  let summary := summaryText data profile prices priceChange avgPrice minPrice maxPrice
  let historicalAnalysis := historicalAnalysisText prices priceChange avgPrice volatility
  let ma7 ← calculateMA prices 7
  let ma21 ← calculateMA prices 21
  let rsi := calculateRSI prices 14
  let volumeTrend ← calculateVolumeTrend prices
  -- line 402: `currentPrice.toFixed(2)` is the first method call on `currentPrice`
  let currentPrice ← requireNumber prices.getLast?
  let technicalAnalysis :=
    technicalAnalysisText minPrice maxPrice ma7 ma21 rsi volumeTrend currentPrice
  let lastPrice := data.historicalPrices.getLast?
  let predictionChange := mkFixed (JSNum.mul (JSNum.div
    (JSNum.sub (toNumber data.predictions.getLast?) (toNumber lastPrice)) (toNumber lastPrice))
    (JSNum.fin 100)) 2
  let isBullish := data.metrics.trend == "Bullish"
  -- line 426: `predictedPrice.toFixed(2)` is the first method call on `predictedPrice`
  let predictedPrice ← requireNumber data.predictions.getLast?
  let predictionReasoning := predictionReasoningText data priceChange avgPrice predictionChange
    ma7 ma21 rsi volumeTrend currentPrice predictedPrice isBullish
  let riskLevel := riskLevelOf volatility
  let riskAssessment :=
    riskAssessmentText data profile minPrice maxPrice volatility currentPrice riskLevel
  let signals :=
    collectSignals rsi ma7 ma21 currentPrice minPrice maxPrice predictionChange volumeTrend
  let buySignals := signals.1
  let sellSignals := signals.2
  let recommendation := recommendationOf buySignals sellSignals
  let confidence := confidenceOf buySignals sellSignals
  let outlook := outlookText profile minPrice maxPrice predictionChange ma7 ma21 currentPrice
    predictedPrice riskLevel recommendation confidence buySignals sellSignals
  return Analysis.mk volatility minPrice maxPrice ma7 ma21 currentPrice rsi volumeTrend
    predictedPrice predictionChange riskLevel buySignals sellSignals recommendation confidence
    (badgeHtml data profile) summary historicalAnalysis technicalAnalysis predictionReasoning
    riskAssessment outlook

/-! ## The response normalizer (main.js, lines 105-137) -/

/-- The field `metrics` of the server's response; each metric can be absent. -/
structure RawMetrics where
  mse : Option Number
  rmse : Option Number
  mae : Option Number

/-- The JSON response of `/predict`; every field can be absent. -/
structure RawResponse where
  ticker : Option String
  dates : Option (List String)
  historical_prices : Option (List Number)
  predictions : Option (List Number)
  historical_data : Option (List HistoricalRow)
  metrics : Option RawMetrics

/-- `x || 0` on a number that can be absent: `undefined`, `0` and `NaN` are
falsy. -/
def orZero : Option Number → Number
  | some (.fin a) => .fin a
  | some .nan => .fin 0
  | some .pinf => .pinf
  | some .ninf => .ninf
  | none => .fin 0

/-- One of the metric strings `mse`, `rmse`, `mae` (lines 112-114): the
`toFixed(4)` text of a metric that is a number, else `'0.0000'`. -/
def metricText (metric : Option Number) : String :=
  match metric with
  | some x => toFixed x 4
  | none => "0.0000"

/-- The constant `avgPrice` of the accuracy computation (lines 118-120). -/
def accuracyAvgPrice (json : RawResponse) : Number :=
  match json.historical_prices with
  | some prices =>
    if prices.length > 0 then JSNum.div (reduceAdd0 prices) (JSNum.ofNat prices.length)
    else .fin 100
  | none => .fin 100

/-- The constant `accuracy` of the accuracy computation (lines 117-123),
before it is formatted. -/
def accuracyNumber (json : RawResponse) : Number :=
  let rmse := orZero (json.metrics.bind (fun m => m.rmse))
  let avgPrice := accuracyAvgPrice json
  let errorPercent := JSNum.mul (JSNum.div rmse avgPrice) (.fin 100)
  JSNum.max2 (.fin 0) (JSNum.min2 (.fin 100) (JSNum.sub (.fin 100) errorPercent))

/-- The field `accuracy` of the normalized record (lines 115-125). -/
def accuracy (json : RawResponse) : String :=
  toFixed (accuracyNumber json) 2

/-- The field `trend` of the normalized record (lines 126-135). -/
def trend (json : RawResponse) : String :=
  let hp := json.historical_prices.getD []
  let predArr := json.predictions.getD []
  if hp.length > 0 ∧ predArr.length > 0 then
    let avgHist := JSNum.div (reduceAdd0 hp) (JSNum.ofNat hp.length)
    let avgPred := JSNum.div (reduceAdd0 predArr) (JSNum.ofNat predArr.length)
    if JSNum.ge avgPred avgHist then "Bullish" else "Bearish"
  else "Neutral"

/-- The normalized record `transformed` built from the response `json` and
the submitted `ticker` (lines 105-137). -/
def transformed (json : RawResponse) (ticker : String) : PredictionResult :=
  PredictionResult.mk
    (match json.ticker with
      | some t => if t = "" then ticker else t
      | none => ticker)
    (json.dates.getD [])
    (json.historical_prices.getD [])
    (json.predictions.getD [])
    (json.historical_data.getD [])
    (Metrics.mk
      (metricText (json.metrics.bind (fun m => m.mse)))
      (metricText (json.metrics.bind (fun m => m.rmse)))
      (metricText (json.metrics.bind (fun m => m.mae)))
      (accuracy json)
      (trend json))

/-! ## The prediction trace of `updateDashboard` (main.js, lines 236-243) -/

/-- The fields `x` and `y` of the trace named `Predictions` in the line
chart: `data.dates.slice(-Math.min(30, data.predictions.length))` and
`data.predictions.slice(-Math.min(30, data.predictions.length))`. -/
def predictionTrace (data : PredictionResult) : List String × List Number :=
  (sliceFrom data.dates (-((min 30 data.predictions.length : Nat) : Int)),
   sliceFrom data.predictions (-((min 30 data.predictions.length : Nat) : Int)))

/-! ## Binary64 arithmetic

The definitions above compute on exact rationals.  The code computes on IEEE
binary64 numbers: every `+`, `-`, `*`, `/`, `Math.sqrt` and `Math.pow` rounds
its exact result to the nearest double (ties to even) and overflows to an
infinity.  The namespace `Binary64` repeats, with that rounding, the
functions whose specified properties depend on it.  A double is still a
`Number`: its exact rational value, `NaN` or an infinity (the sign of zero
is not modelled). -/

namespace Binary64

/-- Rounding of a rational to an integer, ties to the even one. -/
def roundHalfEven (x : ℚ) : ℤ :=
  if x - ⌊x⌋ < 1 / 2 then ⌊x⌋
  else if 1 / 2 < x - ⌊x⌋ then ⌊x⌋ + 1
  else if ⌊x⌋ % 2 = 0 then ⌊x⌋ else ⌊x⌋ + 1

/-- The loop of `bitLength`: halve `n` until it is zero, at most `fuel`
times. -/
def bitLengthAux : Nat → Nat → Nat
  | 0, _ => 0
  | fuel + 1, n => if n = 0 then 0 else bitLengthAux fuel (n / 2) + 1

/-- The number of binary digits of `n` (0 for 0). -/
def bitLength (n : Nat) : Nat := bitLengthAux n n

/-- The exponent of the binade of a positive rational `q`: `⌊log₂ q⌋`,
found from the bit lengths of numerator and denominator and one comparison,
and not below `-1022` (the subnormal numbers share the exponent of the
smallest normal ones). -/
def binade (q : ℚ) : ℤ :=
  max (if (2 : ℚ) ^ ((bitLength q.num.natAbs : ℤ) - (bitLength q.den : ℤ)) ≤ q
        then (bitLength q.num.natAbs : ℤ) - (bitLength q.den : ℤ)
        else (bitLength q.num.natAbs : ℤ) - (bitLength q.den : ℤ) - 1)
    (-1022)

/-- The double nearest to the rational `q` (ties to even), or an infinity
when the rounded magnitude reaches `2^1024`. -/
def nearest (q : ℚ) : Number :=
  if q = 0 then .fin 0
  else
    if (2 : ℚ) ^ (1024 : ℤ)
        ≤ (roundHalfEven (|q| / 2 ^ (binade |q| - 52)) : ℚ) * 2 ^ (binade |q| - 52)
    then (if 0 < q then .pinf else .ninf)
    else .fin ((if 0 < q then 1 else -1)
      * ((roundHalfEven (|q| / 2 ^ (binade |q| - 52)) : ℚ) * 2 ^ (binade |q| - 52)))

/-- Rounding of the exact result of an operation. -/
def rnd : Number → Number
  | .fin q => nearest q
  | .nan => .nan
  | .pinf => .pinf
  | .ninf => .ninf

/-- A decimal literal of the source, or a number of the JSON response: the
nearest double. -/
def lit (q : ℚ) : Number := nearest q

/-- The operator `+`. -/
def add (x y : Number) : Number := rnd (JSNum.add x y)

/-- The operator `-`. -/
def sub (x y : Number) : Number := rnd (JSNum.sub x y)

/-- The operator `*`. -/
def mul (x y : Number) : Number := rnd (JSNum.mul x y)

/-- The operator `/`. -/
def div (x y : Number) : Number := rnd (JSNum.div x y)

/-- `Math.pow(x, 2)`, taken as the correctly rounded square. -/
def pow2 (x : Number) : Number := rnd (JSNum.pow2 x)

/-- The loop of an integer square root, one bit at a time from bit `k - 1`
down to bit 0. -/
def isqrtAux (n : Nat) : Nat → Nat → Nat
  | 0, r => r
  | k + 1, r => if (r + 2 ^ k) ^ 2 ≤ n then isqrtAux n k (r + 2 ^ k) else isqrtAux n k r

/-- The integer square root `⌊√n⌋`. -/
def isqrt (n : Nat) : Nat := isqrtAux n (bitLength n / 2 + 1) 0

/-- `Math.sqrt`, correctly rounded: the argument is scaled by a power of 4
to an integer part of more than 112 bits, whose integer square root `r`
locates the root between `r` and `r + 1`; the root is `r` itself when
`r² ` is the scaled argument, and otherwise rounds as `r + 1/2` does, no double
and no midpoint of two doubles lying strictly between `r` and `r + 1`. -/
def sqrt : Number → Number
  | .fin q =>
    if q < 0 then .nan
    else if q = 0 then .fin 0
    else
      let t : Nat :=
        ((112 : ℤ) + (bitLength q.den : ℤ) - (bitLength q.num.natAbs : ℤ)).toNat / 2 + 1
      let r : Nat := isqrt ⌊q * 4 ^ t⌋₊
      if ((r : ℚ) * r = q * 4 ^ t) then nearest ((r : ℚ) / 2 ^ t)
      else nearest (((r : ℚ) + 1 / 2) / 2 ^ t)
  | .nan => .nan
  | .pinf => .pinf
  | .ninf => .nan

/-- An array length, or a small integer of the source, as a number. -/
def ofNat (n : Nat) : Number := nearest (n : ℚ)

/-- `Array.prototype.reduce((a, b) => a + b)` with no initial value. -/
def reduceAdd : List Number → Except JSError Number
  | [] => .error .typeError
  | a :: rest => .ok (rest.foldl add a)

/-- `Array.prototype.reduce((a, b) => a + b, 0)`. -/
def reduceAdd0 (xs : List Number) : Number :=
  xs.foldl add (.fin 0)

/-- `calculateVolatility(prices)` (lines 561-567). -/
def calculateVolatility (prices : List Number) : Except JSError Number := do
  let total ← reduceAdd prices
  let mean := div total (ofNat prices.length)
  let squaredDiffs := prices.map (fun p => pow2 (sub p mean))
  let sqTotal ← reduceAdd squaredDiffs
  let variance := div sqTotal (ofNat prices.length)
  let stdDev := sqrt variance
  return mul (div stdDev mean) (lit 100)

/-- `calculateMA(prices, period)` (lines 570-573). -/
def calculateMA (prices : List Number) (period : Nat) : Except JSError Number := do
  let recent := sliceFrom prices (-(period : Int))
  let total ← reduceAdd recent
  return div total (ofNat recent.length)

/-- The loop of `calculateRSI` that fills `changes`. -/
def priceChanges : List Number → List Number
  | [] => []
  | [_] => []
  | a :: b :: rest => sub b a :: priceChanges (b :: rest)

/-- `calculateRSI(prices, period)` (lines 576-595). -/
def calculateRSI (prices : List Number) (period : Nat) : Number :=
  if prices.length < period + 1 then lit 50 else
  let changes := priceChanges prices
  let recentChanges := sliceFrom changes (-(period : Int))
  let gains := recentChanges.filter (fun c => JSNum.gt c (.fin 0))
  let losses := (recentChanges.filter (fun c => JSNum.lt c (.fin 0))).map JSNum.abs
  let avgGain := if gains.length > 0
    then div (reduceAdd0 gains) (ofNat period) else lit (1 / 100)
  let avgLoss := if losses.length > 0
    then div (reduceAdd0 losses) (ofNat period) else lit (1 / 100)
  if JSNum.strictEq avgLoss (.fin 0) then lit 100 else
  let rs := div avgGain avgLoss
  sub (lit 100) (div (lit 100) (add (lit 1) rs))

/-- The array `recentChanges` of `calculateRSI` (line 584). -/
def recentChanges (prices : List Number) (period : Nat) : List Number :=
  sliceFrom (priceChanges prices) (-(period : Int))

/-- The constant `avgGain` of `calculateRSI` (line 588). -/
def avgGain (prices : List Number) (period : Nat) : Number :=
  if ((recentChanges prices period).filter (fun c => JSNum.gt c (.fin 0))).length > 0
  then div (reduceAdd0 ((recentChanges prices period).filter (fun c => JSNum.gt c (.fin 0))))
    (ofNat period)
  else lit (1 / 100)

/-- The constant `avgLoss` of `calculateRSI` (line 589). -/
def avgLoss (prices : List Number) (period : Nat) : Number :=
  if (((recentChanges prices period).filter (fun c => JSNum.lt c (.fin 0))).map JSNum.abs).length
      > 0
  then div (reduceAdd0
      (((recentChanges prices period).filter (fun c => JSNum.lt c (.fin 0))).map JSNum.abs))
    (ofNat period)
  else lit (1 / 100)

/-- `calculateVolumeTrend(prices)` (lines 598-608). -/
def calculateVolumeTrend (prices : List Number) : Except JSError Number := do
  if prices.length < 20 then return .fin 0
  let recentPrices := sliceFrom prices (-10)
  let oldPrices := sliceRange prices (-20) (-10)
  let recentTotal ← reduceAdd recentPrices
  let recentAvg := div recentTotal (ofNat recentPrices.length)
  let oldTotal ← reduceAdd oldPrices
  let oldAvg := div oldTotal (ofNat oldPrices.length)
  return mul (div (sub recentAvg oldAvg) oldAvg) (lit 100)

/-- The string `x.toFixed(d)`: its text is exact on the value of the double
`x`, and the number it converts back to is the double nearest to that
decimal. -/
def mkFixed (x : Number) (d : Nat) : FixedStr :=
  FixedStr.mk (toFixed x d) (rnd (fixedValue x d))

/-- The signal collector (lines 476-489). -/
def collectSignals (rsi ma7 ma21 currentPrice : Number) (minPrice maxPrice : FixedStr)
    (predictionChange : FixedStr) (volumeTrend : Number) : List String × List String :=
  let buySignals : List String := []
  let sellSignals : List String := []
  let buySignals := pushIf (JSNum.lt rsi (lit 35)) buySignals
    (template ["RSI oversold (", toFixed rsi 0, " < 35)"])
  let sellSignals := pushIf (JSNum.gt rsi (lit 65)) sellSignals
    (template ["RSI overbought (", toFixed rsi 0, " > 65)"])
  let buySignals := pushIf (JSNum.gt ma7 ma21 && JSNum.gt currentPrice ma7) buySignals
    "Bullish MA crossover + price above MA7"
  let sellSignals := pushIf (JSNum.lt ma7 ma21 && JSNum.lt currentPrice ma7) sellSignals
    "Bearish MA crossover + price below MA7"
  let buySignals := pushIf (JSNum.lt currentPrice (mul minPrice.value (lit 1.05)))
    buySignals "Near support level (bounce potential)"
  let sellSignals := pushIf (JSNum.gt currentPrice (mul maxPrice.value (lit 0.95)))
    sellSignals "Near resistance (pullback likely)"
  let buySignals := pushIf (JSNum.gt predictionChange.value (lit 2)) buySignals
    (template ["AI predicts +", predictionChange.text, "% gain"])
  let sellSignals := pushIf (JSNum.lt predictionChange.value (lit (-2))) sellSignals
    (template ["AI predicts ", predictionChange.text, "% loss"])
  let buySignals := pushIf (JSNum.gt volumeTrend (lit 5)) buySignals
    ("Volume increasing (+" ++ toFixed volumeTrend 1 ++ "%)")
  let sellSignals := pushIf (JSNum.lt volumeTrend (lit (-5))) sellSignals
    ("Volume decreasing (" ++ toFixed volumeTrend 1 ++ "%)")
  (buySignals, sellSignals)

/-- The part of `generateDetailedAnalysis` that the two signal arrays depend
on (lines 380-395, 419-421 and 476-489), with the faults that can be raised
before the arrays are read: the two `reduce` calls on `prices`, and the
first method calls on `currentPrice` (line 402) and on `predictedPrice`
(line 426).  The panel texts, which the arrays do not depend on, are left
out. -/
def analysisSignals (data : PredictionResult) : Except JSError (List String × List String) := do
  let prices := data.historicalPrices
  let _volatility ← calculateVolatility prices
  let _total ← reduceAdd prices
  let maxPrice := mkFixed (mathMax prices) 2
  let minPrice := mkFixed (mathMin prices) 2
  let ma7 ← calculateMA prices 7
  let ma21 ← calculateMA prices 21
  let rsi := calculateRSI prices 14
  let volumeTrend ← calculateVolumeTrend prices
  let currentPrice ← requireNumber prices.getLast?
  let lastPrice := data.historicalPrices.getLast?
  let predictionChange := mkFixed (mul (div
    (sub (toNumber data.predictions.getLast?) (toNumber lastPrice)) (toNumber lastPrice))
    (lit 100)) 2
  let _predictedPrice ← requireNumber data.predictions.getLast?
  return collectSignals rsi ma7 ma21 currentPrice minPrice maxPrice predictionChange volumeTrend

/-- The field `trend` of the normalized record (lines 126-135). -/
def trend (json : RawResponse) : String :=
  let hp := json.historical_prices.getD []
  let predArr := json.predictions.getD []
  if hp.length > 0 ∧ predArr.length > 0 then
    let avgHist := div (reduceAdd0 hp) (ofNat hp.length)
    let avgPred := div (reduceAdd0 predArr) (ofNat predArr.length)
    if JSNum.ge avgPred avgHist then "Bullish" else "Bearish"
  else "Neutral"

end Binary64

/-! ## Sample inputs -/

/-- Eight rising prices and one prediction about 7.8% above the last price:
three buy rules and one sell rule fire. -/
def sampleRising : PredictionResult :=
  PredictionResult.mk "AAPL" [] ([100, 101, 101, 101, 101, 101, 101, 102].map JSNum.fin)
    ([110].map JSNum.fin) [] (Metrics.mk "0.0000" "0.0000" "0.0000" "100.00" "Bullish")

/-- Two equal prices and an equal prediction. -/
def sampleFlat : PredictionResult :=
  PredictionResult.mk "MSFT" [] ([100, 100].map JSNum.fin)
    ([100].map JSNum.fin) [] (Metrics.mk "0.0000" "0.0000" "0.0000" "100.00" "Bullish")

/-- One price of 1000 and a prediction of 1020.04, that is 2.004% above it. -/
def sampleRounding : PredictionResult :=
  PredictionResult.mk "TSLA" [] ([1000].map JSNum.fin)
    ([1020.04].map JSNum.fin) [] (Metrics.mk "0.0000" "0.0000" "0.0000" "100.00" "Bullish")

/-- The response `{}`: every field is absent. -/
def emptyResponse : RawResponse :=
  RawResponse.mk none none none none none none

/-- A response whose only field is `historical_prices: [0]`. -/
def zeroPriceResponse : RawResponse :=
  RawResponse.mk none none (some [JSNum.fin 0]) none none none

/-- A normalized record with one date, one price and no prediction. -/
def sampleNoPredictions : PredictionResult :=
  PredictionResult.mk "AAPL" ["2024-01-02"] [JSNum.fin 100] [] []
    (Metrics.mk "0.0000" "0.0000" "0.0000" "100.00" "Neutral")

/-- Two prices far apart, 100 and 120, and a prediction of 125. -/
def sampleVolatile : PredictionResult :=
  PredictionResult.mk "NVDA" [] ([100, 120].map JSNum.fin)
    ([125].map JSNum.fin) [] (Metrics.mk "0.0000" "0.0000" "0.0000" "100.00" "Bullish")


/-! ### Inputs in binary64 -/

/-- The doubles nearest to 1000 and to 1020.04: the computed change is
`2.0039999999999965`. -/
def doubleRounding : PredictionResult :=
  PredictionResult.mk "TSLA" [] [Binary64.lit 1000] [Binary64.lit 1020.04] []
    (Metrics.mk "0.0000" "0.0000" "0.0000" "100.00" "Bullish")

/-- One price of 20000 and a prediction of 20401: the computed change is the
double just below `2.005`. -/
def doubleHalfCent : PredictionResult :=
  PredictionResult.mk "TSLA" [] [Binary64.lit 20000] [Binary64.lit 20401] []
    (Metrics.mk "0.0000" "0.0000" "0.0000" "100.00" "Bullish")

/-- Twenty-one prices of `50.1` and a prediction of `50.1`. -/
def doubleConstant : PredictionResult :=
  PredictionResult.mk "AAPL" [] (List.replicate 21 (Binary64.lit 50.1)) [Binary64.lit 50.1] []
    (Metrics.mk "0.0000" "0.0000" "0.0000" "100.00" "Bullish")

/-- Fifteen prices that alternate between `0` and `1e308`. -/
def overflowSeries : List Number :=
  ([0, 1e308, 0, 1e308, 0, 1e308, 0, 1e308, 0, 1e308, 0, 1e308, 0, 1e308, 0] : List ℚ).map
    Binary64.lit

/-- Fourteen prices of 100 followed by `3e15`. -/
def jumpSeries : List Number :=
  ((List.replicate 14 100 ++ [3e15] : List ℚ)).map Binary64.lit

/-- The prices 1, 2, ..., 15: fourteen gains of 1. -/
def unitGainSeries : List Number :=
  ([1, 2, 3, 4, 5, 6, 7, 8, 9, 10, 11, 12, 13, 14, 15] : List ℚ).map Binary64.lit

/-- Seven prices of `150.3`. -/
def constantSeries : List Number := List.replicate 7 (Binary64.lit 150.3)

/-- Two unequal prices whose squared deviations underflow to zero. -/
def tinySeries : List Number := [Binary64.lit 1e-200, Binary64.lit 3e-200]

/-- A response with the prices `100, 100, 100.06` and the prediction
`100.02`. -/
def closeMeansResponse : RawResponse :=
  RawResponse.mk none none
    (some [Binary64.lit 100, Binary64.lit 100, Binary64.lit 100.06])
    (some [Binary64.lit 100.02]) none none
/-! ## Vocabulary of the specification -/

/-- The arithmetic mean of a list of rationals. -/
def arithMean (xs : List ℚ) : ℚ := xs.sum / xs.length

/-- The last `k` elements of a list (the whole list when it is shorter). -/
def lastElems {β : Type} (k : Nat) (xs : List β) : List β := xs.drop (xs.length - k)

/-- The consecutive deltas `x₁ - x₀, x₂ - x₁, ...` of a series. -/
def deltas (xs : List ℚ) : List ℚ := List.zipWith (fun prev next => next - prev) xs xs.tail

/-- The percent change `(recent - old) / old * 100`, with JavaScript's
division (so a zero `old` gives `NaN` or an infinity). -/
def percentChange (recent old : ℚ) : Number :=
  JSNum.mul (JSNum.div (JSNum.sub (JSNum.fin recent) (JSNum.fin old)) (JSNum.fin old))
    (JSNum.fin 100)

/-- The average gain of the specification: the sum of the strictly positive
deltas among the last `period` ones, divided by `period`; `0.01` when there
is no such delta. -/
def specAvgGain (series : List ℚ) (period : Nat) : ℚ :=
  let gains := (lastElems period (deltas series)).filter (fun d => 0 < d)
  if gains = [] then 1 / 100 else gains.sum / period

/-- The average loss of the specification: the sum of the absolute values of
the strictly negative deltas among the last `period` ones, divided by
`period`; `0.01` when there is no such delta. -/
def specAvgLoss (series : List ℚ) (period : Nat) : ℚ :=
  let losses := ((lastElems period (deltas series)).filter (fun d => d < 0)).map (fun d => |d|)
  if losses = [] then 1 / 100 else losses.sum / period

/-- The relative strength index of the specification. -/
def specRSI (series : List ℚ) (period : Nat) : ℚ :=
  100 - 100 / (1 + specAvgGain series period / specAvgLoss series period)

/-- The population variance of the specification: `(1/n) * Σ (p - m)²` for
the mean `m` of the `n` elements (divisor `n`, not `n - 1`). -/
def populationVariance (xs : List ℚ) : ℚ :=
  (1 / xs.length) * (xs.map (fun p => (p - arithMean xs) ^ 2)).sum

/-- The population standard deviation of the specification. -/
noncomputable def populationStdDev (xs : List ℚ) : ℝ :=
  Real.sqrt (populationVariance xs : ℚ)


/-- The text `text` contains the string `part` literally (as a run of
consecutive characters). -/
def textContains (text part : String) : Prop := part.data <:+: text.data

/-- The recommendation with the roles of buying and selling exchanged: BUY
and SELL are swapped, anything else (HOLD) is kept. -/
def swapSides (recommendation : String) : String :=
  if recommendation = "BUY" then "SELL"
  else if recommendation = "SELL" then "BUY" else recommendation
/-! ## Finite arithmetic stays finite -/

theorem foldl_add_fin (xs : List ℚ) (a : ℚ) :
    (xs.map JSNum.fin).foldl JSNum.add (JSNum.fin a) = JSNum.fin (a + xs.sum) := by
  induction xs generalizing a with
  | nil => simp
  | cons x rest ih => simp [JSNum.add, ih, add_assoc]

theorem reduceAdd_fin (xs : List ℚ) (h : xs ≠ []) :
    reduceAdd (xs.map JSNum.fin) = .ok (JSNum.fin xs.sum) := by
  cases xs with
  | nil => exact absurd rfl h
  | cons x rest => simp [reduceAdd, foldl_add_fin]

theorem reduceAdd0_fin (xs : List ℚ) :
    reduceAdd0 (xs.map JSNum.fin) = JSNum.fin xs.sum := by
  simp [reduceAdd0, foldl_add_fin]

theorem relIndex_neg (len k : Nat) (hk : 1 ≤ k) : relIndex len (-(k : Int)) = len - k := by
  unfold relIndex
  have : (-(k : Int)) < 0 := by omega
  rw [if_pos this]
  omega

theorem sliceFrom_neg {β : Type} (xs : List β) (k : Nat) (hk : 1 ≤ k) :
    sliceFrom xs (-(k : Int)) = lastElems k xs := by
  simp [sliceFrom, lastElems, relIndex_neg _ _ hk]

theorem lastElems_map {β γ : Type} (f : β → γ) (k : Nat) (xs : List β) :
    lastElems k (xs.map f) = (lastElems k xs).map f := by
  simp [lastElems, List.map_drop]

theorem lastElems_ne_nil {β : Type} (k : Nat) (xs : List β) (hk : 1 ≤ k) (hx : xs ≠ []) :
    lastElems k xs ≠ [] := by
  have hlen : 0 < xs.length := List.length_pos.mpr hx
  intro h
  have h2 := congrArg List.length h
  simp [lastElems] at h2
  omega

theorem lastElems_length {β : Type} (k : Nat) (xs : List β) :
    (lastElems k xs).length = min k xs.length := by
  simp [lastElems]
  omega

theorem lastElems_of_length_le {β : Type} (k : Nat) (xs : List β) (h : xs.length ≤ k) :
    lastElems k xs = xs := by
  simp [lastElems, Nat.sub_eq_zero_of_le h]

theorem div_length_fin (a : ℚ) (n : Nat) (hn : 0 < n) :
    JSNum.div (JSNum.fin a) (JSNum.ofNat n) = JSNum.fin (a / n) := by
  have : (n : ℚ) ≠ 0 := by exact_mod_cast hn.ne'
  simp [JSNum.div, JSNum.ofNat, this]

/-- The mean that `calculateMA` computes on a non-empty finite series. -/
theorem calculateMA_fin (series : List ℚ) (period : Nat) (hs : series ≠ []) (hp : 1 ≤ period) :
    calculateMA (series.map JSNum.fin) period
      = .ok (JSNum.fin (arithMean (lastElems period series))) := by
  have hne := lastElems_ne_nil period series hp hs
  have hlen : 0 < (lastElems period series).length := List.length_pos.mpr hne
  simp only [calculateMA, sliceFrom_neg _ _ hp, lastElems_map, reduceAdd_fin _ hne,
    List.length_map]
  simp [bind, Except.bind, pure, Except.pure, div_length_fin _ _ hlen, arithMean]

theorem relIndex_neg_ten (len : Nat) : relIndex len (-10) = len - 10 := by
  unfold relIndex
  rw [if_pos (by omega)]
  omega

theorem relIndex_neg_twenty (len : Nat) : relIndex len (-20) = len - 20 := by
  unfold relIndex
  rw [if_pos (by omega)]
  omega

theorem sliceFrom_neg_ten {β : Type} (xs : List β) : sliceFrom xs (-10) = lastElems 10 xs := by
  simp [sliceFrom, lastElems, relIndex_neg_ten]

theorem sliceRange_neg_twenty_ten {β : Type} (xs : List β) (h : 20 ≤ xs.length) :
    sliceRange xs (-20) (-10) = (lastElems 20 xs).take 10 := by
  have : xs.length - 10 - (xs.length - 20) = 10 := by omega
  simp [sliceRange, lastElems, relIndex_neg_ten, relIndex_neg_twenty, this]

theorem percentChange_of_ne_zero (recent old : ℚ) (h : old ≠ 0) :
    percentChange recent old = JSNum.fin ((recent - old) / old * 100) := by
  simp [percentChange, JSNum.sub, JSNum.neg, JSNum.add, JSNum.div, JSNum.mul, h, sub_eq_add_neg]

/-- The value `calculateVolumeTrend` computes on a finite series of at least
twenty points. -/
theorem calculateVolumeTrend_fin (series : List ℚ) (h : 20 ≤ series.length) :
    calculateVolumeTrend (series.map JSNum.fin)
      = .ok (percentChange (arithMean (lastElems 10 series))
          (arithMean ((lastElems 20 series).take 10))) := by
  have hr : lastElems 10 series ≠ [] := by
    intro h0
    have := congrArg List.length h0
    rw [lastElems_length, List.length_nil] at this
    omega
  have hrl : (lastElems 10 series).length = 10 := by
    rw [lastElems_length]; omega
  have hol : ((lastElems 20 series).take 10).length = 10 := by
    rw [List.length_take, lastElems_length]; omega
  have ho : (lastElems 20 series).take 10 ≠ [] := by
    intro h0
    rw [h0] at hol
    simp at hol
  have hlt : ¬ (series.length < 20) := by omega
  have hmap : sliceRange (series.map JSNum.fin) (-20) (-10)
      = ((lastElems 20 series).take 10).map (JSNum.fin) := by
    rw [sliceRange_neg_twenty_ten _ (by simpa using h), lastElems_map, List.map_take]
  simp only [calculateVolumeTrend, List.length_map, hlt, if_false, sliceFrom_neg_ten,
    lastElems_map, hmap, reduceAdd_fin _ hr, reduceAdd_fin _ ho, hrl, hol]
  simp [bind, Except.bind, pure, Except.pure, percentChange, arithMean, hrl, hol,
    JSNum.div, JSNum.ofNat]

theorem calculateVolumeTrend_short (prices : List Number) (h : prices.length < 20) :
    calculateVolumeTrend prices = .ok (JSNum.fin 0) := by
  simp [calculateVolumeTrend, h, pure, Except.pure]

/-! ## Moving average and volume trend: the claims -/

/-- C7: on a non-empty series and for a period of at least one,
`calculateMA` returns the arithmetic mean of the last `min(period, len)`
elements; when the period is at least the length this is the mean of the
whole series. -/
theorem C7_calculateMA_mean_of_last (series : List ℚ) (period : Nat)
    (hs : series ≠ []) (hp : 1 ≤ period) :
    calculateMA (series.map JSNum.fin) period
        = .ok (JSNum.fin (arithMean (lastElems (min period series.length) series)))
      ∧ (series.length ≤ period →
          calculateMA (series.map JSNum.fin) period = .ok (JSNum.fin (arithMean series))) := by
  have hmin : lastElems (min period series.length) series = lastElems period series := by
    unfold lastElems
    congr 1
    omega
  refine ⟨by rw [hmin]; exact calculateMA_fin series period hs hp, fun hle => ?_⟩
  rw [calculateMA_fin series period hs hp, lastElems_of_length_le _ _ hle]

/-- C7 at the series `[100, 102, 104, 103, 105]` with period 3: the result
is `(104 + 103 + 105) / 3 = 104`. -/
theorem C7_calculateMA_witness :
    ([100, 102, 104, 103, 105] : List ℚ) ≠ [] ∧ 1 ≤ 3 ∧
      calculateMA (([100, 102, 104, 103, 105] : List ℚ).map JSNum.fin) 3
        = .ok (JSNum.fin 104) := by
  refine ⟨by simp, by norm_num, ?_⟩
  rw [(C7_calculateMA_mean_of_last [100, 102, 104, 103, 105] 3 (by simp) (by norm_num)).1]
  norm_num [arithMean, lastElems]

/-- C10: `calculateVolumeTrend` returns 0 on fewer than 20 points; otherwise
it returns `(recentAvg - oldAvg) / oldAvg * 100` for the mean of the last 10
points and the mean of the 10 points before them (a plain rational when
`oldAvg` is not zero), and two series with the same last 20 points get the
same result. -/
theorem C10_calculateVolumeTrend_spec (series : List ℚ) :
    (series.length < 20 → calculateVolumeTrend (series.map JSNum.fin) = .ok (JSNum.fin 0))
    ∧ (20 ≤ series.length →
        calculateVolumeTrend (series.map JSNum.fin)
            = .ok (percentChange (arithMean (lastElems 10 series))
                (arithMean ((lastElems 20 series).take 10)))
        ∧ (arithMean ((lastElems 20 series).take 10) ≠ 0 →
            calculateVolumeTrend (series.map JSNum.fin)
              = .ok (JSNum.fin ((arithMean (lastElems 10 series)
                    - arithMean ((lastElems 20 series).take 10))
                  / arithMean ((lastElems 20 series).take 10) * 100)))
        ∧ ∀ other : List ℚ, 20 ≤ other.length → lastElems 20 other = lastElems 20 series →
            calculateVolumeTrend (other.map JSNum.fin)
              = calculateVolumeTrend (series.map JSNum.fin)) := by
  refine ⟨fun h => calculateVolumeTrend_short _ (by simpa using h), fun h => ⟨?_, ?_, ?_⟩⟩
  · exact calculateVolumeTrend_fin series h
  · intro hne
    rw [calculateVolumeTrend_fin series h, percentChange_of_ne_zero _ _ hne]
  · intro other ho hlast
    have hten : ∀ xs : List ℚ, 20 ≤ xs.length → lastElems 10 xs = lastElems 10 (lastElems 20 xs) := by
      intro xs hx
      simp only [lastElems, List.length_drop, List.drop_drop]
      congr 1
      omega
    rw [calculateVolumeTrend_fin other ho, calculateVolumeTrend_fin series h,
      hten other ho, hten series h, hlast]

/-- C10 at a series of twenty points, ten at 100 followed by ten at 110:
the trend is `(110 - 100) / 100 * 100 = 10`. -/
theorem C10_calculateVolumeTrend_witness :
    20 ≤ ([100, 100, 100, 100, 100, 100, 100, 100, 100, 100,
          110, 110, 110, 110, 110, 110, 110, 110, 110, 110] : List ℚ).length
    ∧ calculateVolumeTrend (([100, 100, 100, 100, 100, 100, 100, 100, 100, 100,
          110, 110, 110, 110, 110, 110, 110, 110, 110, 110] : List ℚ).map JSNum.fin)
        = .ok (JSNum.fin 10) := by
  refine ⟨by decide, ?_⟩
  have h := ((C10_calculateVolumeTrend_spec
    [100, 100, 100, 100, 100, 100, 100, 100, 100, 100,
     110, 110, 110, 110, 110, 110, 110, 110, 110, 110]).2 (by decide)).2.1
  rw [h (by norm_num [arithMean, lastElems])]
  norm_num [arithMean, lastElems]

/-! ## Relative strength index -/

theorem priceChanges_fin (xs : List ℚ) :
    priceChanges (xs.map JSNum.fin) = (deltas xs).map JSNum.fin := by
  induction xs with
  | nil => simp [priceChanges, deltas]
  | cons a rest ih =>
    cases rest with
    | nil => simp [priceChanges, deltas]
    | cons b tl =>
      simp only [List.map_cons, priceChanges] at ih ⊢
      rw [ih]
      simp [deltas, JSNum.sub, JSNum.neg, JSNum.add, sub_eq_add_neg]

theorem gt_fin_fin (a b : ℚ) : JSNum.gt (JSNum.fin a) (JSNum.fin b) = decide (b < a) := rfl

theorem lt_fin_fin (a b : ℚ) : JSNum.lt (JSNum.fin a) (JSNum.fin b) = decide (a < b) := rfl

theorem filter_gt_zero_fin (xs : List ℚ) :
    (xs.map JSNum.fin).filter (fun c => JSNum.gt c (JSNum.fin 0))
      = (xs.filter (fun d => 0 < d)).map JSNum.fin := by
  rw [List.filter_map]
  congr 1

theorem filter_lt_zero_fin (xs : List ℚ) :
    ((xs.map JSNum.fin).filter (fun c => JSNum.lt c (JSNum.fin 0))).map JSNum.abs
      = ((xs.filter (fun d => d < 0)).map (fun d => |d|)).map JSNum.fin := by
  rw [List.filter_map, List.map_map, List.map_map]
  congr 1

theorem specAvgGain_pos (series : List ℚ) (period : Nat) (hp : 1 ≤ period) :
    0 < specAvgGain series period := by
  unfold specAvgGain
  simp only
  split
  · norm_num
  · next hne =>
    have hpos : (0 : ℚ) < period := by exact_mod_cast hp
    apply div_pos _ hpos
    apply List.sum_pos _ _ hne
    intro x hx
    simpa using (List.mem_filter.mp hx).2

theorem specAvgLoss_pos (series : List ℚ) (period : Nat) (hp : 1 ≤ period) :
    0 < specAvgLoss series period := by
  unfold specAvgLoss
  simp only
  split
  · norm_num
  · next hne =>
    have hpos : (0 : ℚ) < period := by exact_mod_cast hp
    apply div_pos _ hpos
    apply List.sum_pos _ _ hne
    intro x hx
    obtain ⟨d, hd, rfl⟩ := List.mem_map.mp hx
    have : d < 0 := by simpa using (List.mem_filter.mp hd).2
    exact abs_pos.mpr this.ne

/-- On a finite series with at least `period + 1` points, `calculateRSI`
returns the relative strength index of the specification: the guard
`avgLoss === 0` is never taken and no division is by zero. -/
theorem calculateRSI_fin (series : List ℚ) (period : Nat) (hp : 1 ≤ period)
    (hlen : period + 1 ≤ series.length) :
    calculateRSI (series.map JSNum.fin) period = JSNum.fin (specRSI series period) := by
  have hg := specAvgGain_pos series period hp
  have hl := specAvgLoss_pos series period hp
  have hpq : (period : ℚ) ≠ 0 := by exact_mod_cast (by omega : period ≠ 0)
  have hlt : ¬ (series.length < period + 1) := by omega
  have hsum : (1 : ℚ) + specAvgGain series period / specAvgLoss series period ≠ 0 := by
    have := div_pos hg hl
    linarith
  have hgain : (if ((lastElems period (deltas series)).filter (fun d => 0 < d)).length > 0
        then JSNum.div (JSNum.fin ((lastElems period (deltas series)).filter
          (fun d => 0 < d)).sum) (JSNum.ofNat period)
        else JSNum.fin (1 / 100)) = JSNum.fin (specAvgGain series period) := by
    unfold specAvgGain
    simp only
    by_cases h : (lastElems period (deltas series)).filter (fun d => 0 < d) = []
    · simp [h]
    · have : 0 < ((lastElems period (deltas series)).filter (fun d => 0 < d)).length :=
        List.length_pos.mpr h
      simp [h, this, JSNum.div, JSNum.ofNat, hpq]
  have hloss : (if (((lastElems period (deltas series)).filter (fun d => d < 0)).map
          (fun d => |d|)).length > 0
        then JSNum.div (JSNum.fin (((lastElems period (deltas series)).filter
          (fun d => d < 0)).map (fun d => |d|)).sum) (JSNum.ofNat period)
        else JSNum.fin (1 / 100)) = JSNum.fin (specAvgLoss series period) := by
    unfold specAvgLoss
    simp only
    by_cases h : ((lastElems period (deltas series)).filter (fun d => d < 0)).map
        (fun d => |d|) = []
    · simp [h]
    · have : 0 < (((lastElems period (deltas series)).filter (fun d => d < 0)).map
          (fun d => |d|)).length := List.length_pos.mpr h
      simp only [this, gt_iff_lt, if_true, h, if_false]
      simp [JSNum.div, JSNum.ofNat, hpq]
  have hlt2 : ¬ ((series.map (JSNum.fin)).length < period + 1) := by simpa using hlt
  unfold calculateRSI
  rw [if_neg hlt2]
  simp only [priceChanges_fin, sliceFrom_neg _ _ hp,
    lastElems_map, filter_gt_zero_fin, filter_lt_zero_fin, reduceAdd0_fin]
  rw [List.length_map (List.filter (fun d => decide (0 < d)) (lastElems period (deltas series))),
    List.length_map (List.map (fun d => |d|) (List.filter (fun d => decide (d < 0))
      (lastElems period (deltas series)))), hgain, hloss]
  simp [JSNum.strictEq, hl.ne', JSNum.div, JSNum.add, JSNum.sub, JSNum.neg, hsum, specRSI,
    sub_eq_add_neg]

theorem calculateRSI_short (prices : List Number) (period : Nat)
    (h : prices.length < period + 1) : calculateRSI prices period = JSNum.fin 50 := by
  simp [calculateRSI, h]

/-- C6: for a period of at least one, `calculateRSI` returns 50 on a series
of fewer than `period + 1` points, and otherwise
`100 - 100 / (1 + avgGain / avgLoss)` with the average gain and the average
loss of the specification (each `0.01` when no delta of its sign exists among
the last `period` deltas). -/
theorem C6_calculateRSI_formula (series : List ℚ) (period : Nat) (hp : 1 ≤ period) :
    (series.length < period + 1 →
        calculateRSI (series.map JSNum.fin) period = JSNum.fin 50)
    ∧ (period + 1 ≤ series.length →
        calculateRSI (series.map JSNum.fin) period
          = JSNum.fin (100 - 100 / (1 + specAvgGain series period / specAvgLoss series period))) :=
  ⟨fun h => calculateRSI_short _ _ (by simpa using h),
   fun h => calculateRSI_fin series period hp h⟩

/-- C6 at the constant series `[50, 50, 50, 50]` with the default period 14
(too short: the result is 50), and at `[1, 2, 4, 3]` with period 3 (gains
`1 + 2`, one loss of `1`: the result is `100 - 100 / (1 + 1 / (1/3)) = 75`). -/
theorem C6_calculateRSI_witness :
    (1 ≤ 14 ∧ ([50, 50, 50, 50] : List ℚ).length < 14 + 1
      ∧ calculateRSI (([50, 50, 50, 50] : List ℚ).map JSNum.fin) 14 = JSNum.fin 50)
    ∧ (1 ≤ 3 ∧ 3 + 1 ≤ ([1, 2, 4, 3] : List ℚ).length
      ∧ calculateRSI (([1, 2, 4, 3] : List ℚ).map JSNum.fin) 3 = JSNum.fin 75) := by
  refine ⟨⟨by norm_num, by decide, ?_⟩, ⟨by norm_num, by decide, ?_⟩⟩
  · exact (C6_calculateRSI_formula [50, 50, 50, 50] 14 (by norm_num)).1 (by decide)
  · rw [(C6_calculateRSI_formula [1, 2, 4, 3] 3 (by norm_num)).2 (by decide)]
    simp [specAvgGain, specAvgLoss, lastElems, deltas]
    norm_num

/-! ## Volatility -/

theorem populationVariance_nonneg (xs : List ℚ) : 0 ≤ populationVariance xs := by
  unfold populationVariance
  apply mul_nonneg
  · positivity
  · apply List.sum_nonneg
    intro x hx
    obtain ⟨p, _, rfl⟩ := List.mem_map.mp hx
    positivity

theorem squaredDiffs_fin (xs : List ℚ) (m : ℚ) :
    (xs.map JSNum.fin).map (fun p => JSNum.pow2 (JSNum.sub p (JSNum.fin m)))
      = (xs.map (fun p => (p - m) ^ 2)).map JSNum.fin := by
  rw [List.map_map, List.map_map]
  apply List.map_congr_left
  intro p _
  simp [JSNum.pow2, JSNum.sub, JSNum.neg, JSNum.add, sub_eq_add_neg]

/-- The steps of `calculateVolatility` on a non-empty finite series: the
mean, the variance and the square root are finite, and only the division by
the mean can leave the finite numbers. -/
theorem calculateVolatility_fin (series : List ℚ) (hs : series ≠ []) :
    calculateVolatility (series.map JSNum.fin)
      = .ok (JSNum.mul (JSNum.div (JSNum.fin (populationStdDev series))
          (JSNum.fin ((arithMean series : ℚ) : ℝ))) (JSNum.fin 100)) := by
  have hlen : 0 < series.length := List.length_pos.mpr hs
  have hsq : series.map (fun p => (p - series.sum / (series.length : ℚ)) ^ 2) ≠ [] := by
    simpa using hs
  have hvar := populationVariance_nonneg series
  have hnot : ¬ ((populationVariance series : ℚ) : ℝ) < 0 := by
    have : (0 : ℝ) ≤ ((populationVariance series : ℚ) : ℝ) := by exact_mod_cast hvar
    linarith
  unfold calculateVolatility
  simp only [reduceAdd_fin _ hs, List.length_map, div_length_fin _ _ hlen, bind, Except.bind,
    squaredDiffs_fin, reduceAdd_fin _ hsq, pure, Except.pure]
  have hv : (series.map (fun p => (p - series.sum / (series.length : ℚ)) ^ 2)).sum
      / (series.length : ℚ) = populationVariance series := by
    unfold populationVariance arithMean
    ring
  rw [hv]
  simp only [JSNum.toReal, JSNum.sqrt, if_neg hnot]
  rfl

theorem calculateVolatility_of_mean_ne_zero (series : List ℚ) (hs : series ≠ [])
    (hm : arithMean series ≠ 0) :
    calculateVolatility (series.map JSNum.fin)
      = .ok (JSNum.fin (populationStdDev series / ((arithMean series : ℚ) : ℝ) * 100)) := by
  have hmr : ((arithMean series : ℚ) : ℝ) ≠ 0 := by exact_mod_cast hm
  rw [calculateVolatility_fin series hs]
  simp [JSNum.div, JSNum.mul, hmr]

/-- C9: on a non-empty series whose mean `m` is not zero,
`calculateVolatility` returns the population standard deviation
`sqrt((1/n) * Σ (p - m)²)` divided by `m`, times 100. -/
theorem C9_calculateVolatility_coefficient_of_variation (series : List ℚ)
    (hs : series ≠ []) (hm : arithMean series ≠ 0) :
    calculateVolatility (series.map JSNum.fin)
      = .ok (JSNum.fin
          (Real.sqrt (((1 / (series.length : ℚ))
              * (series.map (fun p => (p - arithMean series) ^ 2)).sum : ℚ) : ℝ)
            / ((arithMean series : ℚ) : ℝ) * 100)) :=
  calculateVolatility_of_mean_ne_zero series hs hm

/-- C9 at the series `[1, 3]`: mean 2, population variance 1, so the
volatility is `1 / 2 * 100 = 50`. -/
theorem C9_calculateVolatility_witness :
    ([1, 3] : List ℚ) ≠ [] ∧ arithMean [1, 3] ≠ 0
      ∧ calculateVolatility (([1, 3] : List ℚ).map JSNum.fin) = .ok (JSNum.fin 50) := by
  have hm : arithMean [1, 3] = 2 := by norm_num [arithMean]
  refine ⟨by simp, by rw [hm]; norm_num, ?_⟩
  rw [C9_calculateVolatility_coefficient_of_variation [1, 3] (by simp) (by rw [hm]; norm_num), hm]
  norm_num


/-! ## Text of the report -/

theorem textContains_refl (s : String) : textContains s s := List.infix_refl _

theorem textContains_append_left (a b part : String) (h : textContains a part) :
    textContains (a ++ b) part := by
  unfold textContains at *
  rw [String.data_append]
  exact h.trans (List.prefix_append a.data b.data).isInfix

theorem textContains_append_right (a b part : String) (h : textContains b part) :
    textContains (a ++ b) part := by
  unfold textContains at *
  rw [String.data_append]
  exact h.trans (List.suffix_append a.data b.data).isInfix

theorem textContains_template (pieces : List String) (part : String) (i : Nat)
    (hi : i < pieces.length) (h : textContains (pieces.get ⟨i, hi⟩) part) :
    textContains (template pieces) part := by
  induction pieces generalizing i with
  | nil => simp at hi
  | cons p rest ih =>
    cases i with
    | zero => exact textContains_append_left _ _ _ h
    | succ j =>
      exact textContains_append_right _ _ _ (ih j (by simpa using hi) h)

theorem textContains_joinWith (sep : String) (xs : List String) (x : String) (hx : x ∈ xs) :
    textContains (joinWith sep xs) x := by
  induction xs with
  | nil => simp at hx
  | cons a rest ih =>
    cases rest with
    | nil =>
      simp at hx
      subst hx
      exact textContains_refl _
    | cons b tl =>
      rcases List.mem_cons.mp hx with h1 | h1
      · subst h1
        exact textContains_append_left _ _ _ (textContains_append_left _ _ _ (textContains_refl _))
      · exact textContains_append_right _ _ _ (ih h1)

theorem textContains_trans (a b c : String) (h1 : textContains a b) (h2 : textContains b c) :
    textContains a c := List.IsInfix.trans h2 h1

theorem textContains_joinWith_map (sep mark : String) (xs : List String) (x : String)
    (hx : x ∈ xs) : textContains (joinWith sep (xs.map (fun s => mark ++ s))) x :=
  textContains_trans _ _ _
    (textContains_joinWith sep _ (mark ++ x) (List.mem_map_of_mem (fun s => mark ++ s) hx))
    (textContains_append_right _ _ _ (textContains_refl _))

theorem textContains_template_at (pieces : List String) (part : String) (i : Nat)
    (piece : String) (hp : pieces.get? i = some piece) (h : textContains piece part) :
    textContains (template pieces) part := by
  obtain ⟨hi, rfl⟩ := List.get?_eq_some.mp hp
  exact textContains_template pieces part i hi h

/-- Every buy signal occurs in the outlook text, whatever the recommendation. -/
theorem outlookText_contains_buySignal (profile : Profile) (minPrice maxPrice : FixedStr)
    (predictionChange : FixedStr) (ma7 ma21 currentPrice predictedPrice : Number)
    (riskLevel recommendation confidence : String) (buySignals sellSignals : List String)
    (s : String) (hs : s ∈ buySignals) :
    textContains (outlookText profile minPrice maxPrice predictionChange ma7 ma21 currentPrice
      predictedPrice riskLevel recommendation confidence buySignals sellSignals) s := by
  have hpos : buySignals.length > 0 := List.length_pos_of_mem hs
  unfold outlookText
  refine textContains_template_at _ _ 13 _ rfl ?_
  by_cases hb : recommendation = "BUY"
  · simp only [hb, beq_self_eq_true, if_true]
    refine textContains_template_at _ _ 3 _ rfl ?_
    exact textContains_joinWith_map _ _ _ _ hs
  · by_cases hsell : recommendation = "SELL"
    · have hne : ("SELL" == "BUY") = false := by decide
      simp only [hsell, hne, beq_self_eq_true, if_true, Bool.false_eq_true, if_false]
      refine textContains_template_at _ _ 5 _ rfl ?_
      simp only [hpos, decide_True, if_true]
      refine textContains_append_left _ _ _ (textContains_append_right _ _ _ ?_)
      exact textContains_joinWith_map _ _ _ _ hs
    · have h1 : (recommendation == "BUY") = false := by simpa using hb
      have h2 : (recommendation == "SELL") = false := by simpa using hsell
      simp only [h1, h2, Bool.false_eq_true, if_false]
      refine textContains_template_at _ _ 5 _ rfl ?_
      exact textContains_joinWith_map _ _ _ _ hs

/-- Every sell signal occurs in the outlook text, whatever the recommendation. -/
theorem outlookText_contains_sellSignal (profile : Profile) (minPrice maxPrice : FixedStr)
    (predictionChange : FixedStr) (ma7 ma21 currentPrice predictedPrice : Number)
    (riskLevel recommendation confidence : String) (buySignals sellSignals : List String)
    (s : String) (hs : s ∈ sellSignals) :
    textContains (outlookText profile minPrice maxPrice predictionChange ma7 ma21 currentPrice
      predictedPrice riskLevel recommendation confidence buySignals sellSignals) s := by
  have hpos : sellSignals.length > 0 := List.length_pos_of_mem hs
  unfold outlookText
  refine textContains_template_at _ _ 13 _ rfl ?_
  by_cases hb : recommendation = "BUY"
  · simp only [hb, beq_self_eq_true, if_true]
    refine textContains_template_at _ _ 5 _ rfl ?_
    simp only [hpos, decide_True, if_true]
    refine textContains_append_left _ _ _ (textContains_append_right _ _ _ ?_)
    exact textContains_joinWith_map _ _ _ _ hs
  · by_cases hsell : recommendation = "SELL"
    · have hne : ("SELL" == "BUY") = false := by decide
      simp only [hsell, hne, beq_self_eq_true, if_true, Bool.false_eq_true, if_false]
      refine textContains_template_at _ _ 3 _ rfl ?_
      exact textContains_joinWith_map _ _ _ _ hs
    · have h1 : (recommendation == "BUY") = false := by simpa using hb
      have h2 : (recommendation == "SELL") = false := by simpa using hsell
      simp only [h1, h2, Bool.false_eq_true, if_false]
      refine textContains_template_at _ _ 9 _ rfl ?_
      exact textContains_joinWith_map _ _ _ _ hs

/-! ## When the report is produced -/

theorem reduceAdd_isOk {α : Type} [LinearOrderedField α] (xs : List (JSNum α)) (h : xs ≠ []) :
    ∃ v, reduceAdd xs = .ok v := by
  cases xs with
  | nil => exact absurd rfl h
  | cons a rest => exact ⟨_, rfl⟩

theorem calculateVolatility_isOk (prices : List Number) (h : prices ≠ []) :
    ∃ v, calculateVolatility prices = .ok v := by
  obtain ⟨total, ht⟩ := reduceAdd_isOk prices h
  obtain ⟨sq, hsq⟩ := reduceAdd_isOk
    (prices.map (fun p => JSNum.pow2 (JSNum.sub p
      (JSNum.div total (JSNum.ofNat prices.length))))) (by simpa using h)
  unfold calculateVolatility
  simp only [bind, Except.bind, ht, hsq, pure, Except.pure]
  exact ⟨_, rfl⟩

theorem calculateMA_isOk (prices : List Number) (period : Nat) (h : prices ≠ [])
    (hp : 1 ≤ period) : ∃ v, calculateMA prices period = .ok v := by
  obtain ⟨total, ht⟩ := reduceAdd_isOk (sliceFrom prices (-(period : Int)))
    (by rw [sliceFrom_neg _ _ hp]; exact lastElems_ne_nil _ _ hp h)
  unfold calculateMA
  simp only [bind, Except.bind, ht, pure, Except.pure]
  exact ⟨_, rfl⟩

theorem calculateVolumeTrend_isOk (prices : List Number) :
    ∃ v, calculateVolumeTrend prices = .ok v := by
  by_cases h : prices.length < 20
  · exact ⟨_, calculateVolumeTrend_short prices h⟩
  · have h20 : 20 ≤ prices.length := by omega
    obtain ⟨recent, hr⟩ := reduceAdd_isOk (sliceFrom prices (-10)) (by
      rw [sliceFrom_neg_ten]
      intro h0
      have := congrArg List.length h0
      rw [lastElems_length, List.length_nil] at this
      omega)
    obtain ⟨old, ho⟩ := reduceAdd_isOk (sliceRange prices (-20) (-10)) (by
      rw [sliceRange_neg_twenty_ten _ h20]
      intro h0
      have := congrArg List.length h0
      rw [List.length_take, lastElems_length, List.length_nil] at this
      omega)
    unfold calculateVolumeTrend
    simp only [h, if_false, bind, Except.bind, hr, ho, pure, Except.pure]
    exact ⟨_, rfl⟩

/-- The report is produced as soon as both series are non-empty. -/
theorem generateDetailedAnalysis_isOk (data : PredictionResult)
    (hp : data.historicalPrices ≠ []) (hq : data.predictions ≠ []) :
    ∃ r, generateDetailedAnalysis data = .ok r := by
  obtain ⟨vol, hvol⟩ := calculateVolatility_isOk _ hp
  obtain ⟨total, htot⟩ := reduceAdd_isOk _ hp
  obtain ⟨ma7, h7⟩ := calculateMA_isOk _ 7 hp (by norm_num)
  obtain ⟨ma21, h21⟩ := calculateMA_isOk _ 21 hp (by norm_num)
  obtain ⟨vt, hvt⟩ := calculateVolumeTrend_isOk data.historicalPrices
  obtain ⟨cur, hcur⟩ : ∃ c, data.historicalPrices.getLast? = some c :=
    ⟨_, List.getLast?_eq_getLast _ hp⟩
  obtain ⟨pred, hpred⟩ : ∃ c, data.predictions.getLast? = some c :=
    ⟨_, List.getLast?_eq_getLast _ hq⟩
  unfold generateDetailedAnalysis
  simp only [bind, Except.bind, hvol, htot, h7, h21, hvt, hcur, hpred, requireNumber, pure,
    Except.pure]
  exact ⟨_, rfl⟩

/-- What a report that was produced holds: each field is the value the
corresponding statement of `generateDetailedAnalysis` computes. -/
theorem generateDetailedAnalysis_inv (data : PredictionResult) (r : Analysis)
    (h : generateDetailedAnalysis data = .ok r) :
    calculateVolatility data.historicalPrices = .ok r.volatility
    ∧ calculateMA data.historicalPrices 7 = .ok r.ma7
    ∧ calculateMA data.historicalPrices 21 = .ok r.ma21
    ∧ r.rsi = calculateRSI data.historicalPrices 14
    ∧ calculateVolumeTrend data.historicalPrices = .ok r.volumeTrend
    ∧ data.historicalPrices.getLast? = some r.currentPrice
    ∧ data.predictions.getLast? = some r.predictedPrice
    ∧ r.minPrice = mkFixed (mathMin data.historicalPrices) 2
    ∧ r.maxPrice = mkFixed (mathMax data.historicalPrices) 2
    ∧ r.predictionChange = mkFixed (JSNum.mul (JSNum.div
        (JSNum.sub r.predictedPrice r.currentPrice) r.currentPrice) (JSNum.fin 100)) 2
    ∧ r.riskLevel = riskLevelOf r.volatility
    ∧ (r.buySignals, r.sellSignals) = collectSignals r.rsi r.ma7 r.ma21 r.currentPrice
        r.minPrice r.maxPrice r.predictionChange r.volumeTrend
    ∧ r.recommendation = recommendationOf r.buySignals r.sellSignals
    ∧ r.confidence = confidenceOf r.buySignals r.sellSignals
    ∧ r.riskAssessment = riskAssessmentText data (profileOf data.ticker) r.minPrice r.maxPrice
        r.volatility r.currentPrice r.riskLevel
    ∧ r.outlook = outlookText (profileOf data.ticker) r.minPrice r.maxPrice r.predictionChange
        r.ma7 r.ma21 r.currentPrice r.predictedPrice r.riskLevel r.recommendation r.confidence
        r.buySignals r.sellSignals := by
  unfold generateDetailedAnalysis at h
  simp only [bind, Except.bind, pure, Except.pure] at h
  cases hvol : calculateVolatility data.historicalPrices with
  | error e => simp [hvol] at h
  | ok volatility =>
    cases htot : reduceAdd data.historicalPrices with
    | error e => simp [hvol, htot] at h
    | ok total =>
      cases hma7 : calculateMA data.historicalPrices 7 with
      | error e => simp [hvol, htot, hma7] at h
      | ok ma7 =>
        cases hma21 : calculateMA data.historicalPrices 21 with
        | error e => simp [hvol, htot, hma7, hma21] at h
        | ok ma21 =>
          cases hvt : calculateVolumeTrend data.historicalPrices with
          | error e => simp [hvol, htot, hma7, hma21, hvt] at h
          | ok volumeTrend =>
            cases hcur : data.historicalPrices.getLast? with
            | none => simp [hvol, htot, hma7, hma21, hvt, hcur, requireNumber] at h
            | some currentPrice =>
              cases hpred : data.predictions.getLast? with
              | none => simp [hvol, htot, hma7, hma21, hvt, hcur, hpred, requireNumber] at h
              | some predictedPrice =>
                simp only [hvol, htot, hma7, hma21, hvt, hcur, hpred, requireNumber,
                  Except.ok.injEq] at h
                subst h
                simp [toNumber]

/-! ## Recommendation and rationale: the claims -/

theorem confidenceOf_eq (buySignals sellSignals : List String) :
    confidenceOf buySignals sellSignals
      = (if 2 ≤ |(buySignals.length : ℤ) - (sellSignals.length : ℤ)| then "High"
          else "Moderate") := by
  have hcast : (2 : ℚ) ≤ |(buySignals.length : ℚ) + -(sellSignals.length : ℚ)|
      ↔ 2 ≤ |(buySignals.length : ℤ) - (sellSignals.length : ℤ)| := by
    rw [← sub_eq_add_neg]
    have : ((|(buySignals.length : ℤ) - (sellSignals.length : ℤ)| : ℤ) : ℚ)
        = |(buySignals.length : ℚ) - (sellSignals.length : ℚ)| := by
      push_cast
      rfl
    rw [← this]
    exact_mod_cast Iff.rfl
  unfold confidenceOf
  simp only [JSNum.ofNat, JSNum.sub, JSNum.neg, JSNum.add, JSNum.abs, JSNum.ge,
    decide_eq_true_eq, hcast]

/-- C1: in every report that `generateDetailedAnalysis` produces, the
recommendation is BUY when there are more buy signals than sell signals, SELL
when there are more sell signals, HOLD otherwise, and the confidence is High
when the two counts differ by at least 2, Moderate otherwise; in particular
3 buy signals and 1 sell signal give BUY with High confidence. -/
theorem C1_recommendation_decision_rule (data : PredictionResult) (r : Analysis)
    (h : generateDetailedAnalysis data = .ok r) :
    r.recommendation
        = (if r.buySignals.length > r.sellSignals.length then "BUY"
            else if r.sellSignals.length > r.buySignals.length then "SELL" else "HOLD")
    ∧ r.confidence
        = (if 2 ≤ |(r.buySignals.length : ℤ) - (r.sellSignals.length : ℤ)| then "High"
            else "Moderate")
    ∧ (r.buySignals.length = 3 → r.sellSignals.length = 1 →
        r.recommendation = "BUY" ∧ r.confidence = "High") := by
  obtain ⟨_, _, _, _, _, _, _, _, _, _, _, _, hrec, hconf, _, _⟩ :=
    generateDetailedAnalysis_inv data r h
  refine ⟨hrec, by rw [hconf, confidenceOf_eq], fun hb hs => ?_⟩
  rw [hrec, hconf, confidenceOf_eq]
  simp [recommendationOf, hb, hs]

/-- C1 on `sampleRising`: the report is produced, it has 3 buy signals and 1
sell signal, and it recommends BUY with High confidence. -/
theorem C1_recommendation_witness :
    ∃ r, generateDetailedAnalysis sampleRising = .ok r
      ∧ r.buySignals.length = 3 ∧ r.sellSignals.length = 1
      ∧ r.recommendation = "BUY" ∧ r.confidence = "High" := by
  obtain ⟨r, hr⟩ := generateDetailedAnalysis_isOk sampleRising (by decide) (by decide)
  have hb : (generateDetailedAnalysis sampleRising).map (fun a => a.buySignals.length)
      = .ok 3 := by decide!
  have hs : (generateDetailedAnalysis sampleRising).map (fun a => a.sellSignals.length)
      = .ok 1 := by decide!
  rw [hr] at hb hs
  have hb3 : r.buySignals.length = 3 := by simpa [Except.map] using hb
  have hs1 : r.sellSignals.length = 1 := by simpa [Except.map] using hs
  exact ⟨r, hr, hb3, hs1, (C1_recommendation_decision_rule sampleRising r hr).2.2 hb3 hs1⟩

/-- C2: in every report that `generateDetailedAnalysis` produces, whichever
of BUY, SELL or HOLD is recommended, the outlook text contains the description
of every buy signal and of every sell signal. -/
theorem C2_outlook_enumerates_signals (data : PredictionResult) (r : Analysis)
    (h : generateDetailedAnalysis data = .ok r) :
    (∀ s ∈ r.buySignals, textContains r.outlook s)
    ∧ (∀ s ∈ r.sellSignals, textContains r.outlook s) := by
  obtain ⟨_, _, _, _, _, _, _, _, _, _, _, _, _, _, _, hout⟩ :=
    generateDetailedAnalysis_inv data r h
  rw [hout]
  exact ⟨fun s hs => outlookText_contains_buySignal _ _ _ _ _ _ _ _ _ _ _ _ _ s hs,
    fun s hs => outlookText_contains_sellSignal _ _ _ _ _ _ _ _ _ _ _ _ _ s hs⟩

/-- C2 on `sampleRising`: the report is produced, "AI predicts +7.84% gain"
is one of its buy signals and "Near resistance (pullback likely)" its sell
signal, and both occur in the outlook text. -/
theorem C2_outlook_witness :
    ∃ r, generateDetailedAnalysis sampleRising = .ok r
      ∧ "AI predicts +7.84% gain" ∈ r.buySignals
      ∧ textContains r.outlook "AI predicts +7.84% gain"
      ∧ "Near resistance (pullback likely)" ∈ r.sellSignals
      ∧ textContains r.outlook "Near resistance (pullback likely)" := by
  obtain ⟨r, hr⟩ := generateDetailedAnalysis_isOk sampleRising (by decide) (by decide)
  have hb : (generateDetailedAnalysis sampleRising).map (fun a => a.buySignals)
      = .ok ["Bullish MA crossover + price above MA7", "Near support level (bounce potential)",
          "AI predicts +7.84% gain"] := by decide!
  have hs : (generateDetailedAnalysis sampleRising).map (fun a => a.sellSignals)
      = .ok ["Near resistance (pullback likely)"] := by decide!
  rw [hr] at hb hs
  have hb3 : r.buySignals = ["Bullish MA crossover + price above MA7",
      "Near support level (bounce potential)", "AI predicts +7.84% gain"] := by
    simpa [Except.map] using hb
  have hs1 : r.sellSignals = ["Near resistance (pullback likely)"] := by
    simpa [Except.map] using hs
  have hmb : "AI predicts +7.84% gain" ∈ r.buySignals := by rw [hb3]; simp
  have hms : "Near resistance (pullback likely)" ∈ r.sellSignals := by rw [hs1]; simp
  have hall := C2_outlook_enumerates_signals sampleRising r hr
  exact ⟨r, hr, hmb, hall.1 _ hmb, hms, hall.2 _ hms⟩

/-! ## The signal collector -/

theorem pushIf_eq (condition : Bool) (signals : List String) (description : String) :
    pushIf condition signals description
      = signals ++ (if condition then [description] else []) := by
  unfold pushIf
  split <;> simp

/-- The array `buySignals` after the ten pushes: one entry per buy rule whose
condition holds, in the order of the rules. -/
theorem collectSignals_buy (rsi ma7 ma21 currentPrice : Number) (minPrice maxPrice : FixedStr)
    (predictionChange : FixedStr) (volumeTrend : Number) :
    (collectSignals rsi ma7 ma21 currentPrice minPrice maxPrice predictionChange volumeTrend).1
      = (if JSNum.lt rsi (JSNum.fin 35)
          then [template ["RSI oversold (", toFixed rsi 0, " < 35)"]] else [])
        ++ (if JSNum.gt ma7 ma21 && JSNum.gt currentPrice ma7
          then ["Bullish MA crossover + price above MA7"] else [])
        ++ (if JSNum.lt currentPrice (JSNum.mul minPrice.value (JSNum.fin 1.05))
          then ["Near support level (bounce potential)"] else [])
        ++ (if JSNum.gt predictionChange.value (JSNum.fin 2)
          then [template ["AI predicts +", predictionChange.text, "% gain"]] else [])
        ++ (if JSNum.gt volumeTrend (JSNum.fin 5)
          then ["Volume increasing (+" ++ toFixed volumeTrend 1 ++ "%)"] else []) := by
  simp only [collectSignals, pushIf_eq, List.nil_append]

/-- The array `sellSignals` after the ten pushes: one entry per sell rule
whose condition holds, in the order of the rules. -/
theorem collectSignals_sell (rsi ma7 ma21 currentPrice : Number) (minPrice maxPrice : FixedStr)
    (predictionChange : FixedStr) (volumeTrend : Number) :
    (collectSignals rsi ma7 ma21 currentPrice minPrice maxPrice predictionChange volumeTrend).2
      = (if JSNum.gt rsi (JSNum.fin 65)
          then [template ["RSI overbought (", toFixed rsi 0, " > 65)"]] else [])
        ++ (if JSNum.lt ma7 ma21 && JSNum.lt currentPrice ma7
          then ["Bearish MA crossover + price below MA7"] else [])
        ++ (if JSNum.gt currentPrice (JSNum.mul maxPrice.value (JSNum.fin 0.95))
          then ["Near resistance (pullback likely)"] else [])
        ++ (if JSNum.lt predictionChange.value (JSNum.fin (-2))
          then [template ["AI predicts ", predictionChange.text, "% loss"]] else [])
        ++ (if JSNum.lt volumeTrend (JSNum.fin (-5))
          then ["Volume decreasing (" ++ toFixed volumeTrend 1 ++ "%)"] else []) := by
  simp only [collectSignals, pushIf_eq, List.nil_append]

/-! ## Exclusive rules -/

theorem head_append (a b : String) (c : Char) (h : a.data.head? = some c) :
    (a ++ b).data.head? = some c := by
  rw [String.data_append]
  cases ha : a.data with
  | nil => rw [ha] at h; simp at h
  | cons x xs => rw [ha] at h; simpa using h

theorem ne_of_head (a b : String) (c d : Char) (ha : a.data.head? = some c)
    (hb : b.data.head? = some d) (hcd : c ≠ d) : a ≠ b := by
  intro hab
  rw [hab, hb] at ha
  exact hcd (Option.some.inj ha).symm

theorem mem_ite_singleton (c : Bool) (d x : String) :
    x ∈ (if c then [d] else []) ↔ c = true ∧ x = d := by
  cases c <;> simp

theorem lt_gt_exclusive (v : Number) (lo hi : ℚ) (h : lo ≤ hi)
    (h1 : JSNum.lt v (JSNum.fin lo) = true) (h2 : JSNum.gt v (JSNum.fin hi) = true) : False := by
  cases v with
  | fin a =>
    simp only [JSNum.gt, JSNum.lt, decide_eq_true_eq] at h1 h2
    linarith
  | nan => simp [JSNum.lt] at h1
  | pinf => simp [JSNum.lt] at h1
  | ninf => simp [JSNum.gt, JSNum.lt] at h2

theorem lt_asymm_num (x y : Number) (h1 : JSNum.lt x y = true) (h2 : JSNum.lt y x = true) :
    False := by
  cases x <;> cases y <;> simp [JSNum.lt] at h1 h2
  linarith

/-- The entries of `buySignals`: each one is the description of a buy rule
whose condition holds. -/
theorem mem_buySignals (data : PredictionResult) (r : Analysis)
    (h : generateDetailedAnalysis data = .ok r) (s : String) (hs : s ∈ r.buySignals) :
    (JSNum.lt r.rsi (JSNum.fin 35) = true
        ∧ s = template ["RSI oversold (", toFixed r.rsi 0, " < 35)"])
    ∨ ((JSNum.gt r.ma7 r.ma21 && JSNum.gt r.currentPrice r.ma7) = true
        ∧ s = "Bullish MA crossover + price above MA7")
    ∨ (JSNum.lt r.currentPrice (JSNum.mul r.minPrice.value (JSNum.fin 1.05)) = true
        ∧ s = "Near support level (bounce potential)")
    ∨ (JSNum.gt r.predictionChange.value (JSNum.fin 2) = true
        ∧ s = template ["AI predicts +", r.predictionChange.text, "% gain"])
    ∨ (JSNum.gt r.volumeTrend (JSNum.fin 5) = true
        ∧ s = "Volume increasing (+" ++ toFixed r.volumeTrend 1 ++ "%)") := by
  obtain ⟨_, _, _, _, _, _, _, _, _, _, _, hsig, _⟩ := generateDetailedAnalysis_inv data r h
  have hb := congrArg Prod.fst hsig
  simp only at hb
  rw [hb, collectSignals_buy] at hs
  simp only [List.mem_append, mem_ite_singleton] at hs
  tauto

/-- The entries of `sellSignals`: each one is the description of a sell rule
whose condition holds. -/
theorem mem_sellSignals (data : PredictionResult) (r : Analysis)
    (h : generateDetailedAnalysis data = .ok r) (s : String) (hs : s ∈ r.sellSignals) :
    (JSNum.gt r.rsi (JSNum.fin 65) = true
        ∧ s = template ["RSI overbought (", toFixed r.rsi 0, " > 65)"])
    ∨ ((JSNum.lt r.ma7 r.ma21 && JSNum.lt r.currentPrice r.ma7) = true
        ∧ s = "Bearish MA crossover + price below MA7")
    ∨ (JSNum.gt r.currentPrice (JSNum.mul r.maxPrice.value (JSNum.fin 0.95)) = true
        ∧ s = "Near resistance (pullback likely)")
    ∨ (JSNum.lt r.predictionChange.value (JSNum.fin (-2)) = true
        ∧ s = template ["AI predicts ", r.predictionChange.text, "% loss"])
    ∨ (JSNum.lt r.volumeTrend (JSNum.fin (-5)) = true
        ∧ s = "Volume decreasing (" ++ toFixed r.volumeTrend 1 ++ "%)") := by
  obtain ⟨_, _, _, _, _, _, _, _, _, _, _, hsig, _⟩ := generateDetailedAnalysis_inv data r h
  have hb := congrArg Prod.snd hsig
  simp only at hb
  rw [hb, collectSignals_sell] at hs
  simp only [List.mem_append, mem_ite_singleton] at hs
  tauto

theorem head_rsi (lead text tail : String) (c : Char) (h : lead.data.head? = some c) :
    (template [lead, text, tail]).data.head? = some c :=
  head_append lead _ c h

theorem head_volume (lead text tail : String) (c : Char) (h : lead.data.head? = some c) :
    (lead ++ text ++ tail).data.head? = some c :=
  head_append _ _ c (head_append lead _ c h)

/-- C4 as stated fails for the proximity indicator: on `sampleFlat` (prices
`[100, 100]`) the support rule `100 < 100 * 1.05` and the resistance rule
`100 > 100 * 0.95` both fire in the same evaluation. -/
theorem C4_exclusive_rules_counterexample :
    (generateDetailedAnalysis sampleFlat).map (fun a => (a.buySignals, a.sellSignals))
      = .ok (["Near support level (bounce potential)"],
          ["Near resistance (pullback likely)"]) := by
  decide!

/-- C4, amended: in every report that is produced, the buy rule and the sell
rule of the same indicator never both contribute a signal, for the RSI, the
moving-average crossover, the predicted change and the volume trend. -/
theorem C4_exclusive_rules_except_proximity (data : PredictionResult) (r : Analysis)
    (h : generateDetailedAnalysis data = .ok r) :
    ¬ (template ["RSI oversold (", toFixed r.rsi 0, " < 35)"] ∈ r.buySignals
        ∧ template ["RSI overbought (", toFixed r.rsi 0, " > 65)"] ∈ r.sellSignals)
    ∧ ¬ ("Bullish MA crossover + price above MA7" ∈ r.buySignals
        ∧ "Bearish MA crossover + price below MA7" ∈ r.sellSignals)
    ∧ ¬ (template ["AI predicts +", r.predictionChange.text, "% gain"] ∈ r.buySignals
        ∧ template ["AI predicts ", r.predictionChange.text, "% loss"] ∈ r.sellSignals)
    ∧ ¬ ("Volume increasing (+" ++ toFixed r.volumeTrend 1 ++ "%)" ∈ r.buySignals
        ∧ "Volume decreasing (" ++ toFixed r.volumeTrend 1 ++ "%)" ∈ r.sellSignals) := by
  refine ⟨?_, ?_, ?_, ?_⟩
  · rintro ⟨hb, hs⟩
    have cb : JSNum.lt r.rsi (JSNum.fin 35) = true := by
      rcases mem_buySignals data r h _ hb with ⟨hc, _⟩ | ⟨_, e⟩ | ⟨_, e⟩ | ⟨_, e⟩ | ⟨_, e⟩
      · exact hc
      · exact absurd e (ne_of_head _ _ 'R' 'B' (head_rsi _ _ _ _ rfl) rfl (by decide))
      · exact absurd e (ne_of_head _ _ 'R' 'N' (head_rsi _ _ _ _ rfl) rfl (by decide))
      · exact absurd e (ne_of_head _ _ 'R' 'A' (head_rsi _ _ _ _ rfl)
          (head_rsi _ _ _ _ rfl) (by decide))
      · exact absurd e (ne_of_head _ _ 'R' 'V' (head_rsi _ _ _ _ rfl)
          (head_volume _ _ _ _ rfl) (by decide))
    have cs : JSNum.gt r.rsi (JSNum.fin 65) = true := by
      rcases mem_sellSignals data r h _ hs with ⟨hc, _⟩ | ⟨_, e⟩ | ⟨_, e⟩ | ⟨_, e⟩ | ⟨_, e⟩
      · exact hc
      · exact absurd e (ne_of_head _ _ 'R' 'B' (head_rsi _ _ _ _ rfl) rfl (by decide))
      · exact absurd e (ne_of_head _ _ 'R' 'N' (head_rsi _ _ _ _ rfl) rfl (by decide))
      · exact absurd e (ne_of_head _ _ 'R' 'A' (head_rsi _ _ _ _ rfl)
          (head_rsi _ _ _ _ rfl) (by decide))
      · exact absurd e (ne_of_head _ _ 'R' 'V' (head_rsi _ _ _ _ rfl)
          (head_volume _ _ _ _ rfl) (by decide))
    exact lt_gt_exclusive r.rsi 35 65 (by norm_num) cb cs
  · rintro ⟨hb, hs⟩
    have cb : (JSNum.gt r.ma7 r.ma21 && JSNum.gt r.currentPrice r.ma7) = true := by
      rcases mem_buySignals data r h _ hb with ⟨_, e⟩ | ⟨hc, _⟩ | ⟨_, e⟩ | ⟨_, e⟩ | ⟨_, e⟩
      · exact absurd e (ne_of_head _ _ 'B' 'R' rfl (head_rsi _ _ _ _ rfl) (by decide))
      · exact hc
      · exact absurd e (ne_of_head _ _ 'B' 'N' rfl rfl (by decide))
      · exact absurd e (ne_of_head _ _ 'B' 'A' rfl (head_rsi _ _ _ _ rfl) (by decide))
      · exact absurd e (ne_of_head _ _ 'B' 'V' rfl (head_volume _ _ _ _ rfl) (by decide))
    have cs : (JSNum.lt r.ma7 r.ma21 && JSNum.lt r.currentPrice r.ma7) = true := by
      rcases mem_sellSignals data r h _ hs with ⟨_, e⟩ | ⟨hc, _⟩ | ⟨_, e⟩ | ⟨_, e⟩ | ⟨_, e⟩
      · exact absurd e (ne_of_head _ _ 'B' 'R' rfl (head_rsi _ _ _ _ rfl) (by decide))
      · exact hc
      · exact absurd e (ne_of_head _ _ 'B' 'N' rfl rfl (by decide))
      · exact absurd e (ne_of_head _ _ 'B' 'A' rfl (head_rsi _ _ _ _ rfl) (by decide))
      · exact absurd e (ne_of_head _ _ 'B' 'V' rfl (head_volume _ _ _ _ rfl) (by decide))
    rw [Bool.and_eq_true] at cb cs
    exact lt_asymm_num r.ma7 r.ma21 cs.1 cb.1
  · rintro ⟨hb, hs⟩
    have cb : JSNum.gt r.predictionChange.value (JSNum.fin 2) = true := by
      rcases mem_buySignals data r h _ hb with ⟨_, e⟩ | ⟨_, e⟩ | ⟨_, e⟩ | ⟨hc, _⟩ | ⟨_, e⟩
      · exact absurd e (ne_of_head _ _ 'A' 'R' (head_rsi _ _ _ _ rfl)
          (head_rsi _ _ _ _ rfl) (by decide))
      · exact absurd e (ne_of_head _ _ 'A' 'B' (head_rsi _ _ _ _ rfl) rfl (by decide))
      · exact absurd e (ne_of_head _ _ 'A' 'N' (head_rsi _ _ _ _ rfl) rfl (by decide))
      · exact hc
      · exact absurd e (ne_of_head _ _ 'A' 'V' (head_rsi _ _ _ _ rfl)
          (head_volume _ _ _ _ rfl) (by decide))
    have cs : JSNum.lt r.predictionChange.value (JSNum.fin (-2)) = true := by
      rcases mem_sellSignals data r h _ hs with ⟨_, e⟩ | ⟨_, e⟩ | ⟨_, e⟩ | ⟨hc, _⟩ | ⟨_, e⟩
      · exact absurd e (ne_of_head _ _ 'A' 'R' (head_rsi _ _ _ _ rfl)
          (head_rsi _ _ _ _ rfl) (by decide))
      · exact absurd e (ne_of_head _ _ 'A' 'B' (head_rsi _ _ _ _ rfl) rfl (by decide))
      · exact absurd e (ne_of_head _ _ 'A' 'N' (head_rsi _ _ _ _ rfl) rfl (by decide))
      · exact hc
      · exact absurd e (ne_of_head _ _ 'A' 'V' (head_rsi _ _ _ _ rfl)
          (head_volume _ _ _ _ rfl) (by decide))
    exact lt_gt_exclusive r.predictionChange.value (-2) 2 (by norm_num) cs cb
  · rintro ⟨hb, hs⟩
    have cb : JSNum.gt r.volumeTrend (JSNum.fin 5) = true := by
      rcases mem_buySignals data r h _ hb with ⟨_, e⟩ | ⟨_, e⟩ | ⟨_, e⟩ | ⟨_, e⟩ | ⟨hc, _⟩
      · exact absurd e (ne_of_head _ _ 'V' 'R' (head_volume _ _ _ _ rfl)
          (head_rsi _ _ _ _ rfl) (by decide))
      · exact absurd e (ne_of_head _ _ 'V' 'B' (head_volume _ _ _ _ rfl) rfl (by decide))
      · exact absurd e (ne_of_head _ _ 'V' 'N' (head_volume _ _ _ _ rfl) rfl (by decide))
      · exact absurd e (ne_of_head _ _ 'V' 'A' (head_volume _ _ _ _ rfl)
          (head_rsi _ _ _ _ rfl) (by decide))
      · exact hc
    have cs : JSNum.lt r.volumeTrend (JSNum.fin (-5)) = true := by
      rcases mem_sellSignals data r h _ hs with ⟨_, e⟩ | ⟨_, e⟩ | ⟨_, e⟩ | ⟨_, e⟩ | ⟨hc, _⟩
      · exact absurd e (ne_of_head _ _ 'V' 'R' (head_volume _ _ _ _ rfl)
          (head_rsi _ _ _ _ rfl) (by decide))
      · exact absurd e (ne_of_head _ _ 'V' 'B' (head_volume _ _ _ _ rfl) rfl (by decide))
      · exact absurd e (ne_of_head _ _ 'V' 'N' (head_volume _ _ _ _ rfl) rfl (by decide))
      · exact absurd e (ne_of_head _ _ 'V' 'A' (head_volume _ _ _ _ rfl)
          (head_rsi _ _ _ _ rfl) (by decide))
      · exact hc
    exact lt_gt_exclusive r.volumeTrend (-5) 5 (by norm_num) cs cb

/-- C4 on `sampleRising`: the report is produced, the bullish crossover
entry is one of its buy signals, and so the bearish crossover entry is not
among its sell signals. -/
theorem C4_exclusive_rules_witness :
    ∃ r, generateDetailedAnalysis sampleRising = .ok r
      ∧ "Bullish MA crossover + price above MA7" ∈ r.buySignals
      ∧ "Bearish MA crossover + price below MA7" ∉ r.sellSignals := by
  obtain ⟨r, hr⟩ := generateDetailedAnalysis_isOk sampleRising (by decide) (by decide)
  have hb : (generateDetailedAnalysis sampleRising).map (fun a => a.buySignals)
      = .ok ["Bullish MA crossover + price above MA7", "Near support level (bounce potential)",
          "AI predicts +7.84% gain"] := by decide!
  rw [hr] at hb
  have hb3 : r.buySignals = ["Bullish MA crossover + price above MA7",
      "Near support level (bounce potential)", "AI predicts +7.84% gain"] := by
    simpa [Except.map] using hb
  have hmem : "Bullish MA crossover + price above MA7" ∈ r.buySignals := by rw [hb3]; simp
  exact ⟨r, hr, hmem, fun hs =>
    (C4_exclusive_rules_except_proximity sampleRising r hr).2.1 ⟨hmem, hs⟩⟩

/-! ## The response normalizer: the claims -/

/-- C11 fails on the code: for the response `zeroPriceResponse`
(`historical_prices: [0]`, no metrics) the mean price is 0 and the error is
`0 / 0`, so the clamp `Math.max(0, Math.min(100, ...))` returns `NaN` and
the field `accuracy` is the text `"NaN"`, which is not in `[0, 100]`. -/
theorem C11_accuracy_nan_on_zero_prices :
    accuracyAvgPrice zeroPriceResponse = JSNum.fin 0
    ∧ accuracyNumber zeroPriceResponse = JSNum.nan
    ∧ accuracy zeroPriceResponse = "NaN"
    ∧ (transformed zeroPriceResponse "AAPL").metrics.accuracy = "NaN" := by
  refine ⟨by decide!, by decide!, by decide!, by decide!⟩

/-- The clamp of the accuracy computation: when the mean price and the
error are not both zero, the value lies in `[0, 100]`. -/
theorem accuracyNumber_in_range (json : RawResponse) (rmse avgPrice : ℚ)
    (hr : orZero (json.metrics.bind (fun m => m.rmse)) = JSNum.fin rmse)
    (ha : accuracyAvgPrice json = JSNum.fin avgPrice)
    (hne : avgPrice ≠ 0 ∨ rmse ≠ 0) :
    ∃ a : ℚ, accuracyNumber json = JSNum.fin a ∧ 0 ≤ a ∧ a ≤ 100 := by
  unfold accuracyNumber
  simp only [hr, ha]
  by_cases h0 : avgPrice = 0
  · have hr0 : rmse ≠ 0 := by
      rcases hne with h | h
      · exact absurd h0 h
      · exact h
    subst h0
    rcases lt_or_gt_of_ne hr0 with hneg | hpos
    · refine ⟨100, ?_, by norm_num, by norm_num⟩
      have h1 : ¬ (0 < rmse) := by linarith
      have hd : JSNum.div (JSNum.fin rmse) (JSNum.fin 0) = JSNum.ninf := by
        simp [JSNum.div, JSNum.signedInf, hr0, h1]
      rw [hd]
      decide!
    · refine ⟨0, ?_, by norm_num, by norm_num⟩
      have hd : JSNum.div (JSNum.fin rmse) (JSNum.fin 0) = JSNum.pinf := by
        simp [JSNum.div, JSNum.signedInf, hr0, hpos]
      rw [hd]
      decide!
  · refine ⟨max 0 (min 100 (100 - rmse / avgPrice * 100)), ?_, le_max_left _ _, ?_⟩
    · simp [JSNum.div, h0, JSNum.mul, JSNum.sub, JSNum.neg, JSNum.add, JSNum.min2, JSNum.max2,
        sub_eq_add_neg]
    · exact max_le (by norm_num) (min_le_left _ _)

/-- C14: the normalized record of the response `{}` is built without any
fault (the normalizer is a total function) and holds the defaults: the
submitted ticker, four empty arrays, `'0.0000'` for the three metrics,
`'100.00'` for the accuracy and Neutral for the trend; and in every response,
each absent field gets its default. -/
theorem C14_transformed_defaults (ticker : String) :
    transformed emptyResponse ticker
      = PredictionResult.mk ticker [] [] [] []
          (Metrics.mk "0.0000" "0.0000" "0.0000" "100.00" "Neutral")
    ∧ ∀ json : RawResponse,
        (json.ticker = none → (transformed json ticker).ticker = ticker)
        ∧ (json.dates = none → (transformed json ticker).dates = [])
        ∧ (json.historical_prices = none → (transformed json ticker).historicalPrices = [])
        ∧ (json.predictions = none → (transformed json ticker).predictions = [])
        ∧ (json.historical_data = none → (transformed json ticker).historicalData = [])
        ∧ (json.metrics = none →
            (transformed json ticker).metrics.mse = "0.0000"
            ∧ (transformed json ticker).metrics.rmse = "0.0000"
            ∧ (transformed json ticker).metrics.mae = "0.0000")
        ∧ (json.metrics = none → json.historical_prices = none →
            (transformed json ticker).metrics.accuracy = "100.00")
        ∧ (json.historical_prices = none ∨ json.predictions = none →
            (transformed json ticker).metrics.trend = "Neutral") := by
  refine ⟨?_, fun json => ⟨?_, ?_, ?_, ?_, ?_, ?_, ?_, ?_⟩⟩
  · have hacc : accuracy emptyResponse = "100.00" := by decide!
    have htr : trend emptyResponse = "Neutral" := by decide!
    show PredictionResult.mk ticker [] [] [] []
        (Metrics.mk "0.0000" "0.0000" "0.0000" (accuracy emptyResponse) (trend emptyResponse))
      = _
    rw [hacc, htr]
  · intro h; simp [transformed, h]
  · intro h; simp [transformed, h]
  · intro h; simp [transformed, h]
  · intro h; simp [transformed, h]
  · intro h; simp [transformed, h]
  · intro h; simp [transformed, h, metricText]
  · intro hm hh
    have : accuracyNumber json = JSNum.fin 100 := by
      unfold accuracyNumber accuracyAvgPrice
      rw [hm, hh]
      decide!
    simp only [transformed, accuracy, this]
    decide!
  · intro h
    simp only [transformed, trend]
    rcases h with h | h <;> simp [h]

/-- C14 on `zeroPriceResponse`, which has prices but no ticker, no
predictions and no metrics: the ticker is the submitted one, `predictions` is
empty, the three metrics are `'0.0000'` and the trend is Neutral. -/
theorem C14_transformed_witness :
    (transformed zeroPriceResponse "AAPL").ticker = "AAPL"
    ∧ (transformed zeroPriceResponse "AAPL").predictions = []
    ∧ (transformed zeroPriceResponse "AAPL").metrics.rmse = "0.0000"
    ∧ (transformed zeroPriceResponse "AAPL").metrics.trend = "Neutral" := by
  obtain ⟨ht, _, _, hp, _, hm, _, htr⟩ :=
    (C14_transformed_defaults "AAPL").2 zeroPriceResponse
  exact ⟨ht rfl, hp rfl, (hm rfl).2.1, htr (Or.inr rfl)⟩

/-- C15: exchanging the two signal lists exchanges BUY and SELL and keeps
HOLD, the recommendation is HOLD exactly when the two counts are equal, and
the confidence is unchanged. -/
theorem C15_recommendation_symmetry (buySignals sellSignals : List String) :
    recommendationOf sellSignals buySignals
        = swapSides (recommendationOf buySignals sellSignals)
    ∧ (recommendationOf buySignals sellSignals = "HOLD"
        ↔ buySignals.length = sellSignals.length)
    ∧ (recommendationOf sellSignals buySignals = "HOLD"
        ↔ buySignals.length = sellSignals.length)
    ∧ confidenceOf sellSignals buySignals = confidenceOf buySignals sellSignals := by
  refine ⟨?_, ?_, ?_, ?_⟩
  · unfold recommendationOf swapSides
    rcases Nat.lt_trichotomy buySignals.length sellSignals.length with h | h | h
    · have h2 : ¬ (buySignals.length > sellSignals.length) := by omega
      simp [h, h2]
    · simp [h]
    · have h2 : ¬ (sellSignals.length > buySignals.length) := by omega
      simp [h, h2]
  · unfold recommendationOf
    rcases Nat.lt_trichotomy buySignals.length sellSignals.length with h | h | h
    · have h2 : ¬ (buySignals.length > sellSignals.length) := by omega
      simp [h, h2]; omega
    · simp [h]
    · simp [h]; omega
  · unfold recommendationOf
    rcases Nat.lt_trichotomy buySignals.length sellSignals.length with h | h | h
    · simp [h]; omega
    · simp [h]
    · have h2 : ¬ (sellSignals.length > buySignals.length) := by omega
      simp [h, h2]; omega
  · rw [confidenceOf_eq, confidenceOf_eq, abs_sub_comm]

/-! ## Risk level and stop-loss: the claim -/

theorem textContains_middle_cut (lead mid tail part keep : String)
    (hlead : part.data <:+ lead.data) (htail : keep.data <+: tail.data) :
    textContains (lead ++ mid ++ tail) (part ++ mid ++ keep) := by
  obtain ⟨skip, hs⟩ := hlead
  obtain ⟨rest, hr⟩ := htail
  unfold textContains
  simp only [String.data_append, ← hs, ← hr, List.append_assoc]
  exact ⟨skip, rest, by simp⟩

/-- The stop-loss line of the risk assessment, for each of the three risk
levels. -/
theorem riskAssessmentText_stop (data : PredictionResult) (profile : Profile)
    (minPrice maxPrice : FixedStr) (volatility : JSNum ℝ) (currentPrice : Number)
    (riskLevel : String) :
    (riskLevel = "HIGH" →
      textContains
        (riskAssessmentText data profile minPrice maxPrice volatility currentPrice riskLevel)
        ("Tight stop: $" ++ toFixed (JSNum.mul currentPrice (JSNum.fin 0.95)) 2
          ++ " (-5% from current)"))
    ∧ (riskLevel = "MODERATE" →
      textContains
        (riskAssessmentText data profile minPrice maxPrice volatility currentPrice riskLevel)
        ("Normal stop: $" ++ toFixed (JSNum.mul currentPrice (JSNum.fin 0.92)) 2
          ++ " (-8% from current)"))
    ∧ (riskLevel = "LOW" →
      textContains
        (riskAssessmentText data profile minPrice maxPrice volatility currentPrice riskLevel)
        ("Wide stop: $" ++ toFixed (JSNum.mul currentPrice (JSNum.fin 0.90)) 2
          ++ " (-10% from current)")) := by
  refine ⟨?_, ?_, ?_⟩
  · intro h
    subst h
    unfold riskAssessmentText
    refine textContains_template_at _ _ 23 _ rfl ?_
    simp only [beq_self_eq_true, if_true]
    exact textContains_middle_cut _ _ _ _ _ (by decide) (by decide)
  · intro h
    subst h
    have hne : ("MODERATE" == "HIGH") = false := by decide
    unfold riskAssessmentText
    refine textContains_template_at _ _ 23 _ rfl ?_
    simp only [hne, beq_self_eq_true, if_true, Bool.false_eq_true, if_false]
    exact textContains_middle_cut _ _ _ _ _ (by decide) (by decide)
  · intro h
    subst h
    have hne : ("LOW" == "HIGH") = false := by decide
    have hne2 : ("LOW" == "MODERATE") = false := by decide
    unfold riskAssessmentText
    refine textContains_template_at _ _ 23 _ rfl ?_
    simp only [hne, hne2, Bool.false_eq_true, if_false]
    exact textContains_middle_cut _ _ _ _ _ (by decide) (by decide)

theorem riskLevelOf_fin (v : ℝ) :
    (3 < v → riskLevelOf (JSNum.fin v) = "HIGH")
    ∧ (1.5 < v → v ≤ 3 → riskLevelOf (JSNum.fin v) = "MODERATE")
    ∧ (v ≤ 1.5 → riskLevelOf (JSNum.fin v) = "LOW") := by
  refine ⟨fun h => ?_, fun h1 h2 => ?_, fun h => ?_⟩
  · simp [riskLevelOf, JSNum.gt, JSNum.lt, h]
  · have h3 : ¬ (3 < v) := not_lt.mpr h2
    simp [riskLevelOf, JSNum.gt, JSNum.lt, h1, h3]
  · have h3 : ¬ (3 < v) := by linarith
    have h4 : ¬ (1.5 < v) := not_lt.mpr h
    simp [riskLevelOf, JSNum.gt, JSNum.lt, h3, h4]

/-- C13: in every report that is produced, the risk level is a function of
the volatility alone, HIGH when it is above 3, MODERATE when it is above 1.5
and at most 3, LOW otherwise; and the risk assessment recommends the stop-loss
price `currentPrice * 0.95` (-5%) for HIGH, `currentPrice * 0.92` (-8%) for
MODERATE and `currentPrice * 0.90` (-10%) for LOW. -/
theorem C13_risk_level_and_stop_loss (data : PredictionResult) (r : Analysis)
    (h : generateDetailedAnalysis data = .ok r) :
    r.riskLevel
        = (if JSNum.gt r.volatility (JSNum.fin 3) then "HIGH"
            else if JSNum.gt r.volatility (JSNum.fin 1.5) then "MODERATE" else "LOW")
    ∧ (∀ v : ℝ, r.volatility = JSNum.fin v →
        (3 < v → r.riskLevel = "HIGH")
        ∧ (1.5 < v → v ≤ 3 → r.riskLevel = "MODERATE")
        ∧ (v ≤ 1.5 → r.riskLevel = "LOW"))
    ∧ (r.riskLevel = "HIGH" →
        textContains r.riskAssessment
          ("Tight stop: $" ++ toFixed (JSNum.mul r.currentPrice (JSNum.fin 0.95)) 2
            ++ " (-5% from current)"))
    ∧ (r.riskLevel = "MODERATE" →
        textContains r.riskAssessment
          ("Normal stop: $" ++ toFixed (JSNum.mul r.currentPrice (JSNum.fin 0.92)) 2
            ++ " (-8% from current)"))
    ∧ (r.riskLevel = "LOW" →
        textContains r.riskAssessment
          ("Wide stop: $" ++ toFixed (JSNum.mul r.currentPrice (JSNum.fin 0.90)) 2
            ++ " (-10% from current)")) := by
  obtain ⟨_, _, _, _, _, _, _, _, _, _, hrisk, _, _, _, hra, _⟩ :=
    generateDetailedAnalysis_inv data r h
  have hstop := riskAssessmentText_stop data (profileOf data.ticker) r.minPrice r.maxPrice
    r.volatility r.currentPrice r.riskLevel
  rw [← hra] at hstop
  refine ⟨by rw [hrisk]; rfl, fun v hv => ?_, hstop.1, hstop.2.1, hstop.2.2⟩
  rw [hrisk, hv]
  exact riskLevelOf_fin v

/-- C13 on `sampleVolatile` (prices 100 and 120: the volatility is
`10 / 110 * 100`, above 3): the report is produced, its risk level is HIGH
and its risk assessment recommends the stop `120 * 0.95 = 114.00`. -/
theorem C13_risk_level_witness :
    ∃ r, generateDetailedAnalysis sampleVolatile = .ok r
      ∧ r.riskLevel = "HIGH"
      ∧ textContains r.riskAssessment "Tight stop: $114.00 (-5% from current)" := by
  obtain ⟨r, hr⟩ := generateDetailedAnalysis_isOk sampleVolatile (by decide) (by decide)
  obtain ⟨hvol, _, _, _, _, hcur, _⟩ := generateDetailedAnalysis_inv sampleVolatile r hr
  have hm : arithMean [100, 120] = 110 := by norm_num [arithMean]
  have hsd : populationStdDev [100, 120] = 10 := by
    have hv : populationVariance [100, 120] = 100 := by
      norm_num [populationVariance, hm]
    unfold populationStdDev
    rw [hv]
    have h100 : ((100 : ℚ) : ℝ) = 10 ^ 2 := by norm_num
    rw [h100, Real.sqrt_sq (by norm_num)]
  have hv : calculateVolatility sampleVolatile.historicalPrices
      = .ok (JSNum.fin (10 / 110 * 100)) := by
    show calculateVolatility (([100, 120] : List ℚ).map JSNum.fin) = _
    rw [calculateVolatility_of_mean_ne_zero _ (by simp) (by rw [hm]; norm_num), hm, hsd]
    norm_num
  rw [hv] at hvol
  have gvol : r.volatility = JSNum.fin (10 / 110 * 100) := (Except.ok.inj hvol).symm
  have ecur : sampleVolatile.historicalPrices.getLast? = some (JSNum.fin 120) := by decide!
  rw [ecur] at hcur
  have gcur : r.currentPrice = JSNum.fin 120 := (Option.some.inj hcur).symm
  have hall := C13_risk_level_and_stop_loss sampleVolatile r hr
  have hhigh : r.riskLevel = "HIGH" := (hall.2.1 _ gvol).1 (by norm_num)
  have htext := hall.2.2.1 hhigh
  rw [gcur] at htext
  have hfix : "Tight stop: $" ++ toFixed (JSNum.mul (JSNum.fin 120 : Number) (JSNum.fin 0.95)) 2
      ++ " (-5% from current)" = "Tight stop: $114.00 (-5% from current)" := by decide!
  rw [hfix] at htext
  exact ⟨r, hr, hhigh, htext⟩

/-! ## Empty series -/

theorem generateDetailedAnalysis_error_of_empty (data : PredictionResult)
    (h : data.historicalPrices = [] ∨ data.predictions = []) :
    generateDetailedAnalysis data = .error JSError.typeError := by
  by_cases hp : data.historicalPrices = []
  · unfold generateDetailedAnalysis
    simp [hp, calculateVolatility, reduceAdd, bind, Except.bind]
  · have hq : data.predictions = [] := by
      rcases h with h | h
      · exact absurd h hp
      · exact h
    obtain ⟨vol, hvol⟩ := calculateVolatility_isOk _ hp
    obtain ⟨total, htot⟩ := reduceAdd_isOk _ hp
    obtain ⟨ma7, h7⟩ := calculateMA_isOk _ 7 hp (by norm_num)
    obtain ⟨ma21, h21⟩ := calculateMA_isOk _ 21 hp (by norm_num)
    obtain ⟨vt, hvt⟩ := calculateVolumeTrend_isOk data.historicalPrices
    obtain ⟨cur, hcur⟩ : ∃ c, data.historicalPrices.getLast? = some c :=
      ⟨_, List.getLast?_eq_getLast _ hp⟩
    unfold generateDetailedAnalysis
    simp only [bind, Except.bind, hvol, htot, h7, h21, hvt, hcur, hq, requireNumber,
      List.getLast?_nil]

/-- C17 as stated fails: on the normalized record of the response `{}`
(both series empty) and on `sampleNoPredictions` (one price, no prediction)
`generateDetailedAnalysis` raises a `TypeError` and produces no report. -/
theorem C17_empty_series_counterexample :
    (transformed emptyResponse "AAPL").historicalPrices = []
    ∧ generateDetailedAnalysis (transformed emptyResponse "AAPL") = .error JSError.typeError
    ∧ sampleNoPredictions.predictions = []
    ∧ generateDetailedAnalysis sampleNoPredictions = .error JSError.typeError :=
  ⟨rfl, generateDetailedAnalysis_error_of_empty _ (Or.inl rfl), rfl,
    generateDetailedAnalysis_error_of_empty _ (Or.inr rfl)⟩

/-- C17, amended: on a normalized record whose `historicalPrices` is empty
or whose `predictions` is empty, `generateDetailedAnalysis` raises a
`TypeError` (caught by its own `try`/`catch` and reported by a notification)
and produces no report; the report is produced exactly when both series are
non-empty. -/
theorem C17_empty_series_raise (data : PredictionResult) :
    (data.historicalPrices = [] ∨ data.predictions = [] →
        generateDetailedAnalysis data = .error JSError.typeError)
    ∧ ((∃ r, generateDetailedAnalysis data = .ok r)
        ↔ data.historicalPrices ≠ [] ∧ data.predictions ≠ []) := by
  refine ⟨generateDetailedAnalysis_error_of_empty data, ⟨?_, ?_⟩⟩
  · rintro ⟨r, hr⟩
    constructor
    · intro h0
      rw [generateDetailedAnalysis_error_of_empty data (Or.inl h0)] at hr
      cases hr
    · intro h0
      rw [generateDetailedAnalysis_error_of_empty data (Or.inr h0)] at hr
      cases hr
  · rintro ⟨hp, hq⟩
    exact generateDetailedAnalysis_isOk data hp hq

/-- C17 on `sampleNoPredictions`, whose `predictions` is empty: a
`TypeError`; and on `sampleFlat`, whose two series are non-empty: a report. -/
theorem C17_empty_series_witness :
    sampleNoPredictions.predictions = []
    ∧ generateDetailedAnalysis sampleNoPredictions = .error JSError.typeError
    ∧ ∃ r, generateDetailedAnalysis sampleFlat = .ok r :=
  ⟨rfl, (C17_empty_series_raise sampleNoPredictions).1 (Or.inr rfl),
    (C17_empty_series_raise sampleFlat).2.mpr ⟨by decide, by decide⟩⟩

/-! ## The prediction trace -/

/-- On at least one prediction and at least as many dates, the two
coordinates of the prediction trace are the last `min(30, len(predictions))`
dates and predictions, and have that length. -/
theorem predictionTrace_of_nonempty (data : PredictionResult)
    (hpos : 1 ≤ data.predictions.length)
    (hle : data.predictions.length ≤ data.dates.length) :
    (predictionTrace data).1 = lastElems (min 30 data.predictions.length) data.dates
    ∧ (predictionTrace data).2 = lastElems (min 30 data.predictions.length) data.predictions
    ∧ (predictionTrace data).1.length = min 30 data.predictions.length
    ∧ (predictionTrace data).2.length = min 30 data.predictions.length := by
  have hk : 1 ≤ min 30 data.predictions.length := by omega
  unfold predictionTrace
  simp only [sliceFrom_neg _ _ hk, lastElems_length]
  refine ⟨trivial, trivial, ?_, ?_⟩ <;> omega

/-- C18 fails on the code when there is no prediction: on
`sampleNoPredictions` (one date, no prediction) `Math.min(30, 0)` is 0 and
`slice(-0)` keeps the whole array, so the trace gets `x` of length 1 and `y`
of length 0, not two arrays of length `min(30, 0) = 0`. -/
theorem C18_prediction_trace_without_predictions :
    sampleNoPredictions.predictions.length ≤ sampleNoPredictions.dates.length
    ∧ predictionTrace sampleNoPredictions = (["2024-01-02"], [])
    ∧ (predictionTrace sampleNoPredictions).1.length = 1
    ∧ (predictionTrace sampleNoPredictions).2.length = 0
    ∧ min 30 sampleNoPredictions.predictions.length = 0 := by
  refine ⟨by decide, by decide, by decide, by decide, by decide⟩
/-! ## Binary64 rounding: bounds -/

namespace Binary64

theorem bitLengthAux_zero (fuel : Nat) : bitLengthAux fuel 0 = 0 := by
  cases fuel <;> simp [bitLengthAux]

/-- With enough fuel, `n` has exactly `bitLengthAux fuel n` binary digits. -/
theorem bitLengthAux_spec (fuel : Nat) : ∀ n, n ≤ fuel →
    n < 2 ^ bitLengthAux fuel n ∧ (n ≠ 0 → 2 ^ (bitLengthAux fuel n - 1) ≤ n) := by
  induction fuel with
  | zero =>
    intro n hn
    have h0 : n = 0 := by omega
    subst h0
    simp [bitLengthAux]
  | succ k ih =>
    intro n hn
    by_cases h0 : n = 0
    · subst h0
      simp [bitLengthAux]
    · have hk : n / 2 ≤ k := by omega
      obtain ⟨h1, h2⟩ := ih (n / 2) hk
      simp only [bitLengthAux, h0, if_false]
      constructor
      · rw [pow_succ]
        omega
      · intro _
        simp only [Nat.add_sub_cancel]
        by_cases h3 : n / 2 = 0
        · rw [h3, bitLengthAux_zero]
          simp
          omega
        · have h4 := h2 h3
          have ha : 1 ≤ bitLengthAux k (n / 2) := by
            by_contra hc
            have h5 : bitLengthAux k (n / 2) = 0 := by omega
            rw [h5] at h1
            simp at h1
            exact h3 h1
          obtain ⟨a, ha2⟩ : ∃ a, bitLengthAux k (n / 2) = a + 1 :=
            ⟨bitLengthAux k (n / 2) - 1, by omega⟩
          rw [ha2] at h4 ⊢
          simp only [Nat.add_sub_cancel] at h4
          rw [pow_succ]
          omega

theorem lt_two_pow_bitLength (n : Nat) : n < 2 ^ bitLength n :=
  (bitLengthAux_spec n n (le_refl n)).1

theorem two_pow_bitLength_le (n : Nat) (h : n ≠ 0) : 2 ^ (bitLength n - 1) ≤ n :=
  (bitLengthAux_spec n n (le_refl n)).2 h

theorem bitLength_pos (n : Nat) (h : n ≠ 0) : 1 ≤ bitLength n := by
  by_contra hc
  have h0 : bitLength n = 0 := by omega
  have h1 := lt_two_pow_bitLength n
  rw [h0] at h1
  simp at h1
  exact h h1

/-- The exponent `binade q` is the clamp `-1022`, or `2 ^ binade q` is at
most `q`. -/
theorem binade_spec (q : ℚ) (hq : 0 < q) : binade q = -1022 ∨ (2 : ℚ) ^ binade q ≤ q := by
  have hnum : 0 < q.num := Rat.num_pos.mpr hq
  have hn0 : q.num.natAbs ≠ 0 := by
    intro h
    have := Int.natAbs_eq_zero.mp h
    omega
  have hbn := bitLength_pos q.num.natAbs hn0
  have hlow := two_pow_bitLength_le q.num.natAbs hn0
  have hden := lt_two_pow_bitLength q.den
  have hqeq : q = (q.num.natAbs : ℚ) / (q.den : ℚ) := by
    have h1 : ((q.num.natAbs : ℤ) : ℚ) = (q.num : ℚ) := by
      rw [Int.natAbs_of_nonneg (le_of_lt hnum)]
    have h2 : ((q.num.natAbs : ℕ) : ℚ) = ((q.num.natAbs : ℤ) : ℚ) := (Int.cast_natCast _).symm
    rw [h2, h1]
    exact (Rat.num_div_den q).symm
  have hdpos : (0 : ℚ) < (q.den : ℚ) := by exact_mod_cast q.den_pos
  unfold binade
  split_ifs with h
  · rcases max_cases ((bitLength q.num.natAbs : ℤ) - (bitLength q.den : ℤ)) (-1022)
      with ⟨h1, _⟩ | ⟨h1, _⟩
    · right
      rw [h1]
      exact h
    · left
      exact h1
  · rcases max_cases ((bitLength q.num.natAbs : ℤ) - (bitLength q.den : ℤ) - 1) (-1022)
      with ⟨h1, _⟩ | ⟨h1, _⟩
    · right
      rw [h1]
      have he : (bitLength q.num.natAbs : ℤ) - (bitLength q.den : ℤ) - 1
          = ((bitLength q.num.natAbs - 1 : ℕ) : ℤ) - ((bitLength q.den : ℕ) : ℤ) := by
        omega
      rw [he, zpow_sub₀ (by norm_num : (2 : ℚ) ≠ 0), zpow_natCast, zpow_natCast]
      have h3 : ((2 : ℚ) ^ (bitLength q.num.natAbs - 1)) ≤ (q.num.natAbs : ℚ) := by
        exact_mod_cast hlow
      have h4 : (q.den : ℚ) ≤ (2 : ℚ) ^ bitLength q.den := by
        exact_mod_cast le_of_lt hden
      calc (2 : ℚ) ^ (bitLength q.num.natAbs - 1) / 2 ^ bitLength q.den
          ≤ (q.num.natAbs : ℚ) / 2 ^ bitLength q.den :=
            div_le_div_of_nonneg_right h3 (by positivity)
        _ ≤ (q.num.natAbs : ℚ) / (q.den : ℚ) :=
            div_le_div_of_nonneg_left (by positivity) hdpos h4
        _ = q := hqeq.symm
    · left
      exact h1

theorem roundHalfEven_le (x : ℚ) (n : ℤ) (h : x ≤ n) : roundHalfEven x ≤ n := by
  have hf1 : ((⌊x⌋ : ℤ) : ℚ) ≤ x := Int.floor_le x
  have hfn : ⌊x⌋ ≤ n := by
    have : ((⌊x⌋ : ℤ) : ℚ) ≤ (n : ℚ) := le_trans hf1 h
    exact_mod_cast this
  unfold roundHalfEven
  split_ifs with h1 h2 h3
  · exact hfn
  · have : ((⌊x⌋ : ℤ) : ℚ) < (n : ℚ) := by linarith
    have : ⌊x⌋ < n := by exact_mod_cast this
    omega
  · exact hfn
  · have : ((⌊x⌋ : ℤ) : ℚ) < (n : ℚ) := by linarith
    have : ⌊x⌋ < n := by exact_mod_cast this
    omega

theorem le_roundHalfEven (x : ℚ) (n : ℤ) (h : (n : ℚ) ≤ x) : n ≤ roundHalfEven x := by
  have hfn : n ≤ ⌊x⌋ := Int.le_floor.mpr h
  unfold roundHalfEven
  split_ifs <;> omega

/-- The double nearest to a positive rational: `+Infinity`, or the rounded
multiple of the quantum of its binade. -/
theorem nearest_of_pos (q : ℚ) (hq : 0 < q) :
    nearest q = .pinf
    ∨ nearest q = .fin ((roundHalfEven (q / 2 ^ (binade q - 52)) : ℚ) * 2 ^ (binade q - 52)) := by
  unfold nearest
  rw [if_neg (ne_of_gt hq), abs_of_pos hq]
  simp only [hq, if_true, one_mul]
  split_ifs
  · left
    rfl
  · right
    rfl

theorem nearest_zero : nearest 0 = .fin 0 := by
  simp [nearest]

/-- Rounding keeps a non-negative number non-negative. -/
theorem nearest_nonneg (q : ℚ) (hq : 0 ≤ q) :
    nearest q = .pinf ∨ ∃ v, nearest q = .fin v ∧ 0 ≤ v := by
  rcases eq_or_lt_of_le hq with h0 | hpos
  · right
    exact ⟨0, by rw [← h0, nearest_zero], le_refl 0⟩
  · rcases nearest_of_pos q hpos with h | h
    · left
      exact h
    · right
      refine ⟨_, h, ?_⟩
      have hu : (0 : ℚ) < 2 ^ (binade q - 52) := by positivity
      have hr : (0 : ℤ) ≤ roundHalfEven (q / 2 ^ (binade q - 52)) :=
        le_roundHalfEven _ 0 (by
          have : (0 : ℚ) ≤ q / 2 ^ (binade q - 52) := by positivity
          exact_mod_cast this)
      have hr2 : (0 : ℚ) ≤ (roundHalfEven (q / 2 ^ (binade q - 52)) : ℚ) := by
        exact_mod_cast hr
      positivity

/-- Rounding keeps a number that is at least 1 at least 1. -/
theorem nearest_ge_one (q : ℚ) (hq : 1 ≤ q) :
    nearest q = .pinf ∨ ∃ v, nearest q = .fin v ∧ 1 ≤ v := by
  have hpos : 0 < q := by linarith
  rcases nearest_of_pos q hpos with h | h
  · left
    exact h
  · right
    refine ⟨_, h, ?_⟩
    have h2 : (2 : ℚ) ≠ 0 := by norm_num
    by_cases he : binade q ≤ 52
    · -- the quantum is `1 / 2 ^ j`
      obtain ⟨j, hj⟩ : ∃ j : ℕ, binade q - 52 = -(j : ℤ) := ⟨(52 - binade q).toNat, by omega⟩
      rw [hj, zpow_neg, zpow_natCast]
      have hpj : (0 : ℚ) < 2 ^ j := by positivity
      have hle : (((2 ^ j : ℕ) : ℤ) : ℚ) ≤ q / (2 ^ j)⁻¹ := by
        rw [div_inv_eq_mul]
        push_cast
        nlinarith
      have hr := le_roundHalfEven _ _ hle
      have hr2 : ((2 : ℚ) ^ j) ≤ (roundHalfEven (q / (2 ^ j)⁻¹) : ℚ) := by
        have : ((((2 ^ j : ℕ) : ℤ)) : ℚ) ≤ (roundHalfEven (q / (2 ^ j)⁻¹) : ℚ) := by
          exact_mod_cast hr
        simpa using this
      calc (1 : ℚ) = 2 ^ j * (2 ^ j)⁻¹ := by field_simp
        _ ≤ (roundHalfEven (q / (2 ^ j)⁻¹) : ℚ) * (2 ^ j)⁻¹ :=
            mul_le_mul_of_nonneg_right hr2 (by positivity)
    · -- the quantum is `2 ^ j` for a natural `j`
      have hne : binade q ≠ -1022 := by omega
      have hb : (2 : ℚ) ^ binade q ≤ q := by
        rcases binade_spec q hpos with h1 | h1
        · exact absurd h1 hne
        · exact h1
      obtain ⟨j, hj⟩ : ∃ j : ℕ, binade q - 52 = (j : ℤ) := ⟨(binade q - 52).toNat, by omega⟩
      rw [hj, zpow_natCast]
      have hpj : (0 : ℚ) < 2 ^ j := by positivity
      have hpj1 : (1 : ℚ) ≤ 2 ^ j := one_le_pow₀ (by norm_num)
      have hle : ((1 : ℤ) : ℚ) ≤ q / 2 ^ j := by
        rw [le_div_iff₀ hpj]
        have hbe : binade q = (j : ℤ) + 52 := by omega
        rw [hbe, zpow_add₀ h2, zpow_natCast] at hb
        have h52 : (1 : ℚ) ≤ 2 ^ (52 : ℤ) := by norm_num
        push_cast
        nlinarith
      have hr := le_roundHalfEven _ _ hle
      have hr2 : (1 : ℚ) ≤ (roundHalfEven (q / 2 ^ j) : ℚ) := by exact_mod_cast hr
      nlinarith

/-- Rounding a positive number that is at most the natural number `K`,
itself below `2^53`, gives a finite number between 0 and `K`. -/
theorem nearest_le_nat (q : ℚ) (K : ℕ) (hq : 0 < q) (hK : q ≤ K) (hK53 : K < 2 ^ 53) :
    ∃ v, nearest q = .fin v ∧ 0 ≤ v ∧ v ≤ K := by
  have h2 : (2 : ℚ) ≠ 0 := by norm_num
  have hK53q : (K : ℚ) < 2 ^ (53 : ℤ) := by
    have h1 : ((K : ℕ) : ℚ) < ((2 ^ 53 : ℕ) : ℚ) := by exact_mod_cast hK53
    have h3 : (((2 ^ 53 : ℕ)) : ℚ) = (2 : ℚ) ^ (53 : ℤ) := by norm_num
    rw [h3] at h1
    exact h1
  have he : binade q ≤ 52 := by
    rcases binade_spec q hq with h1 | h1
    · omega
    · have hlt : (2 : ℚ) ^ binade q < 2 ^ (53 : ℤ) := lt_of_le_of_lt (le_trans h1 hK) hK53q
      have := (zpow_lt_zpow_iff_right₀ (by norm_num : (1 : ℚ) < 2)).mp hlt
      omega
  obtain ⟨j, hj⟩ : ∃ j : ℕ, binade q - 52 = -(j : ℤ) := ⟨(52 - binade q).toNat, by omega⟩
  have hpj : (0 : ℚ) < 2 ^ j := by positivity
  have hle : q / (2 ^ j)⁻¹ ≤ (((K * 2 ^ j : ℕ) : ℤ) : ℚ) := by
    rw [div_inv_eq_mul]
    push_cast
    exact mul_le_mul_of_nonneg_right hK (le_of_lt hpj)
  have hr := roundHalfEven_le _ _ hle
  have hr2 : (roundHalfEven (q / (2 ^ j)⁻¹) : ℚ) ≤ (K : ℚ) * 2 ^ j := by
    have : (roundHalfEven (q / (2 ^ j)⁻¹) : ℚ) ≤ (((K * 2 ^ j : ℕ) : ℤ) : ℚ) := by
      exact_mod_cast hr
    simpa using this
  have hr0 : (0 : ℚ) ≤ (roundHalfEven (q / (2 ^ j)⁻¹) : ℚ) := by
    have : (0 : ℤ) ≤ roundHalfEven (q / (2 ^ j)⁻¹) :=
      le_roundHalfEven _ 0 (by
        have : (0 : ℚ) ≤ q / (2 ^ j)⁻¹ := by positivity
        exact_mod_cast this)
    exact_mod_cast this
  have hm : (roundHalfEven (q / (2 ^ j)⁻¹) : ℚ) * (2 ^ j)⁻¹ ≤ K := by
    calc (roundHalfEven (q / (2 ^ j)⁻¹) : ℚ) * (2 ^ j)⁻¹
        ≤ ((K : ℚ) * 2 ^ j) * (2 ^ j)⁻¹ := mul_le_mul_of_nonneg_right hr2 (by positivity)
      _ = K := by field_simp
  unfold nearest
  rw [if_neg (ne_of_gt hq), abs_of_pos hq, hj, zpow_neg, zpow_natCast]
  simp only [hq, if_true, one_mul]
  have hbig : ¬ ((2 : ℚ) ^ (1024 : ℤ)
      ≤ (roundHalfEven (q / (2 ^ j)⁻¹) : ℚ) * (2 ^ j)⁻¹) := by
    intro hc
    have h53 : (2 : ℚ) ^ (53 : ℤ) ≤ 2 ^ (1024 : ℤ) :=
      zpow_le_zpow_right₀ (by norm_num) (by norm_num)
    linarith
  rw [if_neg hbig]
  exact ⟨_, rfl, by positivity, hm⟩

end Binary64
/-! ## Binary64 arithmetic: signs -/

namespace Binary64

theorem ge_zero_cases (x : Number) (h : JSNum.ge x (.fin 0) = true) :
    x = .pinf ∨ ∃ v, x = .fin v ∧ 0 ≤ v := by
  cases x with
  | fin v =>
    right
    exact ⟨v, rfl, by simpa [JSNum.ge] using h⟩
  | nan => simp [JSNum.ge] at h
  | pinf =>
    left
    rfl
  | ninf => simp [JSNum.ge] at h

theorem ge_zero_fin (v : ℚ) (h : 0 ≤ v) : JSNum.ge (.fin v : Number) (.fin 0) = true := by
  simpa [JSNum.ge] using h

theorem nearest_ge_zero (q : ℚ) (hq : 0 ≤ q) : JSNum.ge (nearest q) (.fin 0) = true := by
  rcases nearest_nonneg q hq with h | ⟨v, h, hv⟩
  · rw [h]
    rfl
  · rw [h]
    exact ge_zero_fin v hv

theorem nearest_ne_nan (q : ℚ) : nearest q ≠ .nan := by
  unfold nearest
  split_ifs <;> simp

theorem add_ge_zero (x y : Number) (hx : JSNum.ge x (.fin 0) = true)
    (hy : JSNum.ge y (.fin 0) = true) : JSNum.ge (add x y) (.fin 0) = true := by
  rcases ge_zero_cases x hx with rfl | ⟨a, rfl, ha⟩ <;>
    rcases ge_zero_cases y hy with rfl | ⟨b, rfl, hb⟩
  · rfl
  · rfl
  · rfl
  · exact nearest_ge_zero _ (add_nonneg ha hb)

theorem foldl_add_ge_zero (xs : List Number) : ∀ a : Number, JSNum.ge a (.fin 0) = true →
    (∀ c ∈ xs, JSNum.ge c (.fin 0) = true) → JSNum.ge (xs.foldl add a) (.fin 0) = true := by
  induction xs with
  | nil =>
    intro a ha _
    exact ha
  | cons x rest ih =>
    intro a ha hall
    rw [List.foldl_cons]
    exact ih _ (add_ge_zero a x ha (hall x (List.mem_cons_self _ _)))
      (fun c hc => hall c (List.mem_cons_of_mem _ hc))

theorem reduceAdd0_ge_zero (xs : List Number) (h : ∀ c ∈ xs, JSNum.ge c (.fin 0) = true) :
    JSNum.ge (reduceAdd0 xs) (.fin 0) = true :=
  foldl_add_ge_zero xs _ (ge_zero_fin 0 (le_refl 0)) h

theorem div_ge_zero (x : Number) (k : ℚ) (hx : JSNum.ge x (.fin 0) = true) (hk : 0 < k) :
    JSNum.ge (div x (.fin k)) (.fin 0) = true := by
  rcases ge_zero_cases x hx with rfl | ⟨a, rfl, ha⟩
  · simp [div, JSNum.div, le_of_lt hk, rnd, JSNum.ge]
  · have h : div (.fin a) (.fin k) = nearest (a / k) := by
      simp [div, JSNum.div, ne_of_gt hk, rnd]
    rw [h]
    exact nearest_ge_zero _ (div_nonneg ha (le_of_lt hk))

theorem mul_ge_zero (x : Number) (k : ℚ) (hx : JSNum.ge x (.fin 0) = true) (hk : 0 < k) :
    JSNum.ge (mul x (.fin k)) (.fin 0) = true := by
  rcases ge_zero_cases x hx with rfl | ⟨a, rfl, ha⟩
  · simp [mul, JSNum.mul, JSNum.signedInf, ne_of_gt hk, hk, rnd, JSNum.ge]
  · have h : mul (.fin a) (.fin k) = nearest (a * k) := rfl
    rw [h]
    exact nearest_ge_zero _ (mul_nonneg ha (le_of_lt hk))

theorem pow2_sub_ge_zero (p m : ℚ) :
    JSNum.ge (pow2 (sub (.fin p) (.fin m))) (.fin 0) = true := by
  have h : sub (.fin p) (.fin m) = nearest (p + -m) := rfl
  rw [h]
  cases hn : nearest (p + -m) with
  | fin v => exact nearest_ge_zero _ (sq_nonneg v)
  | nan => exact absurd hn (nearest_ne_nan _)
  | pinf => rfl
  | ninf => rfl

theorem sqrt_ge_zero (x : Number) (hx : JSNum.ge x (.fin 0) = true) :
    JSNum.ge (sqrt x) (.fin 0) = true := by
  rcases ge_zero_cases x hx with rfl | ⟨a, rfl, ha⟩
  · rfl
  · simp only [sqrt]
    rw [if_neg (not_lt.mpr ha)]
    split_ifs
    · rfl
    · exact nearest_ge_zero _ (by positivity)
    · exact nearest_ge_zero _ (by positivity)

/-! ### The literals of the indicator helpers -/

theorem lit_hundred : lit 100 = .fin 100 := by decide!

theorem lit_one : lit 1 = .fin 1 := by decide!

theorem lit_fifty : lit 50 = .fin 50 := by decide!

theorem ofNat_fourteen : ofNat 14 = .fin 14 := by decide!

theorem lit_hundredth : lit (1 / 100) = .fin (5764607523034235 / 576460752303423488) := by
  decide!

/-! ### The last steps of `calculateRSI` -/

/-- The quotient `100 / (1 + rs)` subtracted from 100 stays between 0 and
100 when `1 + rs` is at least 1. -/
theorem hundred_sub_div (y : Number) (hy : y = .pinf ∨ ∃ v, y = .fin v ∧ 1 ≤ v) :
    ∃ v, sub (.fin 100) (div (.fin 100) y) = .fin v ∧ 0 ≤ v ∧ v ≤ 100 := by
  have hsub : ∀ w : ℚ, 0 ≤ w → w ≤ 100 →
      ∃ v, sub (.fin 100) (.fin w) = .fin v ∧ 0 ≤ v ∧ v ≤ 100 := by
    intro w hw0 hw
    have h : sub (.fin 100) (.fin w) = nearest (100 + -w) := rfl
    rw [h]
    rcases eq_or_lt_of_le hw with heq | hlt
    · subst heq
      exact ⟨0, by norm_num [nearest_zero], le_refl 0, by norm_num⟩
    · obtain ⟨v, hv, hv0, hv100⟩ := nearest_le_nat (100 + -w) 100 (by linarith)
        (by push_cast; linarith) (by norm_num)
      exact ⟨v, hv, hv0, by simpa using hv100⟩
  rcases hy with rfl | ⟨v, rfl, hv⟩
  · have h : div (.fin 100) (.pinf : Number) = .fin 0 := by
      simp [div, JSNum.div, rnd, nearest_zero]
    rw [h]
    exact hsub 0 (le_refl 0) (by norm_num)
  · have hv0 : (0 : ℚ) < v := by linarith
    have h : div (.fin 100) (.fin v) = nearest (100 / v) := by
      simp [div, JSNum.div, ne_of_gt hv0, rnd]
    rw [h]
    obtain ⟨w, hw, hw0, hw100⟩ := nearest_le_nat (100 / v) 100 (by positivity)
      (by
        push_cast
        rw [div_le_iff₀ hv0]
        nlinarith) (by norm_num)
    rw [hw]
    exact hsub w hw0 (by simpa using hw100)

/-- The last line of `calculateRSI` on a non-negative `rs`. -/
theorem rsi_of_rs (rs : Number) (h : JSNum.ge rs (.fin 0) = true) :
    ∃ v, sub (lit 100) (div (lit 100) (add (lit 1) rs)) = .fin v ∧ 0 ≤ v ∧ v ≤ 100 := by
  rw [lit_hundred, lit_one]
  apply hundred_sub_div
  rcases ge_zero_cases rs h with rfl | ⟨s, rfl, hs⟩
  · left
    rfl
  · have h1 : add (.fin 1) (.fin s) = nearest (1 + s) := rfl
    rw [h1]
    exact nearest_ge_one _ (by linarith)

/-- The quotient `rs = avgGain / avgLoss` of two non-negative averages, the
second not zero: non-negative, or `NaN` when both are `+Infinity`. -/
theorem rs_cases (g l : Number) (hg : JSNum.ge g (.fin 0) = true)
    (hl : JSNum.ge l (.fin 0) = true) (hl0 : JSNum.strictEq l (.fin 0) = false) :
    JSNum.ge (div g l) (.fin 0) = true ∨ (div g l = .nan ∧ g = .pinf ∧ l = .pinf) := by
  rcases ge_zero_cases l hl with rfl | ⟨b, rfl, hb⟩
  · rcases ge_zero_cases g hg with rfl | ⟨a, rfl, ha⟩
    · right
      exact ⟨rfl, rfl, rfl⟩
    · left
      simp [div, JSNum.div, rnd, nearest_zero, JSNum.ge]
  · have hb0 : b ≠ 0 := by
      intro h0
      simp [JSNum.strictEq, h0] at hl0
    left
    exact div_ge_zero g b hg (lt_of_le_of_ne hb (Ne.symm hb0))

theorem calculateRSI_eq (prices : List Number) (period : Nat) :
    calculateRSI prices period
      = if prices.length < period + 1 then lit 50
        else if JSNum.strictEq (avgLoss prices period) (.fin 0) then lit 100
        else sub (lit 100) (div (lit 100)
          (add (lit 1) (div (avgGain prices period) (avgLoss prices period)))) := rfl

theorem gt_zero_ge_zero (c : Number) (h : JSNum.gt c (.fin 0) = true) :
    JSNum.ge c (.fin 0) = true := by
  cases c with
  | fin v =>
    have : 0 < v := by simpa [JSNum.gt, JSNum.lt] using h
    exact ge_zero_fin v (le_of_lt this)
  | nan => simp [JSNum.gt, JSNum.lt] at h
  | pinf => rfl
  | ninf => simp [JSNum.gt, JSNum.lt] at h

theorem abs_ge_zero_of_lt (c : Number) (h : JSNum.lt c (.fin 0) = true) :
    JSNum.ge (JSNum.abs c) (.fin 0) = true := by
  cases c with
  | fin v => exact ge_zero_fin _ (abs_nonneg v)
  | nan => simp [JSNum.lt] at h
  | pinf => rfl
  | ninf => rfl

theorem avgGain_ge_zero (prices : List Number) :
    JSNum.ge (avgGain prices 14) (.fin 0) = true := by
  unfold avgGain
  split_ifs
  · rw [ofNat_fourteen]
    refine div_ge_zero _ 14 (reduceAdd0_ge_zero _ ?_) (by norm_num)
    intro c hc
    exact gt_zero_ge_zero c (List.mem_filter.mp hc).2
  · rw [lit_hundredth]
    exact ge_zero_fin _ (by norm_num)

theorem avgLoss_ge_zero (prices : List Number) :
    JSNum.ge (avgLoss prices 14) (.fin 0) = true := by
  unfold avgLoss
  split_ifs
  · rw [ofNat_fourteen]
    refine div_ge_zero _ 14 (reduceAdd0_ge_zero _ ?_) (by norm_num)
    intro c hc
    obtain ⟨d, hd, rfl⟩ := List.mem_map.mp hc
    exact abs_ge_zero_of_lt d (List.mem_filter.mp hd).2
  · rw [lit_hundredth]
    exact ge_zero_fin _ (by norm_num)

end Binary64
/-! ## Binary64 arithmetic: when the helpers return -/

namespace Binary64

theorem reduceAdd_returns (xs : List Number) (h : xs ≠ []) : ∃ v, reduceAdd xs = .ok v := by
  cases xs with
  | nil => exact absurd rfl h
  | cons a rest => exact ⟨_, rfl⟩

theorem reduceAdd_ge_zero (xs : List Number) (h : xs ≠ [])
    (hall : ∀ c ∈ xs, JSNum.ge c (.fin 0) = true) :
    ∃ s, reduceAdd xs = .ok s ∧ JSNum.ge s (.fin 0) = true := by
  cases xs with
  | nil => exact absurd rfl h
  | cons a rest =>
    exact ⟨_, rfl, foldl_add_ge_zero rest a (hall a (List.mem_cons_self _ _))
      (fun c hc => hall c (List.mem_cons_of_mem _ hc))⟩

theorem foldl_add_zeros (xs : List Number) (hall : ∀ c ∈ xs, c = .fin 0) :
    xs.foldl add (.fin 0) = .fin 0 := by
  induction xs with
  | nil => rfl
  | cons x rest ih =>
    have hx : x = .fin 0 := hall x (List.mem_cons_self _ _)
    subst hx
    rw [List.foldl_cons]
    have h0 : add (.fin 0) (.fin 0) = (.fin 0 : Number) := by
      simp [add, JSNum.add, rnd, nearest_zero]
    rw [h0]
    exact ih (fun c hc => hall c (List.mem_cons_of_mem _ hc))

theorem reduceAdd_zeros (xs : List Number) (h : xs ≠ []) (hall : ∀ c ∈ xs, c = .fin 0) :
    reduceAdd xs = .ok (.fin 0) := by
  cases xs with
  | nil => exact absurd rfl h
  | cons a rest =>
    have ha : a = .fin 0 := hall a (List.mem_cons_self _ _)
    subst ha
    simp only [reduceAdd]
    rw [foldl_add_zeros rest (fun c hc => hall c (List.mem_cons_of_mem _ hc))]

theorem calculateVolatility_returns (prices : List Number) (h : prices ≠ []) :
    ∃ v, calculateVolatility prices = .ok v := by
  obtain ⟨total, ht⟩ := reduceAdd_returns prices h
  obtain ⟨sq, hsq⟩ := reduceAdd_returns
    (prices.map (fun p => pow2 (sub p (div total (ofNat prices.length))))) (by simpa using h)
  unfold calculateVolatility
  simp only [bind, Except.bind, ht, hsq, pure, Except.pure]
  exact ⟨_, rfl⟩

theorem calculateMA_returns (prices : List Number) (period : Nat) (h : prices ≠ [])
    (hp : 1 ≤ period) : ∃ v, calculateMA prices period = .ok v := by
  obtain ⟨total, ht⟩ := reduceAdd_returns (sliceFrom prices (-(period : Int)))
    (by rw [sliceFrom_neg _ _ hp]; exact lastElems_ne_nil _ _ hp h)
  unfold calculateMA
  simp only [bind, Except.bind, ht, pure, Except.pure]
  exact ⟨_, rfl⟩

theorem calculateVolumeTrend_returns (prices : List Number) :
    ∃ v, calculateVolumeTrend prices = .ok v := by
  by_cases h : prices.length < 20
  · refine ⟨.fin 0, ?_⟩
    unfold calculateVolumeTrend
    simp only [h, if_true, pure, Except.pure]
  · have h20 : 20 ≤ prices.length := by omega
    obtain ⟨recent, hr⟩ := reduceAdd_returns (sliceFrom prices (-10)) (by
      rw [sliceFrom_neg_ten]
      intro h0
      have := congrArg List.length h0
      rw [lastElems_length, List.length_nil] at this
      omega)
    obtain ⟨old, ho⟩ := reduceAdd_returns (sliceRange prices (-20) (-10)) (by
      rw [sliceRange_neg_twenty_ten _ h20]
      intro h0
      have := congrArg List.length h0
      rw [List.length_take, lastElems_length, List.length_nil] at this
      omega)
    unfold calculateVolumeTrend
    simp only [h, if_false, bind, Except.bind, hr, ho, pure, Except.pure]
    exact ⟨_, rfl⟩

theorem priceChanges_length : ∀ xs : List Number, (priceChanges xs).length = xs.length - 1
  | [] => rfl
  | [_] => rfl
  | a :: b :: rest => by
    simp [priceChanges, priceChanges_length (b :: rest)]

theorem recentChanges_length (prices : List Number) (h : 15 ≤ prices.length) :
    (recentChanges prices 14).length = 14 := by
  unfold recentChanges
  rw [sliceFrom_neg _ 14 (by norm_num), lastElems_length, priceChanges_length]
  omega

/-- The two arrays the collector returns: one entry per rule whose condition
holds, in the order of the rules. -/
theorem collectSignals_eq (rsi ma7 ma21 currentPrice : Number) (minPrice maxPrice : FixedStr)
    (predictionChange : FixedStr) (volumeTrend : Number) :
    collectSignals rsi ma7 ma21 currentPrice minPrice maxPrice predictionChange volumeTrend
      = ((if JSNum.lt rsi (lit 35)
            then [template ["RSI oversold (", toFixed rsi 0, " < 35)"]] else [])
          ++ (if JSNum.gt ma7 ma21 && JSNum.gt currentPrice ma7
            then ["Bullish MA crossover + price above MA7"] else [])
          ++ (if JSNum.lt currentPrice (mul minPrice.value (lit 1.05))
            then ["Near support level (bounce potential)"] else [])
          ++ (if JSNum.gt predictionChange.value (lit 2)
            then [template ["AI predicts +", predictionChange.text, "% gain"]] else [])
          ++ (if JSNum.gt volumeTrend (lit 5)
            then ["Volume increasing (+" ++ toFixed volumeTrend 1 ++ "%)"] else []),
        (if JSNum.gt rsi (lit 65)
            then [template ["RSI overbought (", toFixed rsi 0, " > 65)"]] else [])
          ++ (if JSNum.lt ma7 ma21 && JSNum.lt currentPrice ma7
            then ["Bearish MA crossover + price below MA7"] else [])
          ++ (if JSNum.gt currentPrice (mul maxPrice.value (lit 0.95))
            then ["Near resistance (pullback likely)"] else [])
          ++ (if JSNum.lt predictionChange.value (lit (-2))
            then [template ["AI predicts ", predictionChange.text, "% loss"]] else [])
          ++ (if JSNum.lt volumeTrend (lit (-5))
            then ["Volume decreasing (" ++ toFixed volumeTrend 1 ++ "%)"] else [])) := by
  simp only [collectSignals, pushIf_eq, List.nil_append]

end Binary64

/-! ## The claims that depend on the rounding of doubles -/

/-- C5 as stated fails: on fifteen prices that alternate between `0` and
`1e308` the seven gains and the seven losses of `1e308` each sum to
`+Infinity`, so `avgGain / avgLoss` is `Infinity / Infinity` and
`calculateRSI` returns `NaN`, which lies in no interval. -/
theorem C5_calculateRSI_overflow_counterexample :
    Binary64.avgGain overflowSeries 14 = .pinf
    ∧ Binary64.avgLoss overflowSeries 14 = .pinf
    ∧ Binary64.calculateRSI overflowSeries 14 = .nan := by
  refine ⟨by decide!, by decide!, by decide!⟩

/-- C5, amended: for every array of numbers, `calculateRSI(prices, 14)`
computed in binary64 is a finite number between 0 and 100, or it is `NaN`,
and then `avgGain` and `avgLoss` have both overflowed to `+Infinity`. -/
theorem C5_calculateRSI_in_range_or_nan (prices : List Number) :
    (∃ v, Binary64.calculateRSI prices 14 = .fin v ∧ 0 ≤ v ∧ v ≤ 100)
    ∨ (Binary64.calculateRSI prices 14 = .nan
        ∧ Binary64.avgGain prices 14 = .pinf ∧ Binary64.avgLoss prices 14 = .pinf) := by
  rw [Binary64.calculateRSI_eq]
  split_ifs with h1 h2
  · left
    exact ⟨50, Binary64.lit_fifty, by norm_num, by norm_num⟩
  · left
    exact ⟨100, Binary64.lit_hundred, by norm_num, by norm_num⟩
  · have hl0 : JSNum.strictEq (Binary64.avgLoss prices 14) (.fin 0) = false := by
      simpa using h2
    rcases Binary64.rs_cases _ _ (Binary64.avgGain_ge_zero prices)
      (Binary64.avgLoss_ge_zero prices) hl0 with hrs | ⟨hnan, hg, hl⟩
    · left
      exact Binary64.rsi_of_rs _ hrs
    · right
      refine ⟨?_, hg, hl⟩
      rw [hnan, Binary64.lit_hundred, Binary64.lit_one]
      rfl

/-- C16 as stated fails: on fourteen prices of 100 followed by `3e15` the
last 14 deltas hold no loss and one gain, `avgLoss` is the double `0.01`,
and `calculateRSI` returns exactly 100: `100 / (1 + rs)` is below half the
distance between 100 and the double before it. -/
theorem C16_calculateRSI_exactly_hundred_counterexample :
    15 ≤ jumpSeries.length
    ∧ (∀ c ∈ Binary64.recentChanges jumpSeries 14, JSNum.lt c (.fin 0) = false)
    ∧ (∃ c ∈ Binary64.recentChanges jumpSeries 14, JSNum.gt c (.fin 0) = true)
    ∧ Binary64.avgLoss jumpSeries 14 = Binary64.lit (1 / 100)
    ∧ Binary64.calculateRSI jumpSeries 14 = .fin 100 := by
  refine ⟨by decide, by decide!, by decide!, by decide!, by decide!⟩

/-- C16, amended: for every array of at least 15 numbers whose last 14
deltas, as computed, hold no loss, `avgLoss` is the double `0.01`, the branch
`avgLoss === 0` is not taken, `calculateRSI(prices, 14)` is
`100 - 100 / (1 + avgGain / 0.01)` evaluated in binary64, a finite number
between 0 and 100 (100 itself is possible); for 14 gains of 1 it is
`100 - 100 / 101` evaluated in binary64. -/
theorem C16_calculateRSI_no_loss_on_doubles (prices : List Number)
    (hlen : 15 ≤ prices.length)
    (hnoloss : ∀ c ∈ Binary64.recentChanges prices 14, JSNum.lt c (.fin 0) = false) :
    Binary64.avgLoss prices 14 = Binary64.lit (1 / 100)
    ∧ JSNum.strictEq (Binary64.avgLoss prices 14) (.fin 0) = false
    ∧ Binary64.calculateRSI prices 14
        = Binary64.sub (Binary64.lit 100) (Binary64.div (Binary64.lit 100)
            (Binary64.add (Binary64.lit 1)
              (Binary64.div (Binary64.avgGain prices 14) (Binary64.lit (1 / 100)))))
    ∧ (∃ v, Binary64.calculateRSI prices 14 = .fin v ∧ 0 ≤ v ∧ v ≤ 100)
    ∧ ((∀ c ∈ Binary64.recentChanges prices 14, c = .fin 1) →
        Binary64.calculateRSI prices 14
          = Binary64.sub (Binary64.lit 100) (Binary64.div (Binary64.lit 100)
              (Binary64.lit 101))) := by
  have hfilter : (Binary64.recentChanges prices 14).filter (fun c => JSNum.lt c (.fin 0)) = [] := by
    rw [List.filter_eq_nil_iff]
    intro c hc
    simp [hnoloss c hc]
  have hloss : Binary64.avgLoss prices 14 = Binary64.lit (1 / 100) := by
    unfold Binary64.avgLoss
    rw [hfilter]
    rfl
  have hl0 : JSNum.strictEq (Binary64.avgLoss prices 14) (.fin 0) = false := by
    rw [hloss]
    decide!
  have hrsi : Binary64.calculateRSI prices 14
      = Binary64.sub (Binary64.lit 100) (Binary64.div (Binary64.lit 100)
          (Binary64.add (Binary64.lit 1)
            (Binary64.div (Binary64.avgGain prices 14) (Binary64.lit (1 / 100))))) := by
    rw [Binary64.calculateRSI_eq, if_neg (by omega), hl0, hloss]
    rfl
  refine ⟨hloss, hl0, hrsi, ?_, ?_⟩
  · rw [hrsi]
    rcases Binary64.rs_cases _ _ (Binary64.avgGain_ge_zero prices)
      (Binary64.avgLoss_ge_zero prices) hl0 with hrs | ⟨_, _, hl⟩
    · rw [hloss] at hrs
      exact Binary64.rsi_of_rs _ hrs
    · rw [hloss, Binary64.lit_hundredth] at hl
      exact absurd hl (by simp)
  · intro hall
    have hrc : Binary64.recentChanges prices 14 = List.replicate 14 (.fin 1) :=
      List.eq_replicate_iff.mpr ⟨Binary64.recentChanges_length prices hlen, hall⟩
    have hg : Binary64.avgGain prices 14 = .fin 1 := by
      unfold Binary64.avgGain
      rw [hrc]
      decide!
    rw [hrsi, hg]
    decide!

/-- C16 on the prices 1, 2, ..., 15: no loss among the fourteen deltas, each
a gain of 1, and the result is `100 - 100 / 101` in binary64, the double
`99.00990099009901`. -/
theorem C16_calculateRSI_unit_gains_witness :
    15 ≤ unitGainSeries.length
    ∧ (∀ c ∈ Binary64.recentChanges unitGainSeries 14, JSNum.lt c (.fin 0) = false)
    ∧ Binary64.calculateRSI unitGainSeries 14
        = Binary64.sub (Binary64.lit 100) (Binary64.div (Binary64.lit 100) (Binary64.lit 101))
    ∧ Binary64.sub (Binary64.lit 100) (Binary64.div (Binary64.lit 100) (Binary64.lit 101))
        = .fin (6967202393828119 / 70368744177664) :=
  ⟨by decide, by decide!,
    (C16_calculateRSI_no_loss_on_doubles unitGainSeries (by decide) (by decide!)).2.2.2.2
      (by decide!),
    by decide!⟩
/-- C8 as stated fails, in each of its three parts: on `[0, 0]` the mean is
zero and the result is `NaN`, which is not `>= 0`; on seven prices of `150.3`
the computed mean is not `150.3`, and the result is not zero although all
elements are equal; on `[1e-200, 3e-200]` the squared deviations underflow to
zero, and the result is zero although the elements differ. -/
theorem C8_calculateVolatility_rounding_counterexample :
    Binary64.calculateVolatility [.fin 0, .fin 0] = .ok .nan
    ∧ (constantSeries = List.replicate 7 (Binary64.lit 150.3)
        ∧ (Binary64.calculateVolatility constantSeries).map (fun v => JSNum.gt v (.fin 0))
            = .ok true)
    ∧ (tinySeries = [Binary64.lit 1e-200, Binary64.lit 3e-200]
        ∧ Binary64.lit 1e-200 ≠ Binary64.lit 3e-200
        ∧ Binary64.calculateVolatility tinySeries = .ok (.fin 0)) := by
  refine ⟨by decide!, ⟨rfl, by decide!⟩, rfl, by decide!, by decide!⟩

/-- C8, amended: for every series of finite numbers whose mean, as computed
in binary64, is a positive number `m`, `calculateVolatility` returns a value
that is `>= 0` (a finite number that is not negative, or `+Infinity`), and it
returns 0 when every element equals `m`. -/
theorem C8_calculateVolatility_nonneg_on_doubles (series : List ℚ) (total : Number) (m : ℚ)
    (htotal : Binary64.reduceAdd (series.map JSNum.fin) = .ok total)
    (hmean : Binary64.div total (Binary64.ofNat series.length) = .fin m) (hm : 0 < m) :
    ∃ v, Binary64.calculateVolatility (series.map JSNum.fin) = .ok v
      ∧ JSNum.ge v (.fin 0) = true
      ∧ ((∀ p ∈ series, p = m) → v = .fin 0) := by
  have hne : series ≠ [] := by
    rintro rfl
    simp [Binary64.reduceAdd] at htotal
  have hlen1 : (1 : ℚ) ≤ (series.length : ℚ) := by
    have : 1 ≤ series.length := List.length_pos.mpr hne
    exact_mod_cast this
  obtain ⟨k, hk, hk1⟩ : ∃ k, Binary64.ofNat series.length = .fin k ∧ 1 ≤ k := by
    rcases Binary64.nearest_ge_one _ hlen1 with h | h
    · exfalso
      have h2 : Binary64.ofNat series.length = .pinf := h
      rw [h2] at hmean
      cases total with
      | fin a =>
        simp [Binary64.div, JSNum.div, Binary64.rnd, Binary64.nearest_zero] at hmean
        exact absurd hmean.symm (ne_of_gt hm)
      | nan => simp [Binary64.div, JSNum.div, Binary64.rnd] at hmean
      | pinf => simp [Binary64.div, JSNum.div, Binary64.rnd] at hmean
      | ninf => simp [Binary64.div, JSNum.div, Binary64.rnd] at hmean
    · exact h
  have hk0 : (0 : ℚ) < k := by linarith
  have hsdne : (series.map JSNum.fin).map
      (fun p => Binary64.pow2 (Binary64.sub p (.fin m))) ≠ [] := by
    simpa using hne
  obtain ⟨sq, hsq, hsq0⟩ := Binary64.reduceAdd_ge_zero _ hsdne (by
    intro c hc
    simp only [List.map_map, List.mem_map, Function.comp] at hc
    obtain ⟨p, _, rfl⟩ := hc
    exact Binary64.pow2_sub_ge_zero p m)
  refine ⟨Binary64.mul (Binary64.div (Binary64.sqrt (Binary64.div sq (.fin k))) (.fin m))
    (Binary64.lit 100), ?_, ?_, ?_⟩
  · have hmean2 := hmean
    rw [hk] at hmean2
    unfold Binary64.calculateVolatility
    simp only [bind, Except.bind, htotal, List.length_map, hk, hmean2, hsq, pure, Except.pure]
  · rw [Binary64.lit_hundred]
    exact Binary64.mul_ge_zero _ 100
      (Binary64.div_ge_zero _ m
        (Binary64.sqrt_ge_zero _ (Binary64.div_ge_zero sq k hsq0 hk0)) hm) (by norm_num)
  · intro hall
    have hz := Binary64.reduceAdd_zeros _ hsdne (by
      intro c hc
      simp only [List.map_map, List.mem_map, Function.comp] at hc
      obtain ⟨p, hp, rfl⟩ := hc
      rw [hall p hp]
      simp [Binary64.sub, JSNum.sub, JSNum.neg, JSNum.add, Binary64.pow2, JSNum.pow2,
        Binary64.rnd, Binary64.nearest_zero])
    rw [hz] at hsq
    have hsq2 : sq = .fin 0 := by
      injection hsq with h
      exact h.symm
    rw [hsq2, Binary64.lit_hundred]
    simp [Binary64.div, JSNum.div, Binary64.mul, JSNum.mul, Binary64.sqrt, Binary64.rnd,
      Binary64.nearest_zero, ne_of_gt hk0, ne_of_gt hm]

/-- C8 on the constant series `[50, 50, 50, 50]`: the sum is 200 and the
computed mean is 50, a positive number that every element equals; the
volatility is 0. -/
theorem C8_calculateVolatility_constant_witness :
    Binary64.reduceAdd (([50, 50, 50, 50] : List ℚ).map JSNum.fin) = .ok (.fin 200)
    ∧ Binary64.calculateVolatility (([50, 50, 50, 50] : List ℚ).map JSNum.fin)
        = .ok (.fin 0) := by
  have ht : Binary64.reduceAdd (([50, 50, 50, 50] : List ℚ).map JSNum.fin) = .ok (.fin 200) := by
    decide!
  obtain ⟨v, hv, _, hz⟩ := C8_calculateVolatility_nonneg_on_doubles [50, 50, 50, 50]
    (.fin 200) 50 ht (by decide!) (by norm_num)
  refine ⟨ht, ?_⟩
  rw [hv, hz (by simp)]

/-- C12 as stated fails: on the prices `100, 100, 100.06` and the prediction
`100.02`, read as doubles, the mean of the predictions is below the mean of
the prices, yet the trend is Bullish: the computed mean of the prices rounds
down to the double of the prediction. -/
theorem C12_trend_rounding_counterexample :
    (∃ hist pred : List ℚ,
      closeMeansResponse.historical_prices = some (hist.map JSNum.fin)
      ∧ closeMeansResponse.predictions = some (pred.map JSNum.fin)
      ∧ arithMean pred < arithMean hist)
    ∧ Binary64.trend closeMeansResponse = "Bullish" := by
  refine ⟨⟨[100, 100, 1760274135604265 / 17592186044416],
    [7038281792649953 / 70368744177664], by decide!, by decide!, ?_⟩, by decide!⟩
  norm_num [arithMean]

/-- C12, amended: the trend is Neutral exactly when one of the two series is
empty (or absent); on two non-empty series it is Bullish when the mean of the
predictions is `>=` the mean of the historical prices, both as computed in
binary64 (the sum from 0, left to right, divided by the length), and Bearish
otherwise; whenever both computed means equal the exact means of two finite
series, that is the comparison of the exact means. -/
theorem C12_trend_rule_on_doubles (json : RawResponse) :
    (Binary64.trend json = "Neutral"
        ↔ json.historical_prices.getD [] = [] ∨ json.predictions.getD [] = [])
    ∧ (json.historical_prices.getD [] ≠ [] → json.predictions.getD [] ≠ [] →
        Binary64.trend json
          = (if JSNum.ge
                (Binary64.div (Binary64.reduceAdd0 (json.predictions.getD []))
                  (Binary64.ofNat (json.predictions.getD []).length))
                (Binary64.div (Binary64.reduceAdd0 (json.historical_prices.getD []))
                  (Binary64.ofNat (json.historical_prices.getD []).length))
              then "Bullish" else "Bearish"))
    ∧ ∀ hist pred : List ℚ, hist ≠ [] → pred ≠ [] →
        json.historical_prices = some (hist.map JSNum.fin) →
        json.predictions = some (pred.map JSNum.fin) →
        Binary64.div (Binary64.reduceAdd0 (hist.map JSNum.fin)) (Binary64.ofNat hist.length)
          = .fin (arithMean hist) →
        Binary64.div (Binary64.reduceAdd0 (pred.map JSNum.fin)) (Binary64.ofNat pred.length)
          = .fin (arithMean pred) →
        Binary64.trend json
          = (if arithMean hist ≤ arithMean pred then "Bullish" else "Bearish") := by
  refine ⟨?_, ?_, ?_⟩
  · unfold Binary64.trend
    simp only
    by_cases h : (json.historical_prices.getD []).length > 0
        ∧ (json.predictions.getD []).length > 0
    · rw [if_pos h]
      have h1 : json.historical_prices.getD [] ≠ [] := List.length_pos.mp h.1
      have h2 : json.predictions.getD [] ≠ [] := List.length_pos.mp h.2
      constructor
      · intro hn
        split at hn <;> simp at hn
      · rintro (hc | hc)
        · exact absurd hc h1
        · exact absurd hc h2
    · rw [if_neg h]
      simp only [true_iff]
      by_contra hcon
      push_neg at hcon
      exact h ⟨List.length_pos.mpr hcon.1, List.length_pos.mpr hcon.2⟩
  · intro h1 h2
    unfold Binary64.trend
    simp only
    rw [if_pos ⟨List.length_pos.mpr h1, List.length_pos.mpr h2⟩]
  · intro hist pred hh hp ejh ejp emh emp
    have lh : 0 < (hist.map (JSNum.fin : ℚ → Number)).length := by
      simpa using List.length_pos.mpr hh
    have lp : 0 < (pred.map (JSNum.fin : ℚ → Number)).length := by
      simpa using List.length_pos.mpr hp
    unfold Binary64.trend
    simp only [ejh, ejp, Option.getD_some]
    rw [if_pos ⟨lh, lp⟩]
    simp only [List.length_map]
    rw [emh, emp]
    simp [JSNum.ge]

/-- C12 on the prices `[100, 102]` with the predictions `[103]`: both
computed means are exact, 101 and 103, and the trend is Bullish. -/
theorem C12_trend_on_doubles_witness :
    Binary64.trend (RawResponse.mk none none (some (([100, 102] : List ℚ).map JSNum.fin))
      (some (([103] : List ℚ).map JSNum.fin)) none none) = "Bullish" := by
  rw [(C12_trend_rule_on_doubles _).2.2 [100, 102] [103] (by simp) (by simp) rfl rfl
    (by decide!) (by decide!)]
  norm_num [arithMean]
/-- C3 as stated fails: on one price of 1000 and a prediction of 1020.04 the
predicted change, computed in binary64, is `2.0039999999999965`, above 2, yet
`buySignals` holds the support entry only: the rule compares the text
`"2.00"` that `toFixed(2)` made of the change. -/
theorem C3_signal_thresholds_on_doubles_counterexample :
    JSNum.gt (Binary64.mul (Binary64.div
        (Binary64.sub (Binary64.lit 1020.04) (Binary64.lit 1000)) (Binary64.lit 1000))
        (Binary64.lit 100)) (Binary64.lit 2) = true
    ∧ toFixed (Binary64.mul (Binary64.div
        (Binary64.sub (Binary64.lit 1020.04) (Binary64.lit 1000)) (Binary64.lit 1000))
        (Binary64.lit 100)) 2 = "2.00"
    ∧ Binary64.analysisSignals doubleRounding
        = .ok (["Near support level (bounce potential)"],
            ["Near resistance (pullback likely)"]) := by
  refine ⟨by decide!, by decide!, by decide!⟩

/-- C3, amended: whenever both series are non-empty the two arrays are
produced, and `buySignals` holds exactly one entry for each buy rule that
holds and `sellSignals` one for each sell rule that holds, in the order of the
rules: the thresholds 35/65 for the RSI, the crossover of the two moving
averages with the price beyond the 7-day one, 5% around the minimum and the
maximum, 2% for the predicted change and 5% for the volume trend.  Every
quantity is the one computed in binary64, and the minimum, the maximum and the
predicted change enter the rules as the numbers their `toFixed(2)` texts
convert back to. -/
theorem C3_signal_rules_on_doubles (data : PredictionResult)
    (hp : data.historicalPrices ≠ []) (hq : data.predictions ≠ []) :
    ∃ ma7 ma21 volumeTrend currentPrice predictedPrice : Number,
      Binary64.calculateMA data.historicalPrices 7 = .ok ma7
      ∧ Binary64.calculateMA data.historicalPrices 21 = .ok ma21
      ∧ Binary64.calculateVolumeTrend data.historicalPrices = .ok volumeTrend
      ∧ data.historicalPrices.getLast? = some currentPrice
      ∧ data.predictions.getLast? = some predictedPrice
      ∧ Binary64.analysisSignals data = .ok
        ((if JSNum.lt (Binary64.calculateRSI data.historicalPrices 14) (Binary64.lit 35)
            then [template ["RSI oversold (",
              toFixed (Binary64.calculateRSI data.historicalPrices 14) 0, " < 35)"]] else [])
          ++ (if JSNum.gt ma7 ma21 && JSNum.gt currentPrice ma7
            then ["Bullish MA crossover + price above MA7"] else [])
          ++ (if JSNum.lt currentPrice
                (Binary64.mul (Binary64.mkFixed (mathMin data.historicalPrices) 2).value
                  (Binary64.lit 1.05))
            then ["Near support level (bounce potential)"] else [])
          ++ (if JSNum.gt (Binary64.mkFixed (Binary64.mul (Binary64.div
                (Binary64.sub predictedPrice currentPrice) currentPrice)
                (Binary64.lit 100)) 2).value (Binary64.lit 2)
            then [template ["AI predicts +", (Binary64.mkFixed (Binary64.mul (Binary64.div
                (Binary64.sub predictedPrice currentPrice) currentPrice)
                (Binary64.lit 100)) 2).text, "% gain"]] else [])
          ++ (if JSNum.gt volumeTrend (Binary64.lit 5)
            then ["Volume increasing (+" ++ toFixed volumeTrend 1 ++ "%)"] else []),
        (if JSNum.gt (Binary64.calculateRSI data.historicalPrices 14) (Binary64.lit 65)
            then [template ["RSI overbought (",
              toFixed (Binary64.calculateRSI data.historicalPrices 14) 0, " > 65)"]] else [])
          ++ (if JSNum.lt ma7 ma21 && JSNum.lt currentPrice ma7
            then ["Bearish MA crossover + price below MA7"] else [])
          ++ (if JSNum.gt currentPrice
                (Binary64.mul (Binary64.mkFixed (mathMax data.historicalPrices) 2).value
                  (Binary64.lit 0.95))
            then ["Near resistance (pullback likely)"] else [])
          ++ (if JSNum.lt (Binary64.mkFixed (Binary64.mul (Binary64.div
                (Binary64.sub predictedPrice currentPrice) currentPrice)
                (Binary64.lit 100)) 2).value (Binary64.lit (-2))
            then [template ["AI predicts ", (Binary64.mkFixed (Binary64.mul (Binary64.div
                (Binary64.sub predictedPrice currentPrice) currentPrice)
                (Binary64.lit 100)) 2).text, "% loss"]] else [])
          ++ (if JSNum.lt volumeTrend (Binary64.lit (-5))
            then ["Volume decreasing (" ++ toFixed volumeTrend 1 ++ "%)"] else [])) := by
  obtain ⟨vol, hvol⟩ := Binary64.calculateVolatility_returns _ hp
  obtain ⟨total, htot⟩ := Binary64.reduceAdd_returns _ hp
  obtain ⟨ma7, h7⟩ := Binary64.calculateMA_returns _ 7 hp (by norm_num)
  obtain ⟨ma21, h21⟩ := Binary64.calculateMA_returns _ 21 hp (by norm_num)
  obtain ⟨vt, hvt⟩ := Binary64.calculateVolumeTrend_returns data.historicalPrices
  obtain ⟨cur, hcur⟩ : ∃ c, data.historicalPrices.getLast? = some c :=
    ⟨_, List.getLast?_eq_getLast _ hp⟩
  obtain ⟨pred, hpred⟩ : ∃ c, data.predictions.getLast? = some c :=
    ⟨_, List.getLast?_eq_getLast _ hq⟩
  refine ⟨ma7, ma21, vt, cur, pred, h7, h21, hvt, hcur, hpred, ?_⟩
  unfold Binary64.analysisSignals
  simp only [bind, Except.bind, hvol, htot, h7, h21, hvt, hcur, hpred, requireNumber, pure,
    Except.pure, toNumber, Binary64.collectSignals_eq]

/-- C3 on two inputs in doubles.  On one price of 20000 and a prediction of
20401 the computed change is the double just below `2.005`, whose text is
`"2.00"`: no prediction entry, and the two proximity entries only.  On
twenty-one prices of `50.1` the computed 7-day mean is below the computed
21-day mean and above the price: the bearish crossover entry is pushed. -/
theorem C3_signal_rules_on_doubles_witness :
    (doubleConstant.historicalPrices ≠ [] ∧ doubleConstant.predictions ≠ [])
    ∧ Binary64.analysisSignals doubleHalfCent
        = .ok (["Near support level (bounce potential)"],
            ["Near resistance (pullback likely)"])
    ∧ Binary64.analysisSignals doubleConstant
        = .ok (["Near support level (bounce potential)"],
            ["Bearish MA crossover + price below MA7", "Near resistance (pullback likely)"])
    ∧ ∃ ma7 ma21 currentPrice : Number,
        Binary64.calculateMA doubleConstant.historicalPrices 7 = .ok ma7
        ∧ Binary64.calculateMA doubleConstant.historicalPrices 21 = .ok ma21
        ∧ doubleConstant.historicalPrices.getLast? = some currentPrice
        ∧ (JSNum.lt ma7 ma21 && JSNum.lt currentPrice ma7) = true := by
  obtain ⟨ma7, ma21, _, cur, _, h7, h21, _, hcur, _, _⟩ :=
    C3_signal_rules_on_doubles doubleConstant (by decide) (by decide)
  refine ⟨⟨by decide, by decide⟩, by decide!, by decide!, ma7, ma21, cur, h7, h21, hcur, ?_⟩
  have e7 : Binary64.calculateMA doubleConstant.historicalPrices 7
      = .ok (Binary64.div (Binary64.reduceAdd0 (List.replicate 7 (Binary64.lit 50.1)))
          (Binary64.lit 7)) := by decide!
  have e21 : Binary64.calculateMA doubleConstant.historicalPrices 21
      = .ok (Binary64.div (Binary64.reduceAdd0 (List.replicate 21 (Binary64.lit 50.1)))
          (Binary64.lit 21)) := by decide!
  have ecur : doubleConstant.historicalPrices.getLast? = some (Binary64.lit 50.1) := by decide!
  rw [e7] at h7
  rw [e21] at h21
  rw [ecur] at hcur
  injection h7 with h7
  injection h21 with h21
  injection hcur with hcur
  subst h7 h21 hcur
  decide!
